import Mathlib

/-!
# Drafting and report pagination of the structural-drafting client

A shallow embedding of the parts of `src/printout.js` (report pagination),
`src/drafting.js` (per-floor drafting state, history, structure editing) and
`src/analysis.js` (the slab table) that the properties below are about, followed by the
properties themselves.

Conventions of the embedding:

* JavaScript numbers that hold coordinates, lengths and scale factors are finite and
  are represented by rationals, with exact arithmetic; `null` is `none`.
* DOM and canvas objects are records of the attributes the code reads or writes;
  handlers are functions from the state before the event to the state after it.
* Where a distance is only compared, it is kept as its square (`Dist`); where the code
  computes with the result of `Math.hypot`, that built-in is a parameter `mathHypot` of
  the function, and so are `getClientRect()` of the canvas library and the conversions
  of the text entered at a prompt.
* In the report, the DOM element built for a content, with the height the page layout
  gives it, comes from a parameter `element`; the built-in `toLowerCase` is a parameter
  as well; a detail renderer is given by the contents it appends for a member.
* The response of the analysis service is a parameter of `submitAll`: the way the
  request ends, and the parsed object if there is one.
-/

set_option autoImplicit false

/-! ## `src/printout.js`: the pagination engine -/

namespace Printout

/-- A content block: a DOM node handed to `checkOverflowAndAdd`, with the height it
takes when laid out in a page body. -/
structure Block where
  html : String
  height : Int
deriving DecidableEq, Repr

/-- A `.page` element of the report: its sheet number (`page-<num>`) and the children
of its `.calc-body`, in document order. -/
structure Page where
  num : Nat
  body : List Block
deriving DecidableEq, Repr

/-- The module state of `printout.js` that pagination touches. `pages` are the pages of
`#report-container` that precede the current one; `currentPage` is the body that
`currentPage` points to, which is always the page appended last; `pageCount` is the
counter. -/
structure Report where
  pages : List Page
  currentPage : Option Page
  pageCount : Nat
deriving DecidableEq, Repr

/-- The children of `#report-container`, in document order. -/
def Report.allPages (r : Report) : List Page :=
  r.pages ++ r.currentPage.toList

/-- Module state at load: `currentPage = null`, `pageCount = 0`, empty container. -/
def initial : Report :=
  { pages := [], currentPage := none, pageCount := 0 }

/-- `const PAGE_HEIGHT_BUDGET = 760`. -/
def PAGE_HEIGHT_BUDGET : Int := 760

/-- `currentPage.scrollHeight`: the height of a page body is the sum of the heights of
its blocks. -/
def scrollHeight (body : List Block) : Int :=
  (body.map Block.height).sum

/-- `createNewPage()`: bump the counter, append a fresh page to the container and make
its body the current page. -/
def createNewPage (r : Report) : Report :=
  { pages := r.pages ++ r.currentPage.toList
    currentPage := some { num := r.pageCount + 1, body := [] }
    pageCount := r.pageCount + 1 }

/-- `currentPage.appendChild(node)`. -/
def appendChild (r : Report) (node : Block) : Report :=
  { r with currentPage := r.currentPage.map fun p => { p with body := p.body ++ [node] } }

/-- `currentPage.removeChild(node)` for the node that was appended last. -/
def removeChild (r : Report) : Report :=
  { r with currentPage := r.currentPage.map fun p => { p with body := p.body.dropLast } }

/-- `currentPage.children.length > 0`. -/
def hasContent (r : Report) : Bool :=
  match r.currentPage with
  | some p => decide (p.body.length > 0)
  | none => false

/-- `currentPage.scrollHeight` of the current page (0 when there is none). -/
def currentHeight (r : Report) : Int :=
  match r.currentPage with
  | some p => scrollHeight p.body
  | none => 0

/-- `checkOverflowAndAdd(node)`. -/
def checkOverflowAndAdd (r : Report) (node : Block) : Report :=
  let r1 := if r.currentPage.isNone then createNewPage r else r
  let had := hasContent r1
  let r2 := appendChild r1 node
  if currentHeight r2 > PAGE_HEIGHT_BUDGET ∧ had = true then
    appendChild (createNewPage (removeChild r2)) node
  else
    r2

/-- Passing a sequence of blocks one by one to `checkOverflowAndAdd`. -/
def addAll (start : Report) (blocks : List Block) : Report :=
  blocks.foldl checkOverflowAndAdd start

/-- The blocks of all pages, concatenated in page order. -/
def Report.blocks (r : Report) : List Block :=
  r.allPages.flatMap Page.body

/-- Every page over budget holds exactly one block. -/
def OverBudgetAlone (r : Report) : Prop :=
  ∀ p ∈ r.allPages, PAGE_HEIGHT_BUDGET < scrollHeight p.body → p.body.length = 1

/-- No page of the container is empty. -/
def NoEmptyPage (r : Report) : Prop :=
  ∀ p ∈ r.allPages, p.body ≠ []

/-! ### The page-range selector -/

/-- An `<option>` of `#chunk-select`: the option `"all"` for a report of `count` pages,
or a band with the value `"<start>-<end>"`. -/
inductive ChunkOption where
  | all (count : Nat)
  | band (start last : Nat)
deriving DecidableEq, Repr

/-- The state of the selector: whether `#chunk-controls` is displayed, the options of
`#chunk-select` in order, the selected option, and the page numbers that carry the class
`hidden-page`. -/
structure ChunkSelect where
  shown : Bool := false
  options : List ChunkOption := []
  value : Option ChunkOption := none
  hiddenPages : List Nat := []
deriving DecidableEq, Repr

/-- `const chunkSize = 80`. -/
def chunkSize : Nat := 80

/-- `Math.ceil(pages.length / chunkSize)`. -/
def numChunks (n : Nat) : Nat :=
  ⌈(n : ℚ) / (chunkSize : ℚ)⌉₊

/-- The option appended in round `i` of the loop of `setupChunkSelector`. -/
def chunkBand (n i : Nat) : ChunkOption :=
  .band (i * chunkSize + 1) (min ((i + 1) * chunkSize) n)

/-- `updateChunkFilter()` on a report of `n` pages: with `"all"` every page is shown,
with a band the pages outside it are hidden. -/
def updateChunkFilter (n : Nat) (s : ChunkSelect) : ChunkSelect :=
  match s.value with
  | some (.band start last) =>
    { s with hiddenPages :=
        (List.range n).filterMap fun idx =>
          if idx + 1 ≥ start ∧ idx + 1 ≤ last then none else some (idx + 1) }
  | _ => { s with hiddenPages := [] }

/-- `setupChunkSelector()` on a report of `n` pages (`pages.length`). -/
def setupChunkSelector (n : Nat) (s : ChunkSelect) : ChunkSelect :=
  if n ≤ 1 then s
  else
    let options := ChunkOption.all n :: (List.range (numChunks n)).map (chunkBand n)
    let s1 : ChunkSelect :=
      { s with shown := true, options := options, value := some (ChunkOption.all n) }
    if n > 80 then updateChunkFilter n { s1 with value := some (.band 1 80) }
    else s1

/-- The page range `(start, end)` of an option, if it is a band. -/
def ChunkOption.range : ChunkOption → Option (Nat × Nat)
  | .band start last => some (start, last)
  | .all _ => none

/-- The bands offered by the selector, as pairs `(start, end)`, in order. -/
def bands (s : ChunkSelect) : List (Nat × Nat) :=
  s.options.filterMap ChunkOption.range

/-! ### String operations of the log parser

Strings are sequences of characters. The search patterns of the parser are ASCII, so
matching by character agrees with matching by UTF-16 code unit. `toLowerCase` is a
built-in whose tables are not part of the sources: it is a parameter of the functions
that call it. -/

/-- White space and line terminators, as removed by `String.prototype.trim`. -/
def isWhiteSpace (c : Char) : Bool :=
  decide (c.toNat ∈ [0x09, 0x0A, 0x0B, 0x0C, 0x0D, 0x20, 0xA0, 0x1680, 0x2028, 0x2029,
    0x202F, 0x205F, 0x3000, 0xFEFF]) || decide (0x2000 ≤ c.toNat ∧ c.toNat ≤ 0x200A)

/-- `s.trim()`. -/
def trim (s : String) : String :=
  ⟨(s.data.dropWhile isWhiteSpace).rdropWhile isWhiteSpace⟩

/-- `s.startsWith(p)`. -/
def startsWith (s p : String) : Bool :=
  p.data.isPrefixOf s.data

/-- `s.endsWith(p)`. -/
def endsWith (s p : String) : Bool :=
  p.data.isSuffixOf s.data

/-- Whether `p` occurs in the character sequence at some position. -/
def occursIn (p : List Char) : List Char → Bool
  | [] => p.isEmpty
  | c :: cs => p.isPrefixOf (c :: cs) || occursIn p cs

/-- `s.includes(p)`. -/
def includes (s p : String) : Bool :=
  occursIn p.data s.data

/-- The scan of `split`: `skip` counts the characters of a matched separator that are
still to be passed over, `cur` holds the current piece in reverse. At a position where
several separators match, the first of `seps` is taken, as for a regular expression
`a|b`. -/
def splitAux (seps : List (List Char)) : List Char → Nat → List Char → List (List Char)
  | [], _, cur => [cur.reverse]
  | _ :: cs, skip + 1, cur => splitAux seps cs skip cur
  | c :: cs, 0, cur =>
    match seps.find? fun sep => sep.isPrefixOf (c :: cs) with
    | some sep => cur.reverse :: splitAux seps cs (sep.length - 1) []
    | none => splitAux seps cs 0 (c :: cur)

/-- `s.split(sep)` for a non-empty string `sep`, and `s.split(/a|b/)` for non-empty
literal alternatives: `seps` lists the alternatives in order. -/
def split (s : String) (seps : List String) : List String :=
  (splitAux (seps.map String.data) s.data 0 []).map String.mk

/-- Removing the leftmost match of one of the literal patterns. -/
def removeFirstAux (pats : List (List Char)) : List Char → List Char
  | [] => []
  | c :: cs =>
    match pats.find? fun p => p.isPrefixOf (c :: cs) with
    | some p => cs.drop (p.length - 1)
    | none => c :: removeFirstAux pats cs

/-- `s.replace(/Calc(ulation)?:/, "")`: the leftmost match is removed; at a position
the longer form `Calculation:` is tried first. -/
def removeCalc (s : String) : String :=
  ⟨removeFirstAux ["Calculation:".data, "Calc:".data] s.data⟩

/-- The lower-case form of an ASCII letter; other characters are unchanged. Under the
flag `i` of a regular expression without the flag `u`, a character matches an ASCII
letter of the pattern only if it is that letter in upper or lower case. -/
def foldAscii (c : Char) : Char :=
  if 'A'.toNat ≤ c.toNat ∧ c.toNat ≤ 'Z'.toNat then Char.ofNat (c.toNat + 32) else c

/-- Removing every match of one of the lower-case literal patterns, ignoring case. -/
def removeAllAux (pats : List (List Char)) : List Char → Nat → List Char
  | [], _ => []
  | _ :: cs, skip + 1 => removeAllAux pats cs skip
  | c :: cs, 0 =>
    match pats.find? fun p => p.isPrefixOf ((c :: cs).map foldAscii) with
    | some p => removeAllAux pats cs (p.length - 1)
    | none => c :: removeAllAux pats cs 0

/-- `s.replace(/pass|ok/gi, "")`. -/
def removePassOk (s : String) : String :=
  ⟨removeAllAux ["pass".data, "ok".data] s.data 0⟩

/-! ### Rows, log lines and the report -/

/-- What one of the helpers puts into the element it hands to `checkOverflowAndAdd`:
a three-cell row of `addRow` (reference, calculation, output), a section header, a
visual row, the row of a Markdown table line, or the bold sub-step title of
`parseAndAddLog` with its text. -/
inductive Content where
  | row (ref calculation out : String)
  | sectionHeader (title : String)
  | visualRow (inputSvg label : String)
  | tableRow (cells : List String) (isHeader : Bool)
  | subStepTitle (text : String)
deriving DecidableEq, Repr

/-- `addRow(ref, calc, out)`. The parameter `element` gives the DOM element built for a
content, with the height the page layout gives it. -/
def addRow (element : Content → Block) (r : Report) (ref calculation out : String) :
    Report :=
  checkOverflowAndAdd r (element (.row ref calculation out))

/-- `addTextRow(ref, text, out)`. -/
def addTextRow (element : Content → Block) (r : Report) (ref text out : String) : Report :=
  addRow element r ref text out

/-- `addSectionHeader(title)`. -/
def addSectionHeader (element : Content → Block) (r : Report) (title : String) : Report :=
  checkOverflowAndAdd r (element (.sectionHeader title))

/-- `addVisualRow(inputSvg, label)`. -/
def addVisualRow (element : Content → Block) (r : Report) (inputSvg label : String) :
    Report :=
  checkOverflowAndAdd r (element (.visualRow inputSvg label))

/-- `renderMarkdownTable(tableStr)`: a divider line adds nothing; otherwise the cells
between the bars are kept (all of them when the line has two bars or more, else the
non-blank ones) and one row is added. -/
def renderMarkdownTable (element : Content → Block) (toLowerCase : String → String)
    (r : Report) (tableStr : String) : Report :=
  if includes tableStr "---" then r
  else
    let twoBars := decide (2 ≤ tableStr.data.count '|')
    let cells := (split tableStr ["|"]).filter fun c => trim c != "" || twoBars
    let isHeader :=
      startsWith (trim tableStr) "| Iter |" || includes (toLowerCase tableStr) "joint"
    checkOverflowAndAdd r (element (.tableRow (cells.map trim) isHeader))

/-- The reference that `parseAndAddLog` picks from the lower-cased line. -/
def logRef (lower : String) : String :=
  if includes lower "moment" then "Table 3.14"
  else if includes lower "shear" then "Table 3.8"
  else if includes lower "defl" then "Table 3.10"
  else if includes lower "steel" || includes lower "area" then "Cl 3.12.10"
  else if includes lower "spacing" then "Cl 3.12.11"
  else if includes lower "formula" then "BS8110"
  else ""

/-- `parseAndAddLog(log)` for a string `log`. -/
def parseAndAddLog (element : Content → Block) (toLowerCase : String → String)
    (r : Report) (log : String) : Report :=
  if log = "" then r
  else if startsWith (trim log) "|" && endsWith (trim log) "|" then
    renderMarkdownTable element toLowerCase r log
  else
    let lower := toLowerCase log
    let ref := logRef lower
    if includes log "Formula:" then
      addRow element r "BS8110" (trim ((split log ["Formula:"]).getD 1 "")) ""
    else if includes log "Calc:" || includes log "Calculation:" then
      addRow element r ref (trim (removeCalc log)) ""
    else if includes log "Result:" || includes log "Conclusion:" then
      let parts := split log ["Result:", "Conclusion:"]
      addRow element r ref (trim (parts.getD 0 "")) (trim (parts.getD 1 ""))
    else if includes log "Value:" then
      let parts := split log ["Value:"]
      addRow element r ref (trim (parts.getD 0 "")) (trim (parts.getD 1 ""))
    else if startsWith log "[" then
      checkOverflowAndAdd r (element (.subStepTitle log))
    else if includes lower "pass" || includes lower "ok" then
      addRow element r ref (trim (removePassOk log)) "PASS"
    else
      addRow element r ref log ""

/-- What a detail renderer (`renderSlabDetail`, `renderBeamDetail`, `renderStairDetail`,
`renderColumnDetail`, `renderFoundationDetail`) hands to `checkOverflowAndAdd` for one
member, in order. -/
abbrev Detail := List Content

/-- The report data of one floor, as `generateTotalReport` reads it: each member is given
by the contents its detail renderer produces. A missing list is the empty list, except
for `beamGroups` and `beams`, which are chained with `||`. -/
structure FloorResults where
  slabs : List Detail := []
  beamGroups : Option (List Detail) := none
  beams : Option (List Detail) := none
  stairs : List Detail := []
  columns : List Detail := []
  foundations : List Detail := []
deriving DecidableEq, Repr

/-- The result of `generateTotalReport`: the report state it leaves, and the exception
it ended with, if any. -/
structure Run where
  report : Report
  error : Option String := none
deriving DecidableEq, Repr

/-- A detail renderer applied to one member. -/
def renderDetail (element : Content → Block) (r : Report) (d : Detail) : Report :=
  d.foldl (fun acc c => checkOverflowAndAdd acc (element c)) r

/-- `members.forEach(m => render...Detail(m))`. -/
def renderDetails (element : Content → Block) (r : Report) (ds : List Detail) : Report :=
  ds.foldl (renderDetail element) r

/-- `floor.beamGroups || floor.beams || []`. -/
def beamList (d : FloorResults) : List Detail :=
  match d.beamGroups with
  | some l => l
  | none => d.beams.getD []

/-- The closing section of `generateTotalReport`. -/
def addConclusion (element : Content → Block) (r : Report) : Report :=
  addTextRow element (addSectionHeader element r "8.0 PROJECT CONCLUSION") "Summary"
    "Total structural project analyzed. Loads traced from Roof to Foundation. All members compliant with BS 8110-1:1997."
    "PASSED"

/-- `generateTotalReport()`, with `floorsData.FF` and `floorsData.GF` as `ff` and `gf`
(`none` for `null`). Inside the block of the ground floor the code reads
`floorsData.FF.stairs` without testing `floorsData.FF`: with `FF` null that read throws
a `TypeError` and the function ends there. -/
def generateTotalReport (element : Content → Block) (ff gf : Option FloorResults)
    (r0 : Report) : Run :=
  let r1 := createNewPage r0
  let r2 :=
    match ff with
    | some d =>
      let a := addSectionHeader element r1 "1.0 ROOF SLAB ANALYSIS & DESIGN"
      let b := renderDetails element a d.slabs
      let c := addSectionHeader element b "2.0 ROOF BEAM ANALYSIS & DESIGN"
      renderDetails element c (beamList d)
    | none => r1
  match gf with
  | none => { report := addConclusion element r2 }
  | some g =>
    let a := addSectionHeader element r2 "3.0 SUSPENDED SLAB ANALYSIS & DESIGN"
    let b := renderDetails element a g.slabs
    let c := addSectionHeader element b "4.0 FLOOR BEAM ANALYSIS & DESIGN"
    let d := renderDetails element c (beamList g)
    let e := addSectionHeader element d "5.0 STAIRCASE ANALYSIS & DESIGN"
    match ff with
    | none =>
      { report := e, error := some "TypeError: Cannot read properties of null (reading 'stairs')" }
    | some top =>
      let allStairs := g.stairs ++ top.stairs
      let s :=
        if allStairs.length ≠ 0 then renderDetails element e allStairs
        else addTextRow element e "" "No staircase identified for analysis." ""
      let h := addSectionHeader element s "6.0 COLUMN ANALYSIS & DESIGN"
      let i := renderDetails element h g.columns
      let j := addSectionHeader element i "7.0 FOUNDATION (BASE) DESIGN"
      let k := renderDetails element j g.foundations
      { report := addConclusion element k }

/-- A layout that gives every element the height 20 and records the content kind and
texts in the `html` field. -/
def plainElement : Content → Block
  | .row ref calculation out => ⟨"row|" ++ ref ++ "|" ++ calculation ++ "|" ++ out, 20⟩
  | .sectionHeader title => ⟨"section-header|" ++ title, 20⟩
  | .visualRow _ label => ⟨"visual-row|" ++ label, 20⟩
  | .tableRow cells _ => ⟨"table-row|" ++ "|".intercalate cells, 20⟩
  | .subStepTitle text => ⟨"bold|" ++ text, 20⟩

/-- A `toLowerCase` for lines of ASCII characters. -/
def asciiLowerCase (s : String) : String :=
  ⟨s.data.map foldAscii⟩

end Printout

/-! ## `src/drafting.js`: data model -/

namespace Drafting

/-- A point `{ x, y }` in layer coordinates. -/
structure Point where
  x : ℚ
  y : ℚ
deriving DecidableEq, Repr

/-- An entry of `f.data.walls`. -/
structure Wall where
  id : String
  x1 : ℚ
  y1 : ℚ
  x2 : ℚ
  y2 : ℚ
  thickness : ℚ
deriving DecidableEq, Repr

/-- An entry of `f.data.stairs`. -/
structure Stair where
  x1 : ℚ
  y1 : ℚ
  x2 : ℚ
  y2 : ℚ
deriving DecidableEq, Repr

/-- The raw drafted data `f.data = { walls, stairs }`. A history entry is
`JSON.stringify(f.data)`; since all fields are strings and finite numbers,
`JSON.parse` gives back an equal value, so an entry is represented by the value. -/
structure FloorData where
  walls : List Wall
  stairs : List Stair
deriving DecidableEq, Repr

/-- The `points` of a `Konva.Line`: `[x1, y1, x2, y2]`. -/
structure Points where
  x1 : ℚ
  y1 : ℚ
  x2 : ℚ
  y2 : ℚ
deriving DecidableEq, Repr

/-- A child of `f.layers.structure`: a Konva node as the record of the attributes the
code reads or writes. `uid` stands for the identity of the object (Konva's `_id`);
attributes that do not apply to a class keep their default. -/
structure Node where
  uid : Nat
  className : String
  name : String := ""
  id : String := ""
  x : ℚ := 0
  y : ℚ := 0
  width : ℚ := 0
  height : ℚ := 0
  offsetX : ℚ := 0
  offsetY : ℚ := 0
  rotation : ℚ := 0
  points : Points := ⟨0, 0, 0, 0⟩
  stroke : String := ""
  strokeWidth : ℚ := 0
  dash : List ℚ := []
  fill : String := ""
  beamType : Option String := none
  text : String := ""
deriving DecidableEq, Repr

/-- The dashed preview line `f.temp.ghostLine` on the cursor layer. -/
structure GhostLine where
  points : Points
  stroke : String
deriving DecidableEq, Repr

/-- The circle `f.temp.snapIndicator` on the cursor layer. -/
structure SnapIndicator where
  x : ℚ
  y : ℚ
  radius : ℚ
  visible : Bool
deriving DecidableEq, Repr

/-- The preview rectangle `f.temp.ghostSlab` on the cursor layer. -/
structure GhostSlab where
  x : ℚ
  y : ℚ
  width : ℚ
  height : ℚ
deriving DecidableEq, Repr

/-- The pending draw state `f.temp`. -/
structure Temp where
  lastPoint : Option Point := none
  ghostLine : Option GhostLine := none
  snapIndicator : Option SnapIndicator := none
  slabStart : Option Point := none
  ghostSlab : Option GhostSlab := none
deriving DecidableEq, Repr

/-- A column of a floor result of the analysis service: `col.id`, `col.x`, `col.y` in
metres, and `col.rotation` if present. -/
structure ColumnResult where
  id : String
  x : ℚ
  y : ℚ
  rotation : Option ℚ := none
deriving DecidableEq, Repr

/-- A slab of a floor result: `s.id`, `s.x`, `s.y`, `s.width`, `s.height`. -/
structure SlabResult where
  id : String
  x : ℚ
  y : ℚ
  width : ℚ
  height : ℚ
deriving DecidableEq, Repr

/-- A beam of a floor result: `bm.id`, its end points, and `bm.type` if present. -/
structure BeamResult where
  id : String
  x1 : ℚ
  y1 : ℚ
  x2 : ℚ
  y2 : ℚ
  beamType : Option String := none
deriving DecidableEq, Repr

/-- The result of one floor in the response of the analysis service (`res.results.GF`,
`res.results.FF`), as `renderResults` reads it; a list that the object does not have is
`none`. -/
structure FloorResult where
  scale : ℚ
  columns : Option (List ColumnResult) := none
  slabs : Option (List SlabResult) := none
  beams : Option (List BeamResult) := none
deriving DecidableEq, Repr

/-- One floor instance (`floors.GF` or `floors.FF`). `zoom` is `f.stage.scaleX()`: it
starts at 1 and the wheel handler only multiplies or divides it by 1.1, so it is never
zero. `structureLayer` are the children of `f.layers.structure`; `tr`, `selectedNode`
and `selectedNodes` refer to nodes by `uid`; `nextUid` is the identity the next created
node gets. The drafting layer is redrawn from `data` by `redraw` and is not stored.
`results` is `f.results`, the floor result stored by `submitAll`. -/
structure Floor where
  id : String
  zoom : ℚ := 1
  structureLayer : List Node := []
  cursorVisible : Bool := true
  nextUid : Nat := 0
  tr : List Nat := []
  selectedNode : Option Nat := none
  selectedNodes : List Nat := []
  data : FloorData := { walls := [], stairs := [] }
  scaleFactor : Option ℚ := none
  historyStack : List FloorData := []
  historyStep : Int := -1
  temp : Temp := {}
  results : Option FloorResult := none
deriving DecidableEq, Repr

/-- A JavaScript number as a built-in conversion returns it: a finite number, `NaN`, or
an infinity. -/
inductive JsNum where
  | fin (q : ℚ)
  | nan
  | posInf
  | negInf
deriving DecidableEq, Repr

/-- What a handler reads from the page and the clock while it runs: the state of
`#toggle-snap`, `Date.now()`, `parseFloat` of `#wall-thickness`, and the text returned by
`prompt` (`none` when the dialog is cancelled). `nowSecond` is what a second call of
`Date.now()` in the same handler returns. For the text `real` returned by `prompt`,
`promptNumber` is the number that `isNaN(real)` tests (the built-in conversion of the
string to a number) and `promptFloat` is `parseFloat(real)`. -/
structure Env where
  snap : Bool := false
  now : Nat := 0
  wallThickness : ℚ := 0
  promptAnswer : Option String := none
  nowSecond : Nat := now
  promptNumber : JsNum := .nan
  promptFloat : JsNum := .nan
deriving DecidableEq, Repr

/-- A mouse-down event on a stage: `e.evt.button`, `getPointer(f.stage)`, and `e.target`
as the `uid` of the node of the structure layer under the pointer (`none` when the target
is the stage, the plan image or another node outside the structure layer). -/
structure MouseEvent where
  button : Nat := 0
  pointer : Option Point := none
  target : Option Nat := none
deriving DecidableEq, Repr

/-- The result of running a handler: the floor after it, the `alert`s it raised, and the
exception it ended with, if any. -/
structure Outcome where
  floor : Floor
  alerts : List String := []
  error : Option String := none
deriving DecidableEq, Repr

/-- `initFloorInstance(id, containerId)`, with the transformer as the only child of the
structure layer. -/
def initFloorInstance (id : String) : Floor :=
  { id := id
    structureLayer := [{ uid := 0, className := "Transformer" }]
    nextUid := 1 }

/-- `const SNAP_DIST = 15`. -/
def SNAP_DIST : ℚ := 15

/-- `COLORS.column`. -/
def COLORS_column : String := "#00FF00"

/-- `COLORS.beam`. -/
def COLORS_beam : String := "#FF3333"

/-- A number used in arithmetic: `null` converts to 0. -/
def toNumber (v : Option ℚ) : ℚ := v.getD 0

/-- `!v` for a number or `null`: true for `null` and for 0. -/
def isFalsy (v : Option ℚ) : Bool := v.isNone || v == some 0

/-! ## `src/drafting.js`: geometric utilities and snapping -/

/-- A distance as the code compares it: a plain number, or the value of
`Math.sqrt` / `Math.hypot` on a non-negative rational, kept as its square so that
comparisons stay exact. -/
inductive Dist where
  | lin (v : ℚ)
  | root (sq : ℚ)
deriving DecidableEq, Repr

/-- The comparison `a < b` of two distances (`root sq` stands for `√sq`, `sq ≥ 0`). -/
def Dist.lt : Dist → Dist → Bool
  | .lin a, .lin b => decide (a < b)
  | .root a, .root b => decide (a < b)
  | .root a, .lin b => decide (0 < b ∧ a < b * b)
  | .lin a, .root b => decide (a < 0 ∨ a * a < b)

/-- `Math.hypot(dx, dy)`. -/
def hypot (dx dy : ℚ) : Dist := .root (dx * dx + dy * dy)

/-- `pointToSeg(px, py, x1, y1, x2, y2)`. -/
def pointToSeg (px py x1 y1 x2 y2 : ℚ) : Dist :=
  let A := px - x1
  let B := py - y1
  let C := x2 - x1
  let D := y2 - y1
  let dot := A * C + B * D
  let len := C * C + D * D
  let t : ℚ := if len ≠ 0 then dot / len else -1
  let xx := if t < 0 then x1 else if t > 1 then x2 else x1 + t * C
  let yy := if t < 0 then y1 else if t > 1 then y2 else y1 + t * D
  let dx := px - xx
  let dy := py - yy
  .root (dx * dx + dy * dy)

/-- `isPointOnSeg(px, py, x1, y1, x2, y2, tolerance)`. -/
def isPointOnSeg (px py x1 y1 x2 y2 tolerance : ℚ) : Bool :=
  if px < min x1 x2 - tolerance ∨ px > max x1 x2 + tolerance ∨
      py < min y1 y2 - tolerance ∨ py > max y1 y2 + tolerance then
    false
  else
    (pointToSeg px py x1 y1 x2 y2).lt (.lin tolerance)

/-- `projectPointOnLine(px, py, x1, y1, x2, y2)`. -/
def projectPointOnLine (px py x1 y1 x2 y2 : ℚ) : Point :=
  let A := px - x1
  let B := py - y1
  let C := x2 - x1
  let D := y2 - y1
  let len_sq := C * C + D * D
  let param : ℚ := if len_sq ≠ 0 then (A * C + B * D) / len_sq else -1
  if param < 0 then ⟨x1, y1⟩
  else if param > 1 then ⟨x2, y2⟩
  else ⟨x1 + param * C, y1 + param * D⟩

/-- `findWallAt(f, x, y)`. -/
def findWallAt (f : Floor) (x y : ℚ) : Option Wall :=
  let thresh := 10 / f.zoom
  f.data.walls.find? fun w => (pointToSeg x y w.x1 w.y1 w.x2 w.y2).lt (.lin thresh)

/-- The points visited by the two nested `forEach` loops of `applySnapping`: both
endpoints of every wall, in wall order. -/
def wallEndpoints (walls : List Wall) : List Point :=
  walls.flatMap fun w => [⟨w.x1, w.y1⟩, ⟨w.x2, w.y2⟩]

/-- The square of the Euclidean distance between two points. -/
def sqDist (a b : Point) : ℚ :=
  (a.x - b.x) * (a.x - b.x) + (a.y - b.y) * (a.y - b.y)

/-- One step of the scan in `applySnapping`, on the pair `(bestDist, bestPt)`. -/
def snapStep (x y : ℚ) (best : Dist × Point) (pt : Point) : Dist × Point :=
  let d := hypot (pt.x - x) (pt.y - y)
  if d.lt best.1 then (d, pt) else best

/-- `applySnapping(f, x, y)`: the snapped point, and the floor with its snap indicator
and cursor layer updated. -/
def applySnapping (env : Env) (f : Floor) (x y : ℚ) : Floor × Point :=
  if !env.snap then (f, ⟨x, y⟩)
  else
    let tol := Dist.lin (SNAP_DIST / f.zoom)
    let best := (wallEndpoints f.data.walls).foldl (snapStep x y) (tol, ⟨x, y⟩)
    if best.1.lt tol then
      let ind : SnapIndicator :=
        match f.temp.snapIndicator with
        | some i => i
        | none => { x := 0, y := 0, radius := 5 / f.zoom, visible := true }
      let ind := { ind with x := best.2.x, y := best.2.y, radius := 5 / f.zoom }
      ({ f with temp := { f.temp with snapIndicator := some ind }, cursorVisible := true },
        best.2)
    else
      ({ f with temp := { f.temp with
            snapIndicator := f.temp.snapIndicator.map fun i => { i with visible := false } } },
        best.2)

/-! ## `src/drafting.js`: drawing helpers, history -/

/-- `cancelDrawing(id)` on the floor with that id. -/
def cancelDrawing (f : Floor) : Floor :=
  { f with temp := { f.temp with lastPoint := none, ghostLine := none, snapIndicator := none } }

/-- `createGhostLine(f, pt, color)`. -/
def createGhostLine (f : Floor) (pt : Point) (color : String) : Floor :=
  { f with temp := { f.temp with
      ghostLine := some { points := ⟨pt.x, pt.y, pt.x, pt.y⟩, stroke := color } } }

/-- `updateGhostLineStart(f, pt)`. -/
def updateGhostLineStart (f : Floor) (pt : Point) : Floor :=
  { f with temp := { f.temp with
      ghostLine := f.temp.ghostLine.map fun g =>
        { g with points := { g.points with x1 := pt.x, y1 := pt.y } } } }

/-- `addWall(f, p1, p2)`; the closing `redraw(f)` only rebuilds the drafting layer. -/
def addWall (env : Env) (f : Floor) (p1 p2 : Point) : Floor :=
  { f with data := { f.data with walls := f.data.walls ++
      [{ id := "w_" ++ toString env.now
         x1 := p1.x, y1 := p1.y, x2 := p2.x, y2 := p2.y
         thickness := env.wallThickness / 1000 }] } }

/-- `saveHistory(f)`. -/
def saveHistory (f : Floor) : Floor :=
  { f with historyStack := f.historyStack ++ [f.data], historyStep := f.historyStep + 1 }

/-- `undo()` on the active floor `f`. When the entry read is missing, `JSON.parse`
throws after the cursor was decremented and the data stay as they are. -/
def undo (f : Floor) : Floor :=
  if f.historyStep > 0 then
    let step := f.historyStep - 1
    match f.historyStack[step.toNat]? with
    | some d => { f with historyStep := step, data := d }
    | none => { f with historyStep := step }
  else f

/-- `redo()`: empty body. -/
def redo (f : Floor) : Floor := f

/-! ## `src/drafting.js`: `onStageMouseDown`, by active tool

Each function below is the path of `onStageMouseDown(id, e)` through the handler for one
value of `currentTool`, from the first statement of the handler to its last. -/

/-- `onStageMouseDown` with `currentTool === 'wall'`. -/
def onStageMouseDownWall (env : Env) (f : Floor) (e : MouseEvent) : Outcome :=
  if e.button = 2 then { floor := f }
  else
    match e.pointer with
    | none => { floor := f }
    | some pos =>
      let (f1, p) := applySnapping env f pos.x pos.y
      if isFalsy f1.scaleFactor then
        { floor := f1, alerts := [f1.id ++ ": Set Scale First!"] }
      else
        match f1.temp.lastPoint with
        | none =>
          { floor := createGhostLine { f1 with temp := { f1.temp with lastPoint := some p } } p
              "red" }
        | some last =>
          let f2 := addWall env f1 last p
          let f3 := { f2 with temp := { f2.temp with lastPoint := some p } }
          { floor := saveHistory (updateGhostLineStart f3 p) }

/-- Whether the beam-splitting loop splits node `n` for a column centred at
`(cx, cy)`: `n` is a beam and `isPointOnSeg(cx, cy, x1, y1, x2, y2, tol)`. -/
def isSplitBy (cx cy tol : ℚ) (n : Node) : Bool :=
  n.name == "structure_beam" &&
    isPointOnSeg cx cy n.points.x1 n.points.y1 n.points.x2 n.points.y2 tol

/-- `beam.points([x1, y1, cx, cy])`: the original beam, shortened to end at the
column. -/
def shortenBeam (cx cy : ℚ) (beam : Node) : Node :=
  { beam with points := ⟨beam.points.x1, beam.points.y1, cx, cy⟩ }

/-- The `newBeam` created for a split beam, from the column to the original end. -/
def splitOffBeam (cx cy : ℚ) (uid : Nat) (beam : Node) : Node :=
  { uid := uid
    className := "Line"
    name := "structure_beam"
    id := beam.id ++ "_split"
    points := ⟨cx, cy, beam.points.x2, beam.points.y2⟩
    stroke := COLORS_beam
    strokeWidth := beam.strokeWidth
    beamType := beam.beamType }

/-- One iteration of `beams.forEach` in the add-col branch, over the children in child
order. The state is (children visited so far, beams added to the layer so far, next
identity): a beam that is split is changed in place and its second half is appended to
the layer; every other child is left as it is. -/
def splitStep (cx cy tol : ℚ) (st : List Node × List Node × Nat) (n : Node) :
    List Node × List Node × Nat :=
  if isSplitBy cx cy tol n then
    (st.1 ++ [shortenBeam cx cy n], st.2.1 ++ [splitOffBeam cx cy st.2.2 n], st.2.2 + 1)
  else
    (st.1 ++ [n], st.2.1, st.2.2)

/-- The split-beams loop: the children of the structure layer after it, and the next
free identity. -/
def splitBeams (cx cy tol : ℚ) (children : List Node) (uid : Nat) : List Node × Nat :=
  let st := children.foldl (splitStep cx cy tol) ([], [], uid)
  (st.1 ++ st.2.1, st.2.2)

/-- What the split loop leaves of a child: a split beam shortened, any other child as
it was. -/
def shortenIfSplit (cx cy tol : ℚ) (n : Node) : Node :=
  if isSplitBy cx cy tol n then shortenBeam cx cy n else n

/-- The beams that the split loop adds for the split beams among `children`, in
order, with identities counted up from `uid`. -/
def splitOffBeams (cx cy tol : ℚ) : Nat → List Node → List Node
  | _, [] => []
  | uid, n :: rest =>
    if isSplitBy cx cy tol n then
      splitOffBeam cx cy uid n :: splitOffBeams cx cy tol (uid + 1) rest
    else
      splitOffBeams cx cy tol uid rest

/-- The number of children that the split loop splits. -/
def splitCount (cx cy tol : ℚ) (children : List Node) : Nat :=
  (children.filter (isSplitBy cx cy tol)).length

/-- The column centre `(finalX, finalY)` that the add-col branch computes for a snapped
click point: the projection onto the wall found at the point, or the point itself. -/
def columnCentre (f : Floor) (p : Point) : Point :=
  match findWallAt f p.x p.y with
  | some wall => projectPointOnLine p.x p.y wall.x1 wall.y1 wall.x2 wall.y2
  | none => p

/-- The `Konva.Rect` of a column placed by the add-col tool. -/
def columnRect (env : Env) (f : Floor) (c : Point) : Node :=
  let size := (3 / 10 : ℚ) * toNumber f.scaleFactor
  { uid := f.nextUid
    className := "Rect"
    name := "structure_col"
    id := "col_user_" ++ toString env.now
    x := c.x - size / 2
    y := c.y - size / 2
    width := size
    height := size
    fill := COLORS_column }

/-- `onStageMouseDown` with `currentTool === 'add-col'`. -/
def onStageMouseDownAddCol (env : Env) (f : Floor) (e : MouseEvent) : Outcome :=
  if e.button = 2 then { floor := f }
  else
    match e.pointer with
    | none => { floor := f }
    | some pos =>
      let (f1, p) := applySnapping env f pos.x pos.y
      let c := columnCentre f1 p
      let size := (3 / 10 : ℚ) * toNumber f1.scaleFactor
      let rect := columnRect env f1 c
      let tol := size / 2
      let (children, uid) := splitBeams c.x c.y tol (f1.structureLayer ++ [rect]) (f1.nextUid + 1)
      let f2 := { f1 with
        structureLayer := children
        nextUid := uid
        selectedNode := some rect.uid
        tr := [rect.uid] }
      { floor := cancelDrawing f2 }

/-- `onStageMouseDown` with `currentTool === 'add-beam'`. On the second click the
`Konva.Line` literal reads `snapped`, which is declared only inside the block of the
add-slab branch and in `onStageMouseMove`, so evaluating it throws. -/
def onStageMouseDownAddBeam (env : Env) (f : Floor) (e : MouseEvent) : Outcome :=
  if e.button = 2 then { floor := f }
  else
    match e.pointer with
    | none => { floor := f }
    | some pos =>
      let (f1, p) := applySnapping env f pos.x pos.y
      match f1.temp.lastPoint with
      | none =>
        { floor := createGhostLine { f1 with temp := { f1.temp with lastPoint := some p } } p
            COLORS_beam }
      | some _ =>
        { floor := f1, error := some "ReferenceError: snapped is not defined" }

/-- `real && !isNaN(real)` for the text returned by `prompt`. -/
def promptAccepted (env : Env) : Bool :=
  match env.promptAnswer with
  | none => false
  | some real => real != "" && env.promptNumber != .nan

/-- The quotient `a / v` of a finite number `a` by a JavaScript number `v` (the sign of a
zero is not kept). -/
def jsDivide (a : ℚ) : JsNum → JsNum
  | .fin m =>
    if m = 0 then (if a = 0 then .nan else if 0 < a then .posInf else .negInf)
    else .fin (a / m)
  | .nan => .nan
  | .posInf => .fin 0
  | .negInf => .fin 0

/-- The value `distPx / parseFloat(real)` that the second click of the scale tool assigns
to `f.scaleFactor`, for the anchor `last` and the snapped click point `p`. `mathHypot`
stands for `Math.hypot`, whose result is a number of the model whatever the
displacement. -/
def scaleToolValue (mathHypot : ℚ → ℚ → ℚ) (env : Env) (last p : Point) : JsNum :=
  jsDivide (mathHypot (p.x - last.x) (p.y - last.y)) env.promptFloat

/-- `onStageMouseDown` with `currentTool === 'scale'`. The result is `none` when the value
assigned to `f.scaleFactor` is `NaN` or infinite, which a floor of the model cannot
hold. -/
def onStageMouseDownScale (mathHypot : ℚ → ℚ → ℚ) (env : Env) (f : Floor) (e : MouseEvent) :
    Option Outcome :=
  if e.button = 2 then some { floor := f }
  else
    match e.pointer with
    | none => some { floor := f }
    | some pos =>
      let (f1, p) := applySnapping env f pos.x pos.y
      match f1.temp.lastPoint with
      | none =>
        some { floor :=
          createGhostLine ({ f1 with temp := { f1.temp with lastPoint := some p } }) p "blue" }
      | some last =>
        if promptAccepted env then
          match scaleToolValue mathHypot env last p with
          | .fin v =>
            some { floor := cancelDrawing { f1 with scaleFactor := some v },
                   alerts := [f1.id ++ " Scale Set."] }
          | _ => none
        else some { floor := cancelDrawing f1 }

/-- The `Konva.Rect` of a slab committed by the add-slab tool between the anchor `start`
and the snapped click point `p`. -/
def userSlabRect (env : Env) (f : Floor) (start p : Point) : Node :=
  { uid := f.nextUid, className := "Rect", name := "structure_slab",
    id := "S_user_" ++ (toString env.now).takeRight 4,
    x := min start.x p.x, y := min start.y p.y,
    width := |p.x - start.x|, height := |p.y - start.y|,
    fill := "rgba(200, 200, 200, 0.25)", stroke := "#555", strokeWidth := 1 }

/-- The `Konva.Text` label of a slab committed by the add-slab tool. -/
def userSlabLabel (env : Env) (f : Floor) (start p : Point) : Node :=
  { uid := f.nextUid + 1, className := "Text",
    x := min start.x p.x + |p.x - start.x| / 2, y := min start.y p.y + |p.y - start.y| / 2,
    text := "P" ++ (toString env.now).takeRight 4,
    fill := "rgba(255, 255, 255, 0.4)", offsetX := 10, offsetY := 10 }

/-- `onStageMouseDown` with `currentTool === 'add-slab'`. -/
def onStageMouseDownAddSlab (env : Env) (f : Floor) (e : MouseEvent) : Outcome :=
  if e.button = 2 then { floor := f }
  else
    match e.pointer with
    | none => { floor := f }
    | some pos =>
      let (f1, snapped) := applySnapping env f pos.x pos.y
      match f1.temp.slabStart with
      | none =>
        { floor := { f1 with temp := { f1.temp with
            slabStart := some ⟨snapped.x, snapped.y⟩,
            ghostSlab := some { x := snapped.x, y := snapped.y, width := 0, height := 0 } } } }
      | some start =>
        let x := min start.x snapped.x
        let y := min start.y snapped.y
        let width := |snapped.x - start.x|
        let height := |snapped.y - start.y|
        let f2 :=
          if width > 10 ∧ height > 10 then
            let slabId := "S_user_" ++ (toString env.now).takeRight 4
            let rect : Node :=
              { uid := f1.nextUid, className := "Rect", name := "structure_slab", id := slabId,
                x := x, y := y, width := width, height := height,
                fill := "rgba(200, 200, 200, 0.25)", stroke := "#555", strokeWidth := 1 }
            let text : Node :=
              { uid := f1.nextUid + 1, className := "Text",
                x := x + width / 2, y := y + height / 2,
                text := "P" ++ (toString env.now).takeRight 4,
                fill := "rgba(255, 255, 255, 0.4)", offsetX := 10, offsetY := 10 }
            { f1 with structureLayer := text :: rect :: f1.structureLayer,
                      nextUid := f1.nextUid + 2 }
          else f1
        { floor := { f2 with temp := { f2.temp with ghostSlab := none, slabStart := none } } }

/-- `cutWall(f, wall, cx, cy)`, for a wall of positive length. `mathHypot` stands for
`Math.hypot`; the two calls of `addWall` read the clock one after the other. -/
def cutWall (mathHypot : ℚ → ℚ → ℚ) (env : Env) (f : Floor) (wall : Wall) (cx cy : ℚ) :
    Floor :=
  let f0 := { f with data := { f.data with
    walls := f.data.walls.filter fun w => w.id != wall.id } }
  let gap := ((9 / 10 : ℚ) * toNumber f0.scaleFactor) / 2
  let dx := wall.x2 - wall.x1
  let dy := wall.y2 - wall.y1
  let len := mathHypot dx dy
  let nx := dx / len
  let ny := dy / len
  let t := ((cx - wall.x1) * dx + (cy - wall.y1) * dy) / (len * len)
  let px := wall.x1 + t * dx
  let py := wall.y1 + t * dy
  let s1 : Point := ⟨px - nx * gap, py - ny * gap⟩
  let s2 : Point := ⟨px + nx * gap, py + ny * gap⟩
  let f1 := addWall env f0 ⟨wall.x1, wall.y1⟩ s1
  addWall { env with now := env.nowSecond } f1 s2 ⟨wall.x2, wall.y2⟩

/-- `onStageMouseDown` with `currentTool === 'door'`. -/
def onStageMouseDownDoor (mathHypot : ℚ → ℚ → ℚ) (env : Env) (f : Floor) (e : MouseEvent) :
    Outcome :=
  if e.button = 2 then { floor := f }
  else
    match e.pointer with
    | none => { floor := f }
    | some pos =>
      let (f1, _) := applySnapping env f pos.x pos.y
      match findWallAt f1 pos.x pos.y with
      | some wall => { floor := saveHistory (cutWall mathHypot env f1 wall pos.x pos.y) }
      | none => { floor := f1 }

/-! ## `src/drafting.js`: global state and tool switching -/

/-- The module state: `activeFloorId`, `currentTool` and the two floor instances. -/
structure App where
  activeFloorId : String := "GF"
  currentTool : String := "select"
  GF : Floor := initFloorInstance "GF"
  FF : Floor := initFloorInstance "FF"
deriving DecidableEq, Repr

/-- `selectTool(tool)`. -/
def selectTool (app : App) (tool : String) : App :=
  { app with
    currentTool := tool
    GF := cancelDrawing app.GF
    FF := cancelDrawing app.FF }

/-! ## `src/drafting.js`: merging beams -/

/-- The node of the structure layer with identity `uid`. -/
def nodeOf (layer : List Node) (uid : Nat) : Option Node :=
  layer.find? fun n => n.uid == uid

/-- `nodes.filter(n => n.name() === 'structure_beam')` on the list of node references
`f.selectedNodes`; a reference to a node that is no longer on the layer is dropped. -/
def selectedBeams (f : Floor) : List Nat :=
  f.selectedNodes.filter fun u =>
    match nodeOf f.structureLayer u with
    | some n => n.name == "structure_beam"
    | none => false

/-- Apply `g` to the node with identity `uid`. -/
def updateNode (layer : List Node) (uid : Nat) (g : Node → Node) : List Node :=
  layer.map fun n => if n.uid = uid then g n else n

/-- The body of `beams.forEach((b, index) => ...)` in the beam merge. -/
def mergeStep (primaryName : String) (layer : List Node) (ib : Nat × Nat) : List Node :=
  updateNode layer ib.2 fun b =>
    let b1 := { b with id := primaryName }
    if ib.1 > 0 then { b1 with beamType := some "Hidden" } else b1

/-- The beam branch of the `btn-merge` click handler: `none` when fewer than two beams
are selected (the handler then goes on to the slab branch), otherwise the outcome of the
beam merge. An empty or cancelled prompt returns without a change. -/
def mergeBeams (env : Env) (f : Floor) : Option Outcome :=
  let beams := selectedBeams f
  if beams.length ≥ 2 then
    match env.promptAnswer with
    | none => some { floor := f }
    | some primaryName =>
      if primaryName = "" then some { floor := f }
      else
        some { floor := { f with
          structureLayer := beams.enum.foldl (mergeStep primaryName) f.structureLayer } }
  else none

/-- The selected nodes among `uids` that are on the layer with a type other than
`Hidden`. -/
def nonHidden (layer : List Node) (uids : List Nat) : List Nat :=
  uids.filter fun u =>
    match nodeOf layer u with
    | some n => n.beamType != some "Hidden"
    | none => false

/-- The layer after a beam merge into id `t`, as a function of the layer before it: the
beams selected after the first are renamed and hidden, the first is renamed. -/
def mergedLayer (t : String) (first : Nat) (rest : List Nat) (layer : List Node) :
    List Node :=
  layer.map fun n =>
    if n.uid ∈ rest then { n with id := t, beamType := some "Hidden" }
    else if n.uid = first then { n with id := t }
    else n

/-- The beams of a layer. -/
def beamsOf (layer : List Node) : List Node :=
  layer.filter fun n => n.name == "structure_beam"

/-! ## `src/drafting.js`: merging slab panels -/

/-- A bounding box `{ x, y, width, height }` as `getClientRect()` returns it. -/
structure Box where
  x : ℚ
  y : ℚ
  width : ℚ
  height : ℚ
deriving DecidableEq, Repr

/-- The union box `(ux, uy, uw, uh)` of the client rectangles of two slabs. -/
def unionBox (b1 b2 : Box) : Box :=
  let ux := min b1.x b2.x
  let uy := min b1.y b2.y
  { x := ux
    y := uy
    width := max (b1.x + b1.width) (b2.x + b2.width) - ux
    height := max (b1.y + b1.height) (b2.y + b2.height) - uy }

/-- The test of the slab merge on the client rectangle `bBox` of a beam: its centre is
inside the union box `u`, more than 2 away from the border. -/
def centreInside (u bBox : Box) : Bool :=
  let bcx := bBox.x + bBox.width / 2
  let bcy := bBox.y + bBox.height / 2
  decide (bcx > u.x + 2 ∧ bcx < u.x + u.width - 2 ∧ bcy > u.y + 2 ∧ bcy < u.y + u.height - 2)

/-- What the slab merge does to a beam it hides. -/
def hideBeam (bm : Node) : Node :=
  { bm with beamType := some "Hidden", stroke := "#555", dash := [5, 5] }

/-- Whether the slab merge hides child `n` for the union box `u`: `n` is a beam, its
centre passes the test, and its type is not yet `Hidden`. -/
def hidesBeam (getClientRect : Node → Box) (u : Box) (n : Node) : Bool :=
  n.name == "structure_beam" && centreInside u (getClientRect n) &&
    n.beamType != some "Hidden"

/-- The pairs `(slabNodes[i], slabNodes[j])`, `i < j`, in the order of the two nested
loops. -/
def slabPairs : List Node → List (Node × Node)
  | [] => []
  | s :: rest => rest.map (fun s2 => (s, s2)) ++ slabPairs rest

/-- The body of the two nested loops for one pair of slabs: `allBeams.forEach` over the
beams of the layer. The state is the layer and `hiddenCount`. -/
def pairStep (getClientRect : Node → Box) (st : List Node × Nat) (pair : Node × Node) :
    List Node × Nat :=
  let u := unionBox (getClientRect pair.1) (getClientRect pair.2)
  (st.1.map fun n => if hidesBeam getClientRect u n then hideBeam n else n,
    st.2 + (st.1.filter (hidesBeam getClientRect u)).length)

/-- `nodes.filter(n => n.name() === 'structure_slab')` on `f.selectedNodes`, as the nodes
referred to; a reference to a node that is no longer on the layer is dropped. -/
def selectedSlabs (f : Floor) : List Node :=
  f.selectedNodes.filterMap fun u =>
    match nodeOf f.structureLayer u with
    | some n => if n.name == "structure_slab" then some n else none
    | none => none

/-- The `btn-merge` click handler. `getClientRect` stands for the `getClientRect()` of
the canvas library. -/
def btnMergeClick (getClientRect : Node → Box) (env : Env) (f : Floor) : Outcome :=
  match mergeBeams env f with
  | some o => o
  | none =>
    let slabNodes := selectedSlabs f
    if slabNodes.length ≥ 2 then
      let st := (slabPairs slabNodes).foldl (pairStep getClientRect) (f.structureLayer, 0)
      if st.2 > 0 then
        { floor := { f with structureLayer := st.1 }
          alerts := ["Merged " ++ toString slabNodes.length ++ " panels! Hidden " ++
            toString st.2 ++
            " beams. Click \"Save Changes\" to regenerate with proper numbering."] }
      else
        { floor := { f with structureLayer := st.1 }
          alerts := ["Could not find separating beams to hide between selected panels."] }
    else
      { floor := f, alerts := ["Select at least 2 beams OR 2 panels to merge."] }

/-- What the slab merge leaves of a child `n` when the loops run over the slab pairs
`pairs`: a beam that is not `Hidden` and whose centre passes the test for some pair is
hidden, any other child is as it was. -/
def hiddenByMerge (getClientRect : Node → Box) (pairs : List (Node × Node)) (n : Node) :
    Node :=
  if n.name == "structure_beam" && n.beamType != some "Hidden" &&
      pairs.any (fun pr =>
        centreInside (unionBox (getClientRect pr.1) (getClientRect pr.2)) (getClientRect n))
  then hideBeam n else n

/-- The effect of the slab merge on one child, `n` before and `n'` after: nothing but the
type, stroke colour and dash pattern can differ, a child that is not a beam is unchanged,
and a beam is `Hidden` afterwards exactly when it was `Hidden` before or its centre passes
the test for the union box of some pair of `pairs`. -/
def SlabMergeEffect (getClientRect : Node → Box) (pairs : List (Node × Node))
    (n n' : Node) : Prop :=
  { n' with beamType := n.beamType, stroke := n.stroke, dash := n.dash } = n ∧
  (n.name ≠ "structure_beam" → n' = n) ∧
  (n.name = "structure_beam" →
    (n'.beamType = some "Hidden" ↔
      n.beamType = some "Hidden" ∨
      ∃ pr ∈ pairs,
        centreInside (unionBox (getClientRect pr.1) (getClientRect pr.2)) (getClientRect n)
          = true))

/-! ## `src/drafting.js`: `saveStructure`, sorting and renumbering the slabs -/

/-- An entry of `newSlabs`. -/
structure Slab where
  id : String
  x : ℚ
  y : ℚ
  width : ℚ
  height : ℚ
deriving DecidableEq, Repr

/-- The comparator passed to `newSlabs.sort`. -/
def compareSlabs (a b : Slab) : ℚ :=
  let yDiff := a.y - b.y
  if |yDiff| > 1 / 10 then yDiff else a.x - b.x

/-- `Array.prototype.sort(compare)`: a stable sort; `a` is placed before `b` when
`compare(a, b) < 0`, and elements that compare equal keep their input order. -/
def arraySort {α : Type} (compare : α → α → ℚ) (xs : List α) : List α :=
  xs.insertionSort fun a b => compare a b ≤ 0

/-- `newSlabs.forEach((slab, idx) => { slab.id = "S" + (idx + 1) })`. -/
def renumber (slabs : List Slab) : List Slab :=
  slabs.mapIdx fun idx slab => { slab with id := "S" ++ toString (idx + 1) }

/-- The sort-and-renumber step of `saveStructure`: the slab list that is transmitted. -/
def sortAndRenumber (newSlabs : List Slab) : List Slab :=
  renumber (arraySort compareSlabs newSlabs)

/-- The rectangle of a slab, without its id. -/
def Slab.geometry (s : Slab) : ℚ × ℚ × ℚ × ℚ := (s.x, s.y, s.width, s.height)

/-- Slab `a` is not after slab `b` in the order by (y, then x). -/
def SlabLE (a b : Slab) : Prop :=
  a.y < b.y ∨ (a.y = b.y ∧ a.x ≤ b.x)

instance : DecidableRel SlabLE := fun a b => by
  unfold SlabLE
  infer_instance

/-- The ids `S1, S2, ..., Sk`. -/
def slabIds (k : Nat) : List String :=
  (List.range k).map fun i => "S" ++ toString (i + 1)

/-! ## `src/drafting.js`: the delete-slab tool -/

/-- Replacing the first occurrence of the non-empty pattern `pat` by `rep`. -/
def replaceFirstAux (pat rep : List Char) : List Char → List Char
  | [] => []
  | c :: cs =>
    if pat.isPrefixOf (c :: cs) then rep ++ cs.drop (pat.length - 1)
    else c :: replaceFirstAux pat rep cs

/-- `s.replace(pat, rep)` for a non-empty string pattern: only the first occurrence is
replaced. -/
def replaceFirst (s pat rep : String) : String :=
  ⟨replaceFirstAux pat.data rep.data s.data⟩

/-- `onStageMouseDown` with `currentTool === 'delete-slab'`: when the clicked node is
named `structure_slab`, every `Text` child whose text is the slab id with its first `S`
replaced by `P` is destroyed, then the clicked node. The handler returns before
`applySnapping` is called. -/
def onStageMouseDownDeleteSlab (f : Floor) (e : MouseEvent) : Outcome :=
  if e.button = 2 then { floor := f }
  else
    match e.pointer with
    | none => { floor := f }
    | some _ =>
      match e.target.bind (nodeOf f.structureLayer) with
      | some clicked =>
        if clicked.name = "structure_slab" then
          let slabId := clicked.id
          let textLabel := replaceFirst slabId "S" "P"
          let children := f.structureLayer.filter fun child =>
            !(child.className == "Text" && child.text == textLabel)
          { floor := { f with
              structureLayer := children.filter fun child => child.uid != clicked.uid } }
        else { floor := f }
      | none => { floor := f }

/-! ## `src/drafting.js`: stairs, clearing, and sequences of edits -/

/-- `addStair(f, p1, p2)`; the closing `redraw(f)` only rebuilds the drafting layer. -/
def addStair (f : Floor) (p1 p2 : Point) : Floor :=
  { f with data := { f.data with stairs := f.data.stairs ++
      [{ x1 := min p1.x p2.x, y1 := min p1.y p2.y
         x2 := max p1.x p2.x, y2 := max p1.y p2.y }] } }

/-- `onStageMouseDown` with `currentTool === 'stair'`. -/
def onStageMouseDownStair (env : Env) (f : Floor) (e : MouseEvent) : Outcome :=
  if e.button = 2 then { floor := f }
  else
    match e.pointer with
    | none => { floor := f }
    | some pos =>
      let (f1, p) := applySnapping env f pos.x pos.y
      match f1.temp.lastPoint with
      | none => { floor := { f1 with temp := { f1.temp with lastPoint := some p } } }
      | some last => { floor := saveHistory (cancelDrawing (addStair f1 last p)) }

/-- `clearActiveFloor()` on the active floor `f`. -/
def clearActiveFloor (f : Floor) : Floor :=
  saveHistory { f with data := { walls := [], stairs := [] } }

/-- An edit of the raw data of a floor: a click with the wall, stair or door tool, a
clear, or an undo. -/
inductive Edit where
  | wall (env : Env) (e : MouseEvent)
  | stair (env : Env) (e : MouseEvent)
  | door (env : Env) (e : MouseEvent)
  | clear
  | undo
deriving DecidableEq, Repr

/-- The floor after one edit. -/
def applyEdit (mathHypot : ℚ → ℚ → ℚ) (f : Floor) : Edit → Floor
  | .wall env e => (onStageMouseDownWall env f e).floor
  | .stair env e => (onStageMouseDownStair env f e).floor
  | .door env e => (onStageMouseDownDoor mathHypot env f e).floor
  | .clear => clearActiveFloor f
  | .undo => undo f

/-- The floor after a sequence of edits, handled one after the other. -/
def applyEdits (mathHypot : ℚ → ℚ → ℚ) (f : Floor) (edits : List Edit) : Floor :=
  edits.foldl (applyEdit mathHypot) f

/-- The history entry at the cursor, `f.historyStack[f.historyStep]`, if the cursor is
not negative and the entry exists. -/
def entryAtCursor (f : Floor) : Option FloorData :=
  if 0 ≤ f.historyStep then f.historyStack[f.historyStep.toNat]? else none

/-! ## `src/drafting.js`: `submitAll` and `renderResults` -/

/-- The `Konva.Rect` that `renderResults` adds for a column, for the scale `scale` of the
floor result. -/
def columnResultRect (scale : ℚ) (uid : Nat) (col : ColumnResult) : Node :=
  let size := (3 / 10 : ℚ) * scale
  { uid := uid, className := "Rect", name := "structure_col", id := col.id,
    x := col.x * scale, y := col.y * scale, offsetX := size / 2, offsetY := size / 2,
    width := size, height := size, fill := COLORS_column,
    rotation := if isFalsy col.rotation then 0 else toNumber col.rotation }

/-- The `Konva.Rect` that `renderResults` adds for a slab. -/
def slabResultRect (scale : ℚ) (uid : Nat) (sl : SlabResult) : Node :=
  { uid := uid, className := "Rect", name := "structure_slab", id := sl.id,
    x := sl.x * scale, y := sl.y * scale, width := sl.width * scale,
    height := sl.height * scale,
    fill := "rgba(200, 200, 200, 0.25)", stroke := "#555", strokeWidth := 1 }

/-- The `Konva.Text` label that `renderResults` adds for a slab. -/
def slabResultLabel (scale : ℚ) (uid : Nat) (sl : SlabResult) : Node :=
  { uid := uid, className := "Text",
    x := sl.x * scale + sl.width * scale / 2, y := sl.y * scale + sl.height * scale / 2,
    text := replaceFirst sl.id "S" "P",
    fill := "rgba(255, 255, 255, 0.4)", offsetX := 10, offsetY := 10 }

/-- The `Konva.Line` that `renderResults` adds for a beam. -/
def beamResultLine (scale : ℚ) (uid : Nat) (bm : BeamResult) : Node :=
  { uid := uid, className := "Line", name := "structure_beam", id := bm.id,
    points := ⟨bm.x1 * scale, bm.y1 * scale, bm.x2 * scale, bm.y2 * scale⟩,
    stroke := if bm.beamType = some "Hidden" then "#555" else COLORS_beam,
    strokeWidth := (1 / 5 : ℚ) * scale,
    dash := if bm.beamType = some "Hidden" then [5, 5] else [],
    beamType := some (match bm.beamType with
      | some t => if t = "" then "Main" else t
      | none => "Main") }

/-- The `Konva.Text` label that `renderResults` adds for the beam counted `beamCount`. -/
def beamResultLabel (scale : ℚ) (uid : Nat) (beamCount : Nat) (bm : BeamResult) : Node :=
  { uid := uid, className := "Text",
    x := (bm.x1 * scale + bm.x2 * scale) / 2, y := (bm.y1 * scale + bm.y2 * scale) / 2,
    text := "B" ++ toString beamCount, fill := "white" }

/-- One round of `res.columns.forEach`. -/
def addColumnResult (scale : ℚ) (f : Floor) (col : ColumnResult) : Floor :=
  { f with structureLayer := f.structureLayer ++ [columnResultRect scale f.nextUid col],
           nextUid := f.nextUid + 1 }

/-- One round of `res.slabs.forEach`: the rectangle is added and moved to the bottom,
then the label is added and moved to the bottom. -/
def addSlabResult (scale : ℚ) (f : Floor) (sl : SlabResult) : Floor :=
  { f with structureLayer :=
             slabResultLabel scale (f.nextUid + 1) sl :: slabResultRect scale f.nextUid sl ::
               f.structureLayer,
           nextUid := f.nextUid + 2 }

/-- One round of `res.beams.forEach`, on the floor and `beamCount`. -/
def addBeamResult (scale : ℚ) (st : Floor × Nat) (bm : BeamResult) : Floor × Nat :=
  ({ st.1 with structureLayer := st.1.structureLayer ++
                 [beamResultLine scale st.1.nextUid bm,
                  beamResultLabel scale (st.1.nextUid + 1) (st.2 + 1) bm],
               nextUid := st.1.nextUid + 2 },
   st.2 + 1)

/-- `renderResults(f, res)`: the structure layer is emptied and gets a new transformer,
then the columns, the slabs if there are any, and the beams are added. `res.columns` and
`res.beams` are read without a test: when one of them is missing, `forEach` is called on
`undefined` and the function ends there with a `TypeError`. -/
def renderResults (f : Floor) (res : FloorResult) : Outcome :=
  let f0 := { f with
    structureLayer := [{ uid := f.nextUid, className := "Transformer" }]
    tr := []
    nextUid := f.nextUid + 1 }
  match res.columns with
  | none =>
    { floor := f0, error := some "TypeError: Cannot read properties of undefined (reading 'forEach')" }
  | some columns =>
    let f1 := columns.foldl (addColumnResult res.scale) f0
    let f2 :=
      match res.slabs with
      | some slabs => slabs.foldl (addSlabResult res.scale) f1
      | none => f1
    match res.beams with
    | none =>
      { floor := f2, error := some "TypeError: Cannot read properties of undefined (reading 'forEach')" }
    | some beams => { floor := (beams.foldl (addBeamResult res.scale) (f2, 0)).1 }

/-- The member `results` of the response of the analysis service. -/
structure AnalyzeResults where
  GF : Option FloorResult := none
  FF : Option FloorResult := none
deriving DecidableEq, Repr

/-- The parsed response `res` of the analysis service. -/
structure AnalyzeResponse where
  results : Option AnalyzeResults := none
  taskId : Option String := none
deriving DecidableEq, Repr

/-- How `await fetch(...)` followed by `await r.json()` ends: the request fails, the
body is not JSON, or a response object is obtained. -/
inductive FetchResult where
  | networkError
  | parseError
  | response (res : AnalyzeResponse)
deriving DecidableEq, Repr

/-- The result of `submitAll`: the module state after it, the `alert`s raised, and the
exception that reached its `catch` block, if any. -/
structure SubmitOutcome where
  app : App
  alerts : List String := []
  caught : Option String := none
deriving DecidableEq, Repr

/-- The statement of `submitAll` for one floor: when the response holds a result for
the floor, it is stored in `f.results` and then rendered. -/
def ingestResult (f : Floor) (r : Option FloorResult) : Outcome :=
  match r with
  | some res => renderResults { f with results := some res } res
  | none => { floor := f }

/-- `submitAll()`, given how the request ends. The task id put into `localStorage` and the
class list of `#edit-controls` are not part of the state. -/
def submitAll (app : App) (fetched : FetchResult) : SubmitOutcome :=
  if isFalsy app.GF.scaleFactor && decide (app.GF.data.walls.length > 0) then
    { app := app, alerts := ["GF Scale missing"] }
  else
    match fetched with
    | .networkError =>
      { app := app, alerts := ["Failed"], caught := some "TypeError: Failed to fetch" }
    | .parseError =>
      { app := app, alerts := ["Failed"], caught := some "SyntaxError: Unexpected token" }
    | .response res =>
      match res.results with
      | none =>
        { app := app, alerts := ["Failed"],
          caught := some "TypeError: Cannot read properties of undefined (reading 'GF')" }
      | some results =>
        let g := ingestResult app.GF results.GF
        match g.error with
        | some err =>
          { app := { app with GF := g.floor }, alerts := ["Failed"], caught := some err }
        | none =>
          let h := ingestResult app.FF results.FF
          match h.error with
          | some err =>
            { app := { app with GF := g.floor, FF := h.floor }, alerts := ["Failed"],
              caught := some err }
          | none =>
            { app := { app with GF := g.floor, FF := h.floor },
              alerts := ["Structure Generated!"] }

/-! ## Sequences of events -/

/-- The wall that a committing click of the wall tool appends. -/
def committedWall (env : Env) (f : Floor) (last pos : Point) : Wall :=
  { id := "w_" ++ toString env.now
    x1 := last.x, y1 := last.y
    x2 := (applySnapping env f pos.x pos.y).2.x
    y2 := (applySnapping env f pos.x pos.y).2.y
    thickness := env.wallThickness / 1000 }

/-- A sequence of clicks handled one after the other with the wall tool active. -/
def wallClicks (f : Floor) (clicks : List (Env × MouseEvent)) : Floor :=
  clicks.foldl (fun g c => (onStageMouseDownWall c.1 g c.2).floor) f

/-- A click that the handler processes: not the right button, and with a pointer
position. -/
def IsClick (e : MouseEvent) : Prop :=
  e.button ≠ 2 ∧ e.pointer.isSome = true

/-! ## Concrete inputs -/

/-- A ground floor calibrated to 50 px/m with the wall anchor placed at the origin. -/
def anchoredFloor : Floor :=
  { initFloorInstance "GF" with
    scaleFactor := some 50
    temp := { lastPoint := some ⟨0, 0⟩
              ghostLine := some { points := ⟨0, 0, 0, 0⟩, stroke := "red" } } }

/-- A calibrated ground floor (50 px/m) whose structure layer holds the transformer and
one primary beam `B1` from `(0, 0)` to `(100, 0)`. -/
def beamFloor : Floor :=
  { initFloorInstance "GF" with
    scaleFactor := some 50
    structureLayer :=
      [{ uid := 0, className := "Transformer" },
       { uid := 1, className := "Line", name := "structure_beam", id := "B1",
         points := ⟨0, 0, 100, 0⟩, stroke := COLORS_beam, strokeWidth := 10,
         beamType := some "Primary" }]
    nextUid := 2 }

/-- A ground floor with a hidden beam `B1` and a primary beam `B2`, both selected,
`B1` first. -/
def hiddenFirstFloor : Floor :=
  { initFloorInstance "GF" with
    scaleFactor := some 50
    structureLayer :=
      [{ uid := 0, className := "Transformer" },
       { uid := 1, className := "Line", name := "structure_beam", id := "B1",
         points := ⟨0, 0, 100, 0⟩, stroke := "#555", strokeWidth := 10, dash := [5, 5],
         beamType := some "Hidden" },
       { uid := 2, className := "Line", name := "structure_beam", id := "B2",
         points := ⟨100, 0, 200, 0⟩, stroke := COLORS_beam, strokeWidth := 10,
         beamType := some "Primary" }]
    nextUid := 3
    tr := [1, 2]
    selectedNodes := [1, 2] }

/-- A ground floor with three beams `B1`, `B2`, `B3`, none of them hidden, all
selected. -/
def threeBeamFloor : Floor :=
  { initFloorInstance "GF" with
    scaleFactor := some 50
    structureLayer :=
      [{ uid := 0, className := "Transformer" },
       { uid := 1, className := "Line", name := "structure_beam", id := "B1",
         points := ⟨0, 0, 100, 0⟩, stroke := COLORS_beam, strokeWidth := 10,
         beamType := some "Primary" },
       { uid := 2, className := "Line", name := "structure_beam", id := "B2",
         points := ⟨100, 0, 200, 0⟩, stroke := COLORS_beam, strokeWidth := 10,
         beamType := some "Primary" },
       { uid := 3, className := "Line", name := "structure_beam", id := "B3",
         points := ⟨200, 0, 300, 0⟩, stroke := COLORS_beam, strokeWidth := 10,
         beamType := some "Secondary" }]
    nextUid := 4
    tr := [1, 2, 3]
    selectedNodes := [1, 2, 3] }

/-- An uncalibrated ground floor with a pending anchor at the origin (as left when an
image is uploaded, which resets the scale, after the first click of a wall). -/
def uncalibratedFloor : Floor :=
  { initFloorInstance "GF" with
    temp := { lastPoint := some ⟨0, 0⟩
              ghostLine := some { points := ⟨0, 0, 0, 0⟩, stroke := "red" } } }

/-- A fresh ground floor calibrated to 50 px/m. -/
def calibratedFloor : Floor :=
  { initFloorInstance "GF" with scaleFactor := some 50 }

/-- `Math.hypot` on displacements parallel to an axis, where it is the absolute value of
the non-zero component. -/
def axisHypot (dx dy : ℚ) : ℚ :=
  if dy = 0 then |dx| else |dy|

/-- A ground floor calibrated to 10 px/m with the single wall `(0, 0) -> (10, 0)`. -/
def oneWallFloor : Floor :=
  { initFloorInstance "GF" with
    scaleFactor := some 10
    data := { walls := [⟨"w_1", 0, 0, 10, 0, 9 / 40⟩], stairs := [] } }

/-- A ground floor calibrated to 10 px/m with the single wall `(0, 0) -> (100, 0)`. -/
def longWallFloor : Floor :=
  { initFloorInstance "GF" with
    scaleFactor := some 10
    data := { walls := [⟨"w_1", 0, 0, 100, 0, 9 / 40⟩], stairs := [] } }

/-- A calibrated ground floor with a pending slab anchor at `(10, 10)`, as the first
click of the add-slab tool leaves it. -/
def slabAnchoredFloor : Floor :=
  { calibratedFloor with
    temp := { slabStart := some ⟨10, 10⟩
              ghostSlab := some { x := 10, y := 10, width := 0, height := 0 } } }

/-- The environment of a scale prompt answered with the text `2`. -/
def promptTwo : Env :=
  { promptAnswer := some "2", promptNumber := .fin 2, promptFloat := .fin 2 }

/-- The client rectangle of an unrotated node on a stage that is neither zoomed nor
panned, the stroke not counted: the box of the end points for a line, the rectangle
itself otherwise. -/
def plainClientRect (n : Node) : Box :=
  if n.className = "Line" then
    { x := min n.points.x1 n.points.x2, y := min n.points.y1 n.points.y2,
      width := |n.points.x2 - n.points.x1|, height := |n.points.y2 - n.points.y1| }
  else { x := n.x, y := n.y, width := n.width, height := n.height }

/-- A ground floor with two selected slabs side by side, `S1 = (0, 0, 100, 100)` and
`S2 = (100, 0, 100, 100)`, the beam `B1` on their common edge and the beam `B2` along
their top edge. -/
def twoSlabFloor : Floor :=
  { initFloorInstance "GF" with
    scaleFactor := some 50
    structureLayer :=
      [{ uid := 1, className := "Rect", name := "structure_slab", id := "S1",
         x := 0, y := 0, width := 100, height := 100 },
       { uid := 2, className := "Rect", name := "structure_slab", id := "S2",
         x := 100, y := 0, width := 100, height := 100 },
       { uid := 0, className := "Transformer" },
       { uid := 3, className := "Line", name := "structure_beam", id := "B1",
         points := ⟨100, 0, 100, 100⟩, stroke := COLORS_beam, strokeWidth := 10,
         beamType := some "Primary" },
       { uid := 4, className := "Line", name := "structure_beam", id := "B2",
         points := ⟨0, 0, 200, 0⟩, stroke := COLORS_beam, strokeWidth := 10,
         beamType := some "Primary" }]
    nextUid := 5
    tr := [1, 2]
    selectedNodes := [1, 2] }

/-- A calibrated ground floor with the two parallel walls `(0, 0) -> (100, 0)` and
`(0, 6) -> (100, 6)`, in that order. -/
def twoWallFloor : Floor :=
  { initFloorInstance "GF" with
    scaleFactor := some 10
    data := { walls := [⟨"w_1", 0, 0, 100, 0, 9 / 40⟩, ⟨"w_2", 0, 6, 100, 6, 9 / 40⟩],
              stairs := [] } }

/-- The environment of a scale prompt answered with the text `-2`. -/
def promptMinusTwo : Env :=
  { promptAnswer := some "-2", promptNumber := .fin (-2), promptFloat := .fin (-2) }

/-- The environment of a scale prompt answered with a single blank: the text is not
empty, the conversion that `isNaN` applies gives 0, and `parseFloat` gives `NaN`. -/
def promptBlank : Env :=
  { promptAnswer := some " ", promptNumber := .fin 0, promptFloat := .nan }

/-- The environment of a scale prompt answered with the text `0x10`: the conversion that
`isNaN` applies reads the hexadecimal number 16, and `parseFloat` stops after the leading
`0`. -/
def promptHex : Env :=
  { promptAnswer := some "0x10", promptNumber := .fin 16, promptFloat := .fin 0 }

/-- The environment of a scale prompt answered with the text `0`. -/
def promptZero : Env :=
  { promptAnswer := some "0", promptNumber := .fin 0, promptFloat := .fin 0 }

/-- A response whose ground-floor result holds one column and no beam, and whose
first-floor result has no member `columns`. -/
def halfGoodResponse : AnalyzeResponse :=
  { results := some
      { GF := some { scale := 50, columns := some [{ id := "C1", x := 1, y := 1 }],
                     beams := some [] },
        FF := some { scale := 50 } } }

/-- With snapping off: the stair tool commits the stairs `(0, 0)-(10, 10)` and
`(20, 20)-(30, 30)`, an undo follows, and the stair tool commits `(40, 40)-(50, 50)`. -/
def undoThenCommit : List Edit :=
  [.stair {} { pointer := some ⟨0, 0⟩ }, .stair {} { pointer := some ⟨10, 10⟩ },
   .stair {} { pointer := some ⟨20, 20⟩ }, .stair {} { pointer := some ⟨30, 30⟩ },
   .undo,
   .stair {} { pointer := some ⟨40, 40⟩ }, .stair {} { pointer := some ⟨50, 50⟩ }]

/-- A left-button click at `(x, y)` with snapping off. -/
def clickAt (x y : ℚ) : Env × MouseEvent :=
  ({ wallThickness := 225 }, { button := 0, pointer := some ⟨x, y⟩ })

end Drafting

/-! ## `src/analysis.js`: the slab table of `renderAnalysis` -/

namespace Analysis

/-- The number that the string `x.toFixed(2)` stands for: `x` rounded to two decimals,
ties away from zero. -/
def toFixed2 (x : ℚ) : ℚ :=
  if 0 ≤ x then (⌊x * 100 + 1 / 2⌋ : ℚ) / 100 else -((⌊-x * 100 + 1 / 2⌋ : ℚ) / 100)

/-- The `ratio` of a slab row: `(Math.max(w, h) / Math.min(w, h)).toFixed(2)`, as the
number the string converts to in `ratio > 2`. -/
def slabRatio (width height : ℚ) : ℚ :=
  toFixed2 (max width height / min width height)

/-- The `type` shown for a slab of the given width and height. -/
def slabType (width height : ℚ) : String :=
  if slabRatio width height > 2 then "One-way" else "Two-way"

end Analysis

/-! ## `src/svgGenerator.js`: the span arrows of `drawSlabDetail` -/

namespace SvgGenerator

/-- Whether `drawSlabDetail(lx, ly, panelTypeIndex)` draws the single arrow of a one-way
slab: `ratio > 2.0 || ratio < 0.5` for `ratio = ly / lx`. -/
def drawsOneWay (lx ly : ℚ) : Bool :=
  decide (ly / lx > 2 ∨ ly / lx < 1 / 2)

end SvgGenerator

/-! ## Properties of the pagination engine -/

namespace Printout

theorem checkOverflowAndAdd_cases (r : Report) (node : Block) :
    (∃ p, r.currentPage = some p ∧ p.body ≠ [] ∧
        PAGE_HEIGHT_BUDGET < scrollHeight (p.body ++ [node]) ∧
        checkOverflowAndAdd r node =
          { pages := r.pages ++ [p]
            currentPage := some { num := r.pageCount + 1, body := [node] }
            pageCount := r.pageCount + 1 }) ∨
    (∃ p, r.currentPage = some p ∧
        (p.body = [] ∨ scrollHeight (p.body ++ [node]) ≤ PAGE_HEIGHT_BUDGET) ∧
        checkOverflowAndAdd r node =
          { r with currentPage := some { p with body := p.body ++ [node] } }) ∨
    (r.currentPage = none ∧
        checkOverflowAndAdd r node =
          { pages := r.pages
            currentPage := some { num := r.pageCount + 1, body := [node] }
            pageCount := r.pageCount + 1 }) := by
  rcases r with ⟨pages, cur, cnt⟩
  cases cur with
  | none =>
    right; right
    simp [checkOverflowAndAdd, createNewPage, appendChild, hasContent, currentHeight]
  | some p =>
    by_cases hb : p.body = []
    · right; left
      refine ⟨p, rfl, Or.inl hb, ?_⟩
      simp [checkOverflowAndAdd, appendChild, hasContent, currentHeight, hb]
    · by_cases hh : PAGE_HEIGHT_BUDGET < scrollHeight (p.body ++ [node])
      · left
        refine ⟨p, rfl, hb, hh, ?_⟩
        have hlen : 0 < p.body.length := List.length_pos.mpr hb
        simp [checkOverflowAndAdd, appendChild, hasContent, currentHeight, hh, hlen,
          removeChild, createNewPage]
      · right; left
        refine ⟨p, rfl, Or.inr (not_lt.mp hh), ?_⟩
        simp [checkOverflowAndAdd, appendChild, hasContent, currentHeight, hh]

theorem checkOverflowAndAdd_blocks (r : Report) (node : Block) :
    (checkOverflowAndAdd r node).blocks = r.blocks ++ [node] := by
  rcases checkOverflowAndAdd_cases r node with
    ⟨p, hc, -, -, h⟩ | ⟨p, hc, -, h⟩ | ⟨hc, h⟩ <;>
  simp [h, Report.blocks, Report.allPages, hc]

theorem addAll_blocks (start : Report) (blocks : List Block) :
    (addAll start blocks).blocks = start.blocks ++ blocks := by
  induction blocks generalizing start with
  | nil => simp [addAll]
  | cons b bs ih =>
    have h := ih (checkOverflowAndAdd start b)
    simp only [addAll, List.foldl_cons] at h ⊢
    rw [h, checkOverflowAndAdd_blocks]
    simp

theorem checkOverflowAndAdd_overBudgetAlone (r : Report) (node : Block)
    (hr : OverBudgetAlone r) : OverBudgetAlone (checkOverflowAndAdd r node) := by
  rcases checkOverflowAndAdd_cases r node with
    ⟨p, hc, -, -, h⟩ | ⟨p, hc, hp, h⟩ | ⟨hc, h⟩
  · intro q hq hlt
    simp only [h, Report.allPages, Option.toList, List.mem_append, List.mem_singleton] at hq
    rcases hq with (hq | hq) | hq
    · exact hr q (by simp [Report.allPages, hq]) hlt
    · exact hr q (by simp [Report.allPages, hc, hq]) hlt
    · simp [hq]
  · intro q hq hlt
    simp only [h, Report.allPages, Option.toList, List.mem_append, List.mem_singleton] at hq
    rcases hq with hq | hq
    · exact hr q (by simp [Report.allPages, hq]) hlt
    · subst hq
      rcases hp with hp | hp
      · simp [hp]
      · exact absurd hlt (not_lt.mpr hp)
  · intro q hq hlt
    simp only [h, Report.allPages, Option.toList, List.mem_append, List.mem_singleton] at hq
    rcases hq with hq | hq
    · exact hr q (by simp [Report.allPages, hq]) hlt
    · simp [hq]

theorem addAll_overBudgetAlone (start : Report) (blocks : List Block)
    (hs : OverBudgetAlone start) : OverBudgetAlone (addAll start blocks) := by
  induction blocks generalizing start with
  | nil => simpa [addAll] using hs
  | cons b bs ih =>
    simpa [addAll] using ih (checkOverflowAndAdd start b)
      (checkOverflowAndAdd_overBudgetAlone start b hs)

theorem start_facts (start : Report)
    (hstart : start = initial ∨ start = createNewPage initial) :
    start.blocks = [] ∧ OverBudgetAlone start := by
  rcases hstart with h | h <;> subst h <;> constructor <;>
    simp [initial, createNewPage, Report.blocks, Report.allPages, OverBudgetAlone,
      scrollHeight, PAGE_HEIGHT_BUDGET]

/-- C2: when blocks of non-negative height are passed one by one to
`checkOverflowAndAdd` (from the module's initial state, or after the `createNewPage()`
with which `generateTotalReport` begins), every page whose content height exceeds
`PAGE_HEIGHT_BUDGET` holds exactly one block, and a block that is itself taller than the
budget is the only block of its page. -/
theorem over_budget_page_has_one_block (start : Report) (blocks : List Block)
    (hstart : start = initial ∨ start = createNewPage initial)
    (hnonneg : ∀ b ∈ blocks, 0 ≤ b.height) :
    (∀ p ∈ (addAll start blocks).allPages,
        PAGE_HEIGHT_BUDGET < scrollHeight p.body → p.body.length = 1) ∧
    (∀ p ∈ (addAll start blocks).allPages, ∀ b ∈ p.body,
        PAGE_HEIGHT_BUDGET < b.height → p.body = [b]) := by
  obtain ⟨hb0, hinv0⟩ := start_facts start hstart
  have hinv := addAll_overBudgetAlone start blocks hinv0
  have hblocks : (addAll start blocks).blocks = blocks := by
    rw [addAll_blocks, hb0, List.nil_append]
  refine ⟨hinv, ?_⟩
  intro p hp b hbp hlt
  have hmem : ∀ c ∈ p.body, c ∈ blocks := by
    intro c hc
    rw [← hblocks]
    exact List.mem_flatMap.mpr ⟨p, hp, hc⟩
  have hsum : b.height ≤ scrollHeight p.body := by
    unfold scrollHeight
    apply List.single_le_sum
    · intro x hx
      obtain ⟨c, hc, rfl⟩ := List.mem_map.mp hx
      exact hnonneg c (hmem c hc)
    · exact List.mem_map.mpr ⟨b, hbp, rfl⟩
  have hlen := hinv p hp (lt_of_lt_of_le hlt hsum)
  obtain ⟨c, hc⟩ := List.length_eq_one.mp hlen
  rw [hc] at hbp ⊢
  simp at hbp
  rw [hbp]

/-- C2 at a concrete input: blocks of heights 400, 400, 900, 10 give the pages
`[400]`, `[400]`, `[900]`, `[10]`; the page holding the 900 block is over budget and
holds that block alone. -/
theorem over_budget_page_has_one_block_witness :
    (initial = initial ∨ initial = createNewPage initial) ∧
    (∀ b ∈ [Block.mk "a" 400, Block.mk "b" 400, Block.mk "c" 900, Block.mk "d" 10],
        0 ≤ b.height) ∧
    ((∀ p ∈ (addAll initial
          [Block.mk "a" 400, Block.mk "b" 400, Block.mk "c" 900, Block.mk "d" 10]).allPages,
        PAGE_HEIGHT_BUDGET < scrollHeight p.body → p.body.length = 1) ∧
     (∀ p ∈ (addAll initial
          [Block.mk "a" 400, Block.mk "b" 400, Block.mk "c" 900, Block.mk "d" 10]).allPages,
        ∀ b ∈ p.body, PAGE_HEIGHT_BUDGET < b.height → p.body = [b])) :=
  ⟨Or.inl rfl, by decide,
    over_budget_page_has_one_block initial _ (Or.inl rfl) (by decide)⟩

/-- C3: concatenating the blocks of the pages in page order gives back exactly the
sequence of blocks that was passed to `checkOverflowAndAdd`, from the module's initial
state and from the state after `generateTotalReport`'s opening `createNewPage()`. -/
theorem pages_concat_eq_input (blocks : List Block) :
    (addAll initial blocks).blocks = blocks ∧
    (addAll (createNewPage initial) blocks).blocks = blocks := by
  constructor
  · rw [addAll_blocks, (start_facts initial (Or.inl rfl)).1, List.nil_append]
  · rw [addAll_blocks, (start_facts _ (Or.inr rfl)).1, List.nil_append]

theorem checkOverflowAndAdd_noEmptyPage (r : Report) (node : Block)
    (hr : ∀ p ∈ r.pages, p.body ≠ []) : NoEmptyPage (checkOverflowAndAdd r node) := by
  rcases checkOverflowAndAdd_cases r node with
    ⟨p, hc, hp, -, h⟩ | ⟨p, hc, -, h⟩ | ⟨hc, h⟩
  · intro q hq
    simp only [h, Report.allPages, Option.toList, List.mem_append, List.mem_singleton] at hq
    rcases hq with (hq | hq) | hq
    · exact hr q hq
    · rw [hq]; exact hp
    · simp [hq]
  · intro q hq
    simp only [h, Report.allPages, Option.toList, List.mem_append, List.mem_singleton] at hq
    rcases hq with hq | hq
    · exact hr q hq
    · simp [hq]
  · intro q hq
    simp only [h, Report.allPages, Option.toList, List.mem_append, List.mem_singleton] at hq
    rcases hq with hq | hq
    · exact hr q hq
    · simp [hq]

theorem noEmptyPage_pages (r : Report) (hr : NoEmptyPage r) : ∀ p ∈ r.pages, p.body ≠ [] :=
  fun p hp => hr p (by simp [Report.allPages, hp])

theorem addAll_noEmptyPage (start : Report) (blocks : List Block)
    (hs : NoEmptyPage start) : NoEmptyPage (addAll start blocks) := by
  induction blocks generalizing start with
  | nil => simpa [addAll] using hs
  | cons b bs ih =>
    simpa [addAll] using ih (checkOverflowAndAdd start b)
      (checkOverflowAndAdd_noEmptyPage start b (noEmptyPage_pages start hs))

/-- C28: after a non-empty sequence of blocks has been passed one by one to
`checkOverflowAndAdd` (from the module's initial state, or after the `createNewPage()`
with which `generateTotalReport` begins), whatever the heights of the blocks, at least
one page exists and every page of the container holds at least one block. -/
theorem no_page_left_empty (start : Report) (blocks : List Block)
    (hstart : start = initial ∨ start = createNewPage initial) (hne : blocks ≠ []) :
    (addAll start blocks).allPages ≠ [] ∧
    ∀ p ∈ (addAll start blocks).allPages, p.body ≠ [] := by
  obtain ⟨b, bs, rfl⟩ := List.exists_cons_of_ne_nil hne
  have h0 : ∀ p ∈ start.pages, p.body ≠ [] := by
    rcases hstart with h | h <;> subst h <;> simp [initial, createNewPage]
  have hinv : NoEmptyPage (addAll start (b :: bs)) := by
    simpa [addAll] using addAll_noEmptyPage (checkOverflowAndAdd start b) bs
      (checkOverflowAndAdd_noEmptyPage start b h0)
  refine ⟨?_, hinv⟩
  intro hnil
  have hb : (addAll start (b :: bs)).blocks = b :: bs := by
    rw [addAll_blocks, (start_facts start hstart).1, List.nil_append]
  simp [Report.blocks, hnil] at hb

/-- C28 at a concrete input: a first block of height 900, over the budget of 760, then
blocks of heights 400 and 500, from the state after `createNewPage()`. -/
theorem no_page_left_empty_witness :
    (createNewPage initial = initial ∨ createNewPage initial = createNewPage initial) ∧
    [Block.mk "a" 900, Block.mk "b" 400, Block.mk "c" 500] ≠ [] ∧
    ((addAll (createNewPage initial)
        [Block.mk "a" 900, Block.mk "b" 400, Block.mk "c" 500]).allPages ≠ [] ∧
     ∀ p ∈ (addAll (createNewPage initial)
        [Block.mk "a" 900, Block.mk "b" 400, Block.mk "c" 500]).allPages, p.body ≠ []) :=
  ⟨Or.inr rfl, by decide, no_page_left_empty _ _ (Or.inr rfl) (by decide)⟩

theorem numChunks_eq (n : Nat) : numChunks n = (n + 79) / 80 := by
  apply eq_of_forall_ge_iff
  intro k
  unfold numChunks chunkSize
  rw [Nat.ceil_le, div_le_iff₀ (by norm_num : (0 : ℚ) < ((80 : ℕ) : ℚ))]
  have h : ((n : ℚ) ≤ (k : ℚ) * ((80 : ℕ) : ℚ)) ↔ n ≤ k * 80 := by
    rw [← Nat.cast_mul, Nat.cast_le]
  rw [h]
  omega

theorem bands_setupChunkSelector (n : Nat) (s : ChunkSelect) (hn : 1 < n) :
    bands (setupChunkSelector n s) =
      (List.range (numChunks n)).map fun i => (80 * i + 1, min (80 * (i + 1)) n) := by
  have h1 : ¬ n ≤ 1 := by omega
  have hb : ∀ l : List Nat,
      List.filterMap ChunkOption.range (l.map (chunkBand n)) =
      l.map fun i => (80 * i + 1, min (80 * (i + 1)) n) := by
    intro l
    induction l with
    | nil => rfl
    | cons a l ih =>
      simp only [List.map_cons, List.filterMap_cons, chunkBand, chunkSize, ih,
        ChunkOption.range]
      simp [Nat.mul_comm]
  unfold setupChunkSelector bands
  simp only [h1, if_false]
  split_ifs <;>
    simp only [updateChunkFilter, List.filterMap_cons, hb, ChunkOption.range]

/-- C26: on a report of `n > 1` pages `setupChunkSelector` offers exactly
`ceil(n / 80)` bands; band `i` (counted from 0) is the page range
`[80 * i + 1, min (80 * (i + 1)) n]`; every page number from 1 to `n` lies in exactly
one band, and every band holds at least 1 and at most 80 pages. On a report of at most
one page the selector is left as it was: no band is offered. -/
theorem chunk_bands_partition_pages (n : Nat) (s : ChunkSelect) :
    (1 < n →
      (bands (setupChunkSelector n s)).length = ⌈(n : ℚ) / 80⌉₊ ∧
      (∀ i, i < (bands (setupChunkSelector n s)).length →
        (bands (setupChunkSelector n s))[i]? =
          some (80 * i + 1, min (80 * (i + 1)) n)) ∧
      (∀ p, 1 ≤ p → p ≤ n →
        ∃! i : Nat, ∃ b : Nat × Nat, (bands (setupChunkSelector n s))[i]? = some b ∧ b.1 ≤ p ∧ p ≤ b.2) ∧
      (∀ b ∈ bands (setupChunkSelector n s), b.1 ≤ b.2 ∧ b.2 - b.1 + 1 ≤ 80)) ∧
    (n ≤ 1 → setupChunkSelector n s = s) := by
  constructor
  · intro hn
    have hB := bands_setupChunkSelector n s hn
    have hc : ⌈(n : ℚ) / 80⌉₊ = numChunks n := by simp [numChunks, chunkSize]
    have hlen : (bands (setupChunkSelector n s)).length = numChunks n := by
      rw [hB]; simp
    have hget : ∀ i, i < numChunks n →
        (bands (setupChunkSelector n s))[i]? = some (80 * i + 1, min (80 * (i + 1)) n) := by
      intro i hi
      rw [hB, List.getElem?_map, List.getElem?_range hi]
      rfl
    have hnone : ∀ i, numChunks n ≤ i → (bands (setupChunkSelector n s))[i]? = none := by
      intro i hi
      rw [List.getElem?_eq_none_iff, hlen]
      exact hi
    have hk := numChunks_eq n
    refine ⟨by rw [hlen, hc], ?_, ?_, ?_⟩
    · intro i hi
      exact hget i (by rwa [hlen] at hi)
    · intro p hp1 hpn
      refine ⟨(p - 1) / 80, ⟨_, hget ((p - 1) / 80) (by omega), ?_, ?_⟩, ?_⟩
      · show 80 * ((p - 1) / 80) + 1 ≤ p
        omega
      · show p ≤ min (80 * ((p - 1) / 80 + 1)) n
        rw [le_min_iff]
        omega
      · rintro j ⟨b, hb, hb1, hb2⟩
        by_cases hj : j < numChunks n
        · rw [hget j hj] at hb
          cases hb
          simp only [le_min_iff] at hb2
          omega
        · rw [hnone j (by omega)] at hb
          cases hb
    · intro b hb
      rw [hB] at hb
      obtain ⟨i, hi, rfl⟩ := List.mem_map.mp hb
      simp only [List.mem_range] at hi
      simp only [Nat.min_def]
      split_ifs <;> omega
  · intro hn
    simp [setupChunkSelector, hn]

/-- C26 at a concrete input: a report of 200 pages. -/
theorem chunk_bands_partition_pages_witness :
    1 < 200 ∧
    (bands (setupChunkSelector 200 {})).length = ⌈((200 : ℕ) : ℚ) / 80⌉₊ ∧
    (∀ p, 1 ≤ p → p ≤ 200 →
      ∃! i : Nat, ∃ b : Nat × Nat, (bands (setupChunkSelector 200 {}))[i]? = some b ∧ b.1 ≤ p ∧ p ≤ b.2) :=
  ⟨by decide, ((chunk_bands_partition_pages 200 {}).1 (by decide)).1,
    ((chunk_bands_partition_pages 200 {}).1 (by decide)).2.2.1⟩

theorem trim_startsWith_bracket (log : String) (h : startsWith log "[" = true) :
    startsWith (trim log) "|" = false := by
  rcases log with ⟨l⟩
  cases l with
  | nil => simp [startsWith] at h
  | cons c cs =>
    have hc : c = '[' := by
      have := h
      simp only [startsWith, List.isPrefixOf, Bool.and_true, beq_iff_eq] at this
      exact this.symm
    subst hc
    have hd : List.dropWhile isWhiteSpace ('[' :: cs) = '[' :: cs := by
      rw [List.dropWhile_cons_of_neg (by decide)]
    have hp := List.rdropWhile_prefix isWhiteSpace ('[' :: cs)
    have hne : List.rdropWhile isWhiteSpace ('[' :: cs) ≠ [] := by
      intro h0
      rw [List.rdropWhile_eq_nil_iff] at h0
      have := h0 '[' (List.mem_cons_self _ _)
      revert this
      decide
    obtain ⟨t, ht⟩ : ∃ t, List.rdropWhile isWhiteSpace ('[' :: cs) = '[' :: t := by
      cases hr : List.rdropWhile isWhiteSpace ('[' :: cs) with
      | nil => exact absurd hr hne
      | cons a t =>
        rw [hr] at hp
        have := (List.cons_prefix_cons.mp hp).1
        exact ⟨t, by rw [this]⟩
    simp only [startsWith, trim, hd, ht]
    rfl


/-- C27, as the code has it: a non-empty log line that begins with `[` and contains none
of the keywords `Formula:`, `Calc:`, `Calculation:`, `Result:`, `Conclusion:`, `Value:`
makes `parseAndAddLog` append exactly one block, the bold sub-step title whose text is
the whole line. -/
theorem bracket_line_without_keyword_is_title (element : Content → Block)
    (toLowerCase : String → String) (r : Report) (log : String)
    (hne : log ≠ "") (hstart : startsWith log "[" = true)
    (hFormula : includes log "Formula:" = false)
    (hCalc : includes log "Calc:" = false)
    (hCalculation : includes log "Calculation:" = false)
    (hResult : includes log "Result:" = false)
    (hConclusion : includes log "Conclusion:" = false)
    (hValue : includes log "Value:" = false) :
    parseAndAddLog element toLowerCase r log =
      checkOverflowAndAdd r (element (.subStepTitle log)) ∧
    (parseAndAddLog element toLowerCase r log).blocks =
      r.blocks ++ [element (.subStepTitle log)] := by
  have h : parseAndAddLog element toLowerCase r log =
      checkOverflowAndAdd r (element (.subStepTitle log)) := by
    simp [parseAndAddLog, hne, trim_startsWith_bracket log hstart, hFormula, hCalc,
      hCalculation, hResult, hConclusion, hValue, hstart]
  exact ⟨h, by rw [h, checkOverflowAndAdd_blocks]⟩

/-- C27 at a concrete input: the line `[Slab design]`. -/
theorem bracket_line_without_keyword_is_title_witness :
    (parseAndAddLog plainElement asciiLowerCase initial "[Slab design]").blocks =
      initial.blocks ++ [plainElement (.subStepTitle "[Slab design]")] :=
  (bracket_line_without_keyword_is_title plainElement asciiLowerCase initial
    "[Slab design]" (by decide) (by decide) (by decide) (by decide) (by decide)
    (by decide) (by decide) (by decide)).2

/-- C27 fails as stated: the line `[Step 1] Result: 5 kN` begins with `[`, but the test
for `Result:` comes first in `parseAndAddLog`, and the block appended is the three-cell
row with the calculation `[Step 1]` and the output `5 kN`, not a sub-step title. -/
theorem bracket_line_with_keyword_counterexample :
    startsWith "[Step 1] Result: 5 kN" "[" = true ∧
    (parseAndAddLog plainElement asciiLowerCase initial "[Step 1] Result: 5 kN").blocks =
      [plainElement (.row "" "[Step 1]" "5 kN")] ∧
    plainElement (.row "" "[Step 1]" "5 kN") ≠
      plainElement (.subStepTitle "[Step 1] Result: 5 kN") := by
  decide

theorem renderDetail_blocks (element : Content → Block) (r : Report) (d : Detail) :
    (renderDetail element r d).blocks = r.blocks ++ d.map element := by
  induction d generalizing r with
  | nil => simp [renderDetail]
  | cons c cs ih =>
    have h := ih (checkOverflowAndAdd r (element c))
    simp only [renderDetail, List.foldl_cons] at h ⊢
    rw [h, checkOverflowAndAdd_blocks]
    simp

theorem renderDetails_blocks (element : Content → Block) (r : Report) (ds : List Detail) :
    (renderDetails element r ds).blocks = r.blocks ++ ds.flatMap fun d => d.map element := by
  induction ds generalizing r with
  | nil => simp [renderDetails]
  | cons d ds ih =>
    have h := ih (renderDetail element r d)
    simp only [renderDetails, List.foldl_cons] at h ⊢
    rw [h, renderDetail_blocks]
    simp

theorem addSectionHeader_blocks (element : Content → Block) (r : Report) (title : String) :
    (addSectionHeader element r title).blocks =
      r.blocks ++ [element (.sectionHeader title)] :=
  checkOverflowAndAdd_blocks r _

theorem addTextRow_blocks (element : Content → Block) (r : Report) (ref text out : String) :
    (addTextRow element r ref text out).blocks = r.blocks ++ [element (.row ref text out)] :=
  checkOverflowAndAdd_blocks r _

theorem addConclusion_blocks (element : Content → Block) (r : Report) :
    (addConclusion element r).blocks = r.blocks ++
      [element (.sectionHeader "8.0 PROJECT CONCLUSION"),
       element (.row "Summary"
        "Total structural project analyzed. Loads traced from Roof to Foundation. All members compliant with BS 8110-1:1997."
        "PASSED")] := by
  simp [addConclusion, addTextRow_blocks, addSectionHeader_blocks]

/-- Whenever the ground-floor data is missing or the roof data is present,
`generateTotalReport` completes and the last two blocks are the header
`8.0 PROJECT CONCLUSION` and the summary row. -/
theorem generateTotalReport_ends_with_conclusion (element : Content → Block)
    (ff gf : Option FloorResults) (r0 : Report) (h : gf = none ∨ ff ≠ none) :
    (generateTotalReport element ff gf r0).error = none ∧
    ∃ before, (generateTotalReport element ff gf r0).report.blocks = before ++
      [element (.sectionHeader "8.0 PROJECT CONCLUSION"),
       element (.row "Summary"
        "Total structural project analyzed. Loads traced from Roof to Foundation. All members compliant with BS 8110-1:1997."
        "PASSED")] := by
  cases gf with
  | none =>
    refine ⟨rfl, ?_⟩
    simp only [generateTotalReport, addConclusion_blocks]
    exact ⟨_, rfl⟩
  | some g =>
    cases ff with
    | none => simp at h
    | some top =>
      refine ⟨rfl, ?_⟩
      simp only [generateTotalReport, addConclusion_blocks]
      exact ⟨_, rfl⟩

/-- C21 fails where the ground-floor data is present and the roof data is null: for
every ground-floor data `g`, `generateTotalReport` ends with a `TypeError` at the read of
`floorsData.FF.stairs`; the blocks it has appended by then are those of sections 3.0 and
4.0 and the header `5.0 STAIRCASE ANALYSIS & DESIGN`, which is the last block, so that
the sections 6.0 and 7.0 of the floor that is present and the conclusion are missing. -/
theorem total_report_throws_without_roof_data (element : Content → Block)
    (g : FloorResults) :
    (generateTotalReport element none (some g) initial).error =
      some "TypeError: Cannot read properties of null (reading 'stairs')" ∧
    (generateTotalReport element none (some g) initial).report.blocks =
      [element (.sectionHeader "3.0 SUSPENDED SLAB ANALYSIS & DESIGN")] ++
      (g.slabs.flatMap fun d => d.map element) ++
      [element (.sectionHeader "4.0 FLOOR BEAM ANALYSIS & DESIGN")] ++
      ((beamList g).flatMap fun d => d.map element) ++
      [element (.sectionHeader "5.0 STAIRCASE ANALYSIS & DESIGN")] := by
  refine ⟨rfl, ?_⟩
  simp only [generateTotalReport, addSectionHeader_blocks, renderDetails_blocks]
  simp [createNewPage, initial, Report.blocks, Report.allPages]

end Printout

/-! ## Properties of the drafting state -/

namespace Drafting

section Snapping

variable (env : Env) (f : Floor) (x y : ℚ)

theorem applySnapping_floor :
    ∃ ind cv, (applySnapping env f x y).1 =
      { f with temp := { f.temp with snapIndicator := ind }, cursorVisible := cv } := by
  unfold applySnapping
  cases env.snap with
  | false => exact ⟨f.temp.snapIndicator, f.cursorVisible, rfl⟩
  | true =>
    simp only [Bool.not_true, Bool.false_eq_true, if_false]
    split_ifs with h
    · exact ⟨_, _, rfl⟩
    · exact ⟨_, _, rfl⟩

@[simp] theorem applySnapping_data : (applySnapping env f x y).1.data = f.data := by
  obtain ⟨i, c, h⟩ := applySnapping_floor env f x y; rw [h]

@[simp] theorem applySnapping_historyStack :
    (applySnapping env f x y).1.historyStack = f.historyStack := by
  obtain ⟨i, c, h⟩ := applySnapping_floor env f x y; rw [h]

@[simp] theorem applySnapping_historyStep :
    (applySnapping env f x y).1.historyStep = f.historyStep := by
  obtain ⟨i, c, h⟩ := applySnapping_floor env f x y; rw [h]

@[simp] theorem applySnapping_scaleFactor :
    (applySnapping env f x y).1.scaleFactor = f.scaleFactor := by
  obtain ⟨i, c, h⟩ := applySnapping_floor env f x y; rw [h]

@[simp] theorem applySnapping_id : (applySnapping env f x y).1.id = f.id := by
  obtain ⟨i, c, h⟩ := applySnapping_floor env f x y; rw [h]

@[simp] theorem applySnapping_structureLayer :
    (applySnapping env f x y).1.structureLayer = f.structureLayer := by
  obtain ⟨i, c, h⟩ := applySnapping_floor env f x y; rw [h]

@[simp] theorem applySnapping_nextUid :
    (applySnapping env f x y).1.nextUid = f.nextUid := by
  obtain ⟨i, c, h⟩ := applySnapping_floor env f x y; rw [h]

@[simp] theorem applySnapping_lastPoint :
    (applySnapping env f x y).1.temp.lastPoint = f.temp.lastPoint := by
  obtain ⟨i, c, h⟩ := applySnapping_floor env f x y; rw [h]

@[simp] theorem applySnapping_ghostLine :
    (applySnapping env f x y).1.temp.ghostLine = f.temp.ghostLine := by
  obtain ⟨i, c, h⟩ := applySnapping_floor env f x y; rw [h]

end Snapping

theorem wall_commit (env : Env) (f : Floor) (e : MouseEvent) (pos last : Point)
    (hb : e.button ≠ 2) (hp : e.pointer = some pos)
    (hs : isFalsy f.scaleFactor = false) (hl : f.temp.lastPoint = some last) :
    (onStageMouseDownWall env f e).floor.data =
        { f.data with walls := f.data.walls ++ [committedWall env f last pos] } ∧
    (onStageMouseDownWall env f e).floor.historyStack =
        f.historyStack ++ [(onStageMouseDownWall env f e).floor.data] ∧
    (onStageMouseDownWall env f e).floor.historyStep = f.historyStep + 1 ∧
    (onStageMouseDownWall env f e).floor.scaleFactor = f.scaleFactor ∧
    (onStageMouseDownWall env f e).floor.temp.lastPoint =
        some (applySnapping env f pos.x pos.y).2 := by
  simp [onStageMouseDownWall, hb, hp, hs, hl, saveHistory, updateGhostLineStart, addWall,
    committedWall]

theorem wallClicks_append (f : Floor) (cs : List (Env × MouseEvent)) (c : Env × MouseEvent) :
    wallClicks f (cs ++ [c]) = (onStageMouseDownWall c.1 (wallClicks f cs) c.2).floor := by
  simp [wallClicks]

theorem wallClicks_history (f0 : Floor) (clicks : List (Env × MouseEvent))
    (hstack : f0.historyStack = []) (hstep : f0.historyStep = -1)
    (hscale : isFalsy f0.scaleFactor = false) (hanchor : f0.temp.lastPoint.isSome = true)
    (hclicks : ∀ c ∈ clicks, IsClick c.2) :
    (wallClicks f0 clicks).historyStack =
        (List.range clicks.length).map (fun i => (wallClicks f0 (clicks.take (i + 1))).data) ∧
    (wallClicks f0 clicks).historyStep = (clicks.length : Int) - 1 ∧
    isFalsy (wallClicks f0 clicks).scaleFactor = false ∧
    (wallClicks f0 clicks).temp.lastPoint.isSome = true ∧
    (wallClicks f0 clicks).data.walls.length = f0.data.walls.length + clicks.length := by
  induction clicks using List.reverseRecOn with
  | nil => simp [wallClicks, hstack, hstep, hscale, hanchor]
  | append_singleton cs c ih =>
    have hcs : ∀ d ∈ cs, IsClick d.2 := fun d hd => hclicks d (by simp [hd])
    obtain ⟨ih1, ih2, ih3, ih4, ih5⟩ := ih hcs
    obtain ⟨hb, hp⟩ := hclicks c (by simp)
    obtain ⟨pos, hpos⟩ := Option.isSome_iff_exists.mp hp
    obtain ⟨last, hlast⟩ := Option.isSome_iff_exists.mp ih4
    obtain ⟨k1, k2, k3, k4, k5⟩ := wall_commit c.1 (wallClicks f0 cs) c.2 pos last hb hpos ih3 hlast
    rw [wallClicks_append]
    refine ⟨?_, ?_, ?_, ?_, ?_⟩
    · rw [k2, ih1, List.length_append, List.length_singleton, List.range_succ, List.map_append,
        List.map_singleton]
      congr 1
      · apply List.map_congr_left
        intro i hi
        have hi' : i + 1 ≤ cs.length := by
          have := List.mem_range.mp hi
          omega
        rw [List.take_append_of_le_length hi']
      · have : (cs ++ [c]).take (cs.length + 1) = cs ++ [c] := by
          apply List.take_of_length_le
          simp
        rw [this, wallClicks_append]
    · rw [k3, ih2]
      simp
    · rw [k4]; exact ih3
    · rw [k5]; rfl
    · rw [k1]
      simp only [List.length_append, List.length_singleton]
      omega

theorem undo_iterate (f : Floor) (s N : Nat) (hstep : f.historyStep = (s : Int))
    (hlt : s < f.historyStack.length) (hdata : f.historyStack[s]? = some f.data) :
    (undo^[N] f).historyStack = f.historyStack ∧
    (undo^[N] f).historyStep = ((s - N : Nat) : Int) ∧
    f.historyStack[s - N]? = some (undo^[N] f).data := by
  induction N with
  | zero => simp [hstep, hdata]
  | succ N ih =>
    obtain ⟨h1, h2, h3⟩ := ih
    rw [Function.iterate_succ_apply']
    by_cases ht : 0 < s - N
    · have hidx : s - N - 1 < (undo^[N] f).historyStack.length := by rw [h1]; omega
      have hnat : (((s - N : Nat) : Int) - 1).toNat = s - N - 1 := by omega
      have hget : (undo^[N] f).historyStack[s - N - 1]? =
          some ((undo^[N] f).historyStack[s - N - 1]) := List.getElem?_eq_getElem hidx
      have hpos : (0 : Int) < ((s - N : Nat) : Int) := by omega
      have hsub : s - (N + 1) = s - N - 1 := by omega
      simp only [undo, h2, hpos, gt_iff_lt, if_true, hnat, hget, hsub]
      refine ⟨h1, by omega, ?_⟩
      rw [← h1, hget]
    · have hz : s - N = 0 := by omega
      have hsub : s - (N + 1) = 0 := by omega
      have hnpos : ¬ (0 : Int) < ((s - N : Nat) : Int) := by omega
      simp only [undo, h2, hnpos, gt_iff_lt, if_false, hsub]
      refine ⟨h1, by omega, ?_⟩
      rw [← hz]; exact h3

/-- C1 (amended): on a floor with empty history, a calibrated scale and a placed anchor,
`k ≥ 1` committing clicks of the wall tool leave `k` history entries and add `k` walls;
after `N ≤ k` undos the wall list is the one after the first `k - N` commits when
`N < k`, and the one after the first commit when `N = k` (undo at cursor 0 does
nothing). -/
theorem undo_restores_earlier_walls (f0 : Floor) (clicks : List (Env × MouseEvent)) (N : Nat)
    (hstack : f0.historyStack = []) (hstep : f0.historyStep = -1)
    (hscale : isFalsy f0.scaleFactor = false) (hanchor : f0.temp.lastPoint.isSome = true)
    (hclicks : ∀ c ∈ clicks, IsClick c.2)
    (hk : 1 ≤ clicks.length) (hN : N ≤ clicks.length) :
    (wallClicks f0 clicks).historyStack.length = clicks.length ∧
    (wallClicks f0 clicks).data.walls.length = f0.data.walls.length + clicks.length ∧
    (undo^[N] (wallClicks f0 clicks)).data.walls =
      (wallClicks f0 (clicks.take (max (clicks.length - N) 1))).data.walls := by
  obtain ⟨h1, h2, -, -, h5⟩ := wallClicks_history f0 clicks hstack hstep hscale hanchor hclicks
  have hlen : (wallClicks f0 clicks).historyStack.length = clicks.length := by
    rw [h1]; simp
  have hentry : ∀ i, i < clicks.length → (wallClicks f0 clicks).historyStack[i]? =
      some (wallClicks f0 (clicks.take (i + 1))).data := by
    intro i hi
    rw [h1]
    simp [hi]
  have hlast : (wallClicks f0 clicks).historyStack[clicks.length - 1]? =
      some (wallClicks f0 clicks).data := by
    rw [hentry _ (by omega)]
    have : clicks.length - 1 + 1 = clicks.length := by omega
    rw [this, List.take_length]
  obtain ⟨-, -, u3⟩ := undo_iterate (wallClicks f0 clicks) (clicks.length - 1) N
    (by rw [h2]; omega) (by rw [hlen]; omega) hlast
  refine ⟨hlen, h5, ?_⟩
  rw [hentry _ (by omega)] at u3
  have hidx : clicks.length - 1 - N + 1 = max (clicks.length - N) 1 := by omega
  rw [hidx] at u3
  exact (congrArg FloorData.walls (Option.some.inj u3)).symm

theorem isClick_clickAt (x y : ℚ) : IsClick (clickAt x y).2 :=
  ⟨by simp [clickAt], rfl⟩

theorem anchoredFloor_scale : isFalsy anchoredFloor.scaleFactor = false := by
  simp [isFalsy, anchoredFloor]

/-- C1 at a concrete input: three committed walls and two undos leave the wall list
that followed the first commit. -/
theorem undo_restores_earlier_walls_witness :
    anchoredFloor.historyStack = [] ∧ anchoredFloor.historyStep = -1 ∧
    isFalsy anchoredFloor.scaleFactor = false ∧
    anchoredFloor.temp.lastPoint.isSome = true ∧
    (∀ c ∈ [clickAt 100 0, clickAt 100 80, clickAt 0 80], IsClick c.2) ∧
    ((wallClicks anchoredFloor [clickAt 100 0, clickAt 100 80, clickAt 0 80]).historyStack.length
        = [clickAt 100 0, clickAt 100 80, clickAt 0 80].length ∧
     (wallClicks anchoredFloor [clickAt 100 0, clickAt 100 80, clickAt 0 80]).data.walls.length
        = anchoredFloor.data.walls.length + [clickAt 100 0, clickAt 100 80, clickAt 0 80].length ∧
     (undo^[2] (wallClicks anchoredFloor [clickAt 100 0, clickAt 100 80, clickAt 0 80])).data.walls
        = (wallClicks anchoredFloor ([clickAt 100 0, clickAt 100 80, clickAt 0 80].take
            (max ([clickAt 100 0, clickAt 100 80, clickAt 0 80].length - 2) 1))).data.walls) :=
  have hc : ∀ c ∈ [clickAt 100 0, clickAt 100 80, clickAt 0 80], IsClick c.2 := by
    intro c hc
    simp only [List.mem_cons, List.mem_singleton, List.not_mem_nil, or_false] at hc
    rcases hc with h | h | h <;> subst h <;> exact isClick_clickAt _ _
  ⟨rfl, rfl, anchoredFloor_scale, rfl, hc,
    undo_restores_earlier_walls anchoredFloor _ 2 rfl rfl anchoredFloor_scale rfl hc
      (by simp) (by simp)⟩

theorem undo_of_step_zero (f : Floor) (h : f.historyStep = 0) : undo f = f := by
  simp [undo, h]

/-- C1 as stated fails for `k = N = 1`: after one committed wall and one undo the wall
list still holds that wall, while the wall list after the first `k - N = 0` commits is
empty. -/
theorem undo_all_commits_counterexample :
    anchoredFloor.historyStack = [] ∧ anchoredFloor.historyStep = -1 ∧
    (wallClicks anchoredFloor [clickAt 100 0]).historyStack.length = 1 ∧
    (wallClicks anchoredFloor ([clickAt 100 0].take (1 - 1))).data.walls = [] ∧
    (undo^[1] (wallClicks anchoredFloor [clickAt 100 0])).data.walls ≠
      (wallClicks anchoredFloor ([clickAt 100 0].take (1 - 1))).data.walls := by
  have hc : ∀ c ∈ [clickAt 100 0], IsClick c.2 := by
    intro c hc
    simp only [List.mem_singleton] at hc
    subst hc
    exact isClick_clickAt _ _
  obtain ⟨h1, h2, -, -, h5⟩ :=
    wallClicks_history anchoredFloor [clickAt 100 0] rfl rfl anchoredFloor_scale rfl hc
  have hstep : (wallClicks anchoredFloor [clickAt 100 0]).historyStep = 0 := by
    rw [h2]; rfl
  refine ⟨rfl, rfl, by rw [h1]; rfl, rfl, ?_⟩
  rw [Function.iterate_one, undo_of_step_zero _ hstep]
  intro h
  rw [h] at h5
  exact absurd h5 (by decide)

/-! ### Slab renumbering -/

theorem digitChar_toNat (k : Nat) (hk : k < 10) : (Nat.digitChar k).toNat - 48 = k := by
  interval_cases k <;> rfl

theorem toDigitsCore_decode (fuel : Nat) : ∀ (n : Nat) (ds : List Char), n < fuel →
    (Nat.toDigitsCore 10 fuel n ds).foldl (fun a c => 10 * a + (c.toNat - 48)) 0 =
      ds.foldl (fun a c => 10 * a + (c.toNat - 48)) n := by
  induction fuel with
  | zero => intro n ds h; omega
  | succ fuel ih =>
    intro n ds h
    unfold Nat.toDigitsCore
    by_cases h0 : n / 10 = 0
    · simp only [h0, if_true, List.foldl_cons]
      have : n % 10 = n := by omega
      rw [digitChar_toNat _ (Nat.mod_lt _ (by decide)), this]
      simp
    · simp only [h0, if_false]
      rw [ih (n / 10) _ (by omega), List.foldl_cons,
        digitChar_toNat _ (Nat.mod_lt _ (by decide))]
      congr 1
      omega

theorem natToString_injective : Function.Injective (fun n : Nat => toString n) := by
  intro a b h
  have h' : Nat.toDigits 10 a = Nat.toDigits 10 b := by
    have := congrArg String.data h
    simpa [toString, Nat.repr, List.asString] using this
  have ha := toDigitsCore_decode (a + 1) a [] (by omega)
  have hb := toDigitsCore_decode (b + 1) b [] (by omega)
  simp only [List.foldl_nil] at ha hb
  unfold Nat.toDigits at h'
  rw [← ha, ← hb, h']

theorem slabId_injective : Function.Injective (fun i : Nat => "S" ++ toString (i + 1)) := by
  intro a b h
  have h1 := congrArg String.data h
  simp only [String.data_append, List.append_cancel_left_eq] at h1
  have h2 := natToString_injective (String.ext h1)
  omega

theorem renumber_length (l : List Slab) : (renumber l).length = l.length := by
  simp [renumber]

theorem renumber_geometry (l : List Slab) :
    (renumber l).map Slab.geometry = l.map Slab.geometry := by
  apply List.ext_getElem
  · simp [renumber]
  · intro i h1 h2
    simp [renumber, Slab.geometry]

theorem renumber_ids (l : List Slab) : (renumber l).map Slab.id = slabIds l.length := by
  apply List.ext_getElem
  · simp [renumber, slabIds]
  · intro i h1 h2
    simp [renumber, slabIds]

theorem arraySort_length {α : Type} (cmp : α → α → ℚ) (l : List α) :
    (arraySort cmp l).length = l.length := by
  simp [arraySort, List.length_insertionSort]

/-- C4: the transmitted slab list has the geometries of the collected slabs, permuted,
and its ids read in list order are exactly `S1, ..., Sk`, which are pairwise
different. -/
theorem transmitted_slabs_perm_and_ids (newSlabs : List Slab) :
    ((sortAndRenumber newSlabs).map Slab.geometry).Perm (newSlabs.map Slab.geometry) ∧
    (sortAndRenumber newSlabs).length = newSlabs.length ∧
    (sortAndRenumber newSlabs).map Slab.id = slabIds newSlabs.length ∧
    (slabIds newSlabs.length).Nodup := by
  refine ⟨?_, ?_, ?_, ?_⟩
  · rw [sortAndRenumber, renumber_geometry]
    exact (List.perm_insertionSort _ newSlabs).map _
  · rw [sortAndRenumber, renumber_length, arraySort_length]
  · rw [sortAndRenumber, renumber_ids, arraySort_length]
  · exact (List.nodup_range _).map slabId_injective

theorem orderedInsert_congr {α : Type} {r r' : α → α → Prop} [DecidableRel r]
    [DecidableRel r'] (a : α) (l : List α) (h : ∀ x ∈ l, r a x ↔ r' a x) :
    l.orderedInsert r a = l.orderedInsert r' a := by
  induction l with
  | nil => rfl
  | cons x xs ih =>
    have hx := h x (List.mem_cons_self _ _)
    have ih' := ih fun z hz => h z (List.mem_cons_of_mem _ hz)
    by_cases hr : r a x
    · simp [List.orderedInsert, hr, hx.mp hr]
    · have hr' : ¬ r' a x := fun c => hr (hx.mpr c)
      simp [List.orderedInsert, hr, hr', ih']

theorem insertionSort_congr {α : Type} {r r' : α → α → Prop} [DecidableRel r]
    [DecidableRel r'] (l : List α) (h : ∀ a ∈ l, ∀ b ∈ l, r a b ↔ r' a b) :
    l.insertionSort r = l.insertionSort r' := by
  induction l with
  | nil => rfl
  | cons a l ih =>
    have ih' := ih fun x hx y hy =>
      h x (List.mem_cons_of_mem _ hx) y (List.mem_cons_of_mem _ hy)
    simp only [List.insertionSort]
    rw [ih']
    apply orderedInsert_congr
    intro x hx
    have hxl : x ∈ l := (List.perm_insertionSort r' l).mem_iff.mp hx
    exact h a (List.mem_cons_self _ _) x (List.mem_cons_of_mem _ hxl)

theorem compareSlabs_iff_slabLE (a b : Slab)
    (h : a.y = b.y ∨ 1 / 10 < |a.y - b.y|) : compareSlabs a b ≤ 0 ↔ SlabLE a b := by
  unfold compareSlabs SlabLE
  rcases h with h | h
  · have h0 : ¬ (|b.y - b.y| > 1 / 10) := by
      rw [sub_self, abs_zero]; norm_num
    rw [h]
    simp only [h0, if_false, lt_irrefl, true_and, false_or, sub_nonpos]
  · have hne : a.y ≠ b.y := by
      intro c
      rw [c, sub_self, abs_zero] at h
      norm_num at h
    simp only [gt_iff_lt, h, if_true, sub_nonpos, hne, false_and, or_false]
    exact ⟨fun c => lt_of_le_of_ne c hne, le_of_lt⟩

theorem slabLE_total : IsTotal Slab SlabLE where
  total a b := by
    unfold SlabLE
    rcases lt_trichotomy a.y b.y with h | h | h
    · exact Or.inl (Or.inl h)
    · rcases le_total a.x b.x with hx | hx
      · exact Or.inl (Or.inr ⟨h, hx⟩)
      · exact Or.inr (Or.inr ⟨h.symm, hx⟩)
    · exact Or.inr (Or.inl h)

theorem slabLE_trans : IsTrans Slab SlabLE where
  trans a b c := by
    unfold SlabLE
    rintro (h1 | ⟨h1, h1'⟩) (h2 | ⟨h2, h2'⟩)
    · exact Or.inl (lt_trans h1 h2)
    · exact Or.inl (h2 ▸ h1)
    · exact Or.inl (h1 ▸ h2)
    · exact Or.inr ⟨h1.trans h2, le_trans h1' h2'⟩

theorem renumber_pairwise (l : List Slab) (h : l.Pairwise SlabLE) :
    (renumber l).Pairwise SlabLE := by
  rw [List.pairwise_iff_getElem] at h ⊢
  intro i j hi hj hij
  have hi' : i < l.length := by rw [renumber_length] at hi; exact hi
  have hj' : j < l.length := by rw [renumber_length] at hj; exact hj
  have := h i j hi' hj' hij
  simpa [renumber, SlabLE] using this

/-- C5 as stated fails: of two slabs at `(x, y) = (5, 0)` and `(1, 0.05)` the second is
numbered `S1` although its `y` is larger, because their `y` differ by less than the
0.1 tolerance of the comparator and the order is then taken by `x`. -/
theorem slabs_yx_order_counterexample :
    sortAndRenumber [⟨"S_user_1", 5, 0, 2, 2⟩, ⟨"S_user_2", 1, 1 / 20, 2, 2⟩] =
      [⟨"S1", 1, 1 / 20, 2, 2⟩, ⟨"S2", 5, 0, 2, 2⟩] ∧
    ¬ (sortAndRenumber [⟨"S_user_1", 5, 0, 2, 2⟩, ⟨"S_user_2", 1, 1 / 20, 2, 2⟩]).Pairwise
        SlabLE := by
  have hsort : arraySort compareSlabs
      [⟨"S_user_1", 5, 0, 2, 2⟩, ⟨"S_user_2", 1, 1 / 20, 2, 2⟩] =
      [⟨"S_user_2", 1, 1 / 20, 2, 2⟩, ⟨"S_user_1", 5, 0, 2, 2⟩] := by
    norm_num [arraySort, List.insertionSort, List.orderedInsert, compareSlabs, abs_of_neg,
      abs_of_pos]
  have h : sortAndRenumber [⟨"S_user_1", 5, 0, 2, 2⟩, ⟨"S_user_2", 1, 1 / 20, 2, 2⟩] =
      [⟨"S1", 1, 1 / 20, 2, 2⟩, ⟨"S2", 5, 0, 2, 2⟩] := by
    rw [sortAndRenumber, hsort]
    rfl
  rw [h]
  refine ⟨rfl, ?_⟩
  norm_num [SlabLE]

/-- C5 (amended): when the `y` of any two collected slabs are equal or more than 0.1
apart, the renumbered list is in ascending order of (y, then x): for slabs `Si`, `Sj`
with `i < j`, either `y_i < y_j`, or `y_i = y_j` and `x_i ≤ x_j`. -/
theorem slabs_sorted_when_rows_apart (newSlabs : List Slab)
    (hsep : ∀ a ∈ newSlabs, ∀ b ∈ newSlabs, a.y = b.y ∨ 1 / 10 < |a.y - b.y|) :
    (sortAndRenumber newSlabs).Pairwise SlabLE := by
  have hcongr : arraySort compareSlabs newSlabs = newSlabs.insertionSort SlabLE :=
    insertionSort_congr newSlabs fun a ha b hb => compareSlabs_iff_slabLE a b (hsep a ha b hb)
  rw [sortAndRenumber, hcongr]
  haveI := slabLE_total
  haveI := slabLE_trans
  exact renumber_pairwise _ (List.sorted_insertionSort SlabLE newSlabs)

/-- C5 (amended) at a concrete input: three slabs in rows `y = 0` and `y = 3`. -/
theorem slabs_sorted_when_rows_apart_witness :
    (∀ a ∈ ([⟨"a", 5, 0, 2, 2⟩, ⟨"b", 1, 3, 2, 2⟩, ⟨"c", 1, 0, 2, 2⟩] : List Slab),
      ∀ b ∈ ([⟨"a", 5, 0, 2, 2⟩, ⟨"b", 1, 3, 2, 2⟩, ⟨"c", 1, 0, 2, 2⟩] : List Slab),
        a.y = b.y ∨ 1 / 10 < |a.y - b.y|) ∧
    (sortAndRenumber [⟨"a", 5, 0, 2, 2⟩, ⟨"b", 1, 3, 2, 2⟩, ⟨"c", 1, 0, 2, 2⟩]).Pairwise
      SlabLE :=
  have h : ∀ a ∈ ([⟨"a", 5, 0, 2, 2⟩, ⟨"b", 1, 3, 2, 2⟩, ⟨"c", 1, 0, 2, 2⟩] : List Slab),
      ∀ b ∈ ([⟨"a", 5, 0, 2, 2⟩, ⟨"b", 1, 3, 2, 2⟩, ⟨"c", 1, 0, 2, 2⟩] : List Slab),
        a.y = b.y ∨ 1 / 10 < |a.y - b.y| := by
    intro a ha b hb
    simp only [List.mem_cons, List.mem_singleton, List.not_mem_nil, or_false] at ha hb
    rcases ha with ha | ha | ha <;> rcases hb with hb | hb | hb <;> subst ha <;> subst hb <;>
      norm_num [abs_of_neg]
  ⟨h, slabs_sorted_when_rows_apart _ h⟩

/-- C6, the code at the failing input: two slabs at the distinct positions `(1, 0)` and
`(1, 0.05)` compare equal, so the stable sort keeps the input order and each of them
gets `S1` in one run and `S2` in the other. -/
theorem renumbering_depends_on_input_order :
    sortAndRenumber [⟨"p", 1, 0, 2, 2⟩, ⟨"q", 1, 1 / 20, 2, 2⟩] =
      [⟨"S1", 1, 0, 2, 2⟩, ⟨"S2", 1, 1 / 20, 2, 2⟩] ∧
    sortAndRenumber [⟨"q", 1, 1 / 20, 2, 2⟩, ⟨"p", 1, 0, 2, 2⟩] =
      [⟨"S1", 1, 1 / 20, 2, 2⟩, ⟨"S2", 1, 0, 2, 2⟩] := by
  have h1 : arraySort compareSlabs [⟨"p", 1, 0, 2, 2⟩, ⟨"q", 1, 1 / 20, 2, 2⟩] =
      [⟨"p", 1, 0, 2, 2⟩, ⟨"q", 1, 1 / 20, 2, 2⟩] := by
    norm_num [arraySort, List.insertionSort, List.orderedInsert, compareSlabs, abs_of_neg,
      abs_of_pos]
  have h2 : arraySort compareSlabs [⟨"q", 1, 1 / 20, 2, 2⟩, ⟨"p", 1, 0, 2, 2⟩] =
      [⟨"q", 1, 1 / 20, 2, 2⟩, ⟨"p", 1, 0, 2, 2⟩] := by
    norm_num [arraySort, List.insertionSort, List.orderedInsert, compareSlabs, abs_of_neg,
      abs_of_pos]
  constructor
  · rw [sortAndRenumber, h1]
    rfl
  · rw [sortAndRenumber, h2]
    rfl

/-! ### Splitting a beam by a column -/

theorem foldl_splitStep (cx cy tol : ℚ) (l : List Node) :
    ∀ (acc added : List Node) (uid : Nat),
      l.foldl (splitStep cx cy tol) (acc, added, uid) =
        (acc ++ l.map (shortenIfSplit cx cy tol),
          added ++ splitOffBeams cx cy tol uid l,
          uid + splitCount cx cy tol l) := by
  induction l with
  | nil => intro acc added uid; simp [splitOffBeams, splitCount]
  | cons n rest ih =>
    intro acc added uid
    by_cases h : isSplitBy cx cy tol n = true
    · simp only [List.foldl_cons, splitStep, h, if_true, ih, shortenIfSplit, splitOffBeams,
        splitCount, List.map_cons, List.filter_cons, List.length_cons, List.append_assoc,
        List.singleton_append]
      refine Prod.ext rfl (Prod.ext rfl ?_)
      simp only []
      omega
    · simp only [List.foldl_cons, splitStep, h, if_false, ih, shortenIfSplit, splitOffBeams,
        splitCount, List.map_cons, List.filter_cons, List.append_assoc,
        List.singleton_append, Bool.false_eq_true]

theorem splitBeams_eq (cx cy tol : ℚ) (children : List Node) (uid : Nat) :
    splitBeams cx cy tol children uid =
      (children.map (shortenIfSplit cx cy tol) ++ splitOffBeams cx cy tol uid children,
        uid + splitCount cx cy tol children) := by
  simp [splitBeams, foldl_splitStep]

theorem splitOffBeams_append (cx cy tol : ℚ) (l₁ l₂ : List Node) :
    ∀ uid, splitOffBeams cx cy tol uid (l₁ ++ l₂) =
      splitOffBeams cx cy tol uid l₁ ++
        splitOffBeams cx cy tol (uid + splitCount cx cy tol l₁) l₂ := by
  induction l₁ with
  | nil => intro uid; simp [splitOffBeams, splitCount]
  | cons n rest ih =>
    intro uid
    rw [List.cons_append]
    by_cases h : isSplitBy cx cy tol n = true
    · have e1 : ∀ l, splitOffBeams cx cy tol uid (n :: l) =
          splitOffBeam cx cy uid n :: splitOffBeams cx cy tol (uid + 1) l := by
        intro l; simp [splitOffBeams, h]
      have e3 : splitCount cx cy tol (n :: rest) = splitCount cx cy tol rest + 1 := by
        simp [splitCount, h]
      have e4 : uid + 1 + splitCount cx cy tol rest = uid + (splitCount cx cy tol rest + 1) := by
        omega
      rw [e1, e1, e3, ih, List.cons_append, e4]
    · have e1 : ∀ l, splitOffBeams cx cy tol uid (n :: l) = splitOffBeams cx cy tol uid l := by
        intro l; simp [splitOffBeams, h]
      have e3 : splitCount cx cy tol (n :: rest) = splitCount cx cy tol rest := by
        simp [splitCount, h]
      rw [e1, e1, e3, ih]

/-- A point is on a segment, within any positive tolerance, when it is the midpoint of
the segment. -/
theorem isPointOnSeg_midpoint (x1 y1 x2 y2 tol : ℚ) (htol : 0 < tol) :
    isPointOnSeg ((x1 + x2) / 2) ((y1 + y2) / 2) x1 y1 x2 y2 tol = true := by
  have hbox : ¬ ((x1 + x2) / 2 < min x1 x2 - tol ∨ (x1 + x2) / 2 > max x1 x2 + tol ∨
      (y1 + y2) / 2 < min y1 y2 - tol ∨ (y1 + y2) / 2 > max y1 y2 + tol) := by
    have hx1 : min x1 x2 ≤ (x1 + x2) / 2 := by
      rcases le_total x1 x2 with h | h
      · rw [min_eq_left h]; linarith
      · rw [min_eq_right h]; linarith
    have hx2 : (x1 + x2) / 2 ≤ max x1 x2 := by
      rcases le_total x1 x2 with h | h
      · rw [max_eq_right h]; linarith
      · rw [max_eq_left h]; linarith
    have hy1 : min y1 y2 ≤ (y1 + y2) / 2 := by
      rcases le_total y1 y2 with h | h
      · rw [min_eq_left h]; linarith
      · rw [min_eq_right h]; linarith
    have hy2 : (y1 + y2) / 2 ≤ max y1 y2 := by
      rcases le_total y1 y2 with h | h
      · rw [max_eq_right h]; linarith
      · rw [max_eq_left h]; linarith
    rintro (h | h | h | h) <;> linarith
  have hdist : pointToSeg ((x1 + x2) / 2) ((y1 + y2) / 2) x1 y1 x2 y2 = .root 0 := by
    unfold pointToSeg
    by_cases hlen : (x2 - x1) * (x2 - x1) + (y2 - y1) * (y2 - y1) = 0
    · have hx : x2 - x1 = 0 := by nlinarith [mul_self_nonneg (x2 - x1), mul_self_nonneg (y2 - y1)]
      have hy : y2 - y1 = 0 := by nlinarith [mul_self_nonneg (x2 - x1), mul_self_nonneg (y2 - y1)]
      have hx' : x2 = x1 := by linarith
      have hy' : y2 = y1 := by linarith
      subst hx' hy'
      simp
    · have ht : (((x1 + x2) / 2 - x1) * (x2 - x1) + ((y1 + y2) / 2 - y1) * (y2 - y1)) /
          ((x2 - x1) * (x2 - x1) + (y2 - y1) * (y2 - y1)) = 1 / 2 := by
        field_simp
        ring
      simp only [ne_eq, hlen, not_false_eq_true, if_true, ht]
      norm_num
      ring
  unfold isPointOnSeg
  rw [if_neg hbox, hdist]
  simp [Dist.lt, htol]

theorem addCol_structureLayer (env : Env) (f : Floor) (e : MouseEvent) (pos c : Point)
    (hbutton : e.button ≠ 2) (hpos : e.pointer = some pos)
    (hc : columnCentre (applySnapping env f pos.x pos.y).1 (applySnapping env f pos.x pos.y).2
      = c) :
    (onStageMouseDownAddCol env f e).floor.structureLayer =
      (splitBeams c.x c.y ((3 / 10 : ℚ) * toNumber f.scaleFactor / 2)
        (f.structureLayer ++ [columnRect env f c]) (f.nextUid + 1)).1 := by
  simp [onStageMouseDownAddCol, hbutton, hpos, cancelDrawing, hc, columnRect]

/-- C7: with the add-col tool on a floor with positive scale factor `s`, a click whose
column centre `c` is the midpoint of a beam `b` of the structure layer splits `b`: in
the layer after the click `b` runs from its start to `c`, the column follows the old
children, and among the beams added after it exactly one comes from `b`; it runs from
`c` to the end of `b` and has the id of `b` followed by `_split`, and the type and stroke
width of `b`. The other children are shortened and split in the same way if `c` lies on
them, and are unchanged otherwise. -/
theorem column_at_midpoint_splits_beam (env : Env) (f : Floor) (e : MouseEvent)
    (pos c : Point) (pre post : List Node) (b : Node) (s : ℚ)
    (hbutton : e.button ≠ 2) (hpos : e.pointer = some pos)
    (hscale : f.scaleFactor = some s) (hs : 0 < s)
    (hlayer : f.structureLayer = pre ++ b :: post)
    (hbeam : b.name = "structure_beam")
    (hc : columnCentre (applySnapping env f pos.x pos.y).1 (applySnapping env f pos.x pos.y).2
      = c)
    (hcx : c.x = (b.points.x1 + b.points.x2) / 2)
    (hcy : c.y = (b.points.y1 + b.points.y2) / 2) :
    (onStageMouseDownAddCol env f e).floor.structureLayer =
      pre.map (shortenIfSplit c.x c.y (3 / 10 * s / 2)) ++
      { b with points := ⟨b.points.x1, b.points.y1, c.x, c.y⟩ } ::
      post.map (shortenIfSplit c.x c.y (3 / 10 * s / 2)) ++
      columnRect env f c ::
      splitOffBeams c.x c.y (3 / 10 * s / 2) (f.nextUid + 1) pre ++
      { uid := f.nextUid + 1 + splitCount c.x c.y (3 / 10 * s / 2) pre
        className := "Line"
        name := "structure_beam"
        id := b.id ++ "_split"
        points := ⟨c.x, c.y, b.points.x2, b.points.y2⟩
        stroke := COLORS_beam
        strokeWidth := b.strokeWidth
        beamType := b.beamType } ::
      splitOffBeams c.x c.y (3 / 10 * s / 2)
        (f.nextUid + 1 + splitCount c.x c.y (3 / 10 * s / 2) pre + 1) post := by
  have htol : (0 : ℚ) < 3 / 10 * s / 2 := by positivity
  have hb : isSplitBy c.x c.y (3 / 10 * s / 2) b = true := by
    simp only [isSplitBy, hbeam, hcx, hcy, isPointOnSeg_midpoint _ _ _ _ _ htol]
    rfl
  have hrect : isSplitBy c.x c.y (3 / 10 * s / 2) (columnRect env f c) = false := by
    simp [isSplitBy, columnRect]
  rw [addCol_structureLayer env f e pos c hbutton hpos hc, hscale, splitBeams_eq, hlayer]
  simp only [toNumber, Option.getD_some, List.map_append, List.map_cons, List.map_nil,
    shortenIfSplit, hb, hrect, if_true, splitOffBeams_append, splitOffBeams,
    List.append_assoc, List.cons_append, List.nil_append, List.append_nil, shortenBeam,
    splitOffBeam, splitCount, Bool.false_eq_true, if_false]

/-- C7 at a concrete input: on `beamFloor` a column placed at `(50, 0)`, the midpoint of
`B1`, leaves `B1` from `(0, 0)` to `(50, 0)` and adds `B1_split` from `(50, 0)` to
`(100, 0)`. -/
theorem column_at_midpoint_splits_beam_witness :
    (clickAt 50 0).2.button ≠ 2 ∧
    (onStageMouseDownAddCol (clickAt 50 0).1 beamFloor (clickAt 50 0).2).floor.structureLayer =
      [{ uid := 0, className := "Transformer" },
       { uid := 1, className := "Line", name := "structure_beam", id := "B1",
         points := ⟨0, 0, 50, 0⟩, stroke := COLORS_beam, strokeWidth := 10,
         beamType := some "Primary" },
       columnRect (clickAt 50 0).1 beamFloor ⟨50, 0⟩,
       { uid := 3, className := "Line", name := "structure_beam", id := "B1_split",
         points := ⟨50, 0, 100, 0⟩, stroke := COLORS_beam, strokeWidth := 10,
         beamType := some "Primary" }] := by
  have hbutton : (clickAt 50 0).2.button ≠ 2 := by simp [clickAt]
  have h := column_at_midpoint_splits_beam (clickAt 50 0).1 beamFloor (clickAt 50 0).2
    ⟨50, 0⟩ ⟨50, 0⟩ [{ uid := 0, className := "Transformer" }] []
    { uid := 1, className := "Line", name := "structure_beam", id := "B1",
      points := ⟨0, 0, 100, 0⟩, stroke := COLORS_beam, strokeWidth := 10,
      beamType := some "Primary" } 50
    hbutton rfl rfl (by norm_num) rfl rfl
    (by simp [columnCentre, findWallAt, applySnapping, clickAt, beamFloor, initFloorInstance])
    (by norm_num) (by norm_num)
  have hne : ¬ (("" : String) = "structure_beam") := by decide
  refine ⟨hbutton, ?_⟩
  rw [h]
  simp [shortenIfSplit, isSplitBy, splitOffBeams, splitCount, beamFloor, initFloorInstance, hne]

/-! ### Merging beams -/

theorem foldl_mergeStep_succ (t : String) (us : List Nat) :
    ∀ (k : Nat) (layer : List Node),
      (us.enumFrom (k + 1)).foldl (mergeStep t) layer =
        layer.map fun n =>
          if n.uid ∈ us then { n with id := t, beamType := some "Hidden" } else n := by
  induction us with
  | nil => intro k layer; simp
  | cons u us ih =>
    intro k layer
    rw [List.enumFrom_cons, List.foldl_cons, ih]
    simp only [mergeStep, updateNode, List.map_map]
    apply List.map_congr_left
    intro n _
    by_cases h1 : n.uid = u
    · by_cases h2 : n.uid ∈ us <;> simp [h1, h2]
    · by_cases h2 : n.uid ∈ us <;> simp [h1, h2]

theorem foldl_mergeStep (t : String) (first : Nat) (rest : List Nat) (layer : List Node) :
    ((first :: rest).enum.foldl (mergeStep t) layer) = mergedLayer t first rest layer := by
  rw [List.enum, List.enumFrom_cons, List.foldl_cons, foldl_mergeStep_succ]
  simp only [mergeStep, updateNode, List.map_map, mergedLayer]
  apply List.map_congr_left
  intro n _
  by_cases h1 : n.uid = first
  · by_cases h2 : n.uid ∈ rest <;> simp [h1, h2]
  · by_cases h2 : n.uid ∈ rest <;> simp [h1, h2]

theorem nodeOf_map (g : Node → Node) (hg : ∀ n, (g n).uid = n.uid) (layer : List Node)
    (u : Nat) : nodeOf (layer.map g) u = (nodeOf layer u).map g := by
  induction layer with
  | nil => rfl
  | cons n rest ih =>
    unfold nodeOf at ih ⊢
    by_cases h : n.uid = u
    · simp [List.find?_cons, hg, h]
    · simp [List.find?_cons, hg, h, ih]

theorem nodeOf_uid (layer : List Node) (u : Nat) (n : Node) (h : nodeOf layer u = some n) :
    n.uid = u := by
  have := List.find?_some h
  simpa using this

theorem nodeOf_mergedLayer (t : String) (first : Nat) (rest : List Nat) (layer : List Node)
    (u : Nat) :
    nodeOf (mergedLayer t first rest layer) u =
      (nodeOf layer u).map fun n =>
        if n.uid ∈ rest then { n with id := t, beamType := some "Hidden" }
        else if n.uid = first then { n with id := t }
        else n := by
  unfold mergedLayer
  apply nodeOf_map
  intro n
  split_ifs <;> rfl

theorem beamsOf_mergedLayer_length (t : String) (first : Nat) (rest : List Nat)
    (layer : List Node) :
    (beamsOf (mergedLayer t first rest layer)).length = (beamsOf layer).length := by
  induction layer with
  | nil => rfl
  | cons n l ih =>
    unfold beamsOf mergedLayer at ih ⊢
    simp only [List.map_cons, List.filter_cons]
    have hname : (if n.uid ∈ rest then { n with id := t, beamType := some "Hidden" }
        else if n.uid = first then { n with id := t } else n).name = n.name := by
      split_ifs <;> rfl
    rw [hname]
    by_cases hb : (n.name == "structure_beam") = true
    · simp only [hb, if_true, List.length_cons, ih]
    · simp only [hb, if_false, ih, Bool.false_eq_true]

theorem mem_selectedBeams (f : Floor) (u : Nat) (h : u ∈ selectedBeams f) :
    ∃ n, nodeOf f.structureLayer u = some n ∧ n.name = "structure_beam" := by
  unfold selectedBeams at h
  obtain ⟨-, h2⟩ := List.mem_filter.mp h
  cases hn : nodeOf f.structureLayer u with
  | none => simp [hn] at h2
  | some n =>
    refine ⟨n, rfl, ?_⟩
    simpa [hn] using h2

theorem mergeBeams_eq (env : Env) (f : Floor) (t : String) (first : Nat) (rest : List Nat)
    (hsel : selectedBeams f = first :: rest) (hrest : rest ≠ [])
    (hprompt : env.promptAnswer = some t) (ht : t ≠ "") :
    mergeBeams env f =
      some { floor := { f with
        structureLayer := mergedLayer t first rest f.structureLayer } } := by
  have hlen : 2 ≤ (first :: rest).length := by
    have := List.length_pos.mpr hrest
    simp only [List.length_cons]
    omega
  simp only [mergeBeams, hsel, hprompt, ht, hlen, ge_iff_le, if_true, if_false,
    foldl_mergeStep]

/-- C8 (amended): when `n ≥ 2` beams are selected and a non-empty id `t` is entered, the
beam merge gives every selected beam the id `t`, leaves the type of the first selected
beam as it was and sets the type of the other `n - 1` to `Hidden`, so that the selected
beam with a type other than `Hidden` is the first one if it was not `Hidden` before, and
none otherwise; the number of beams and of children of the layer is unchanged. -/
theorem beam_merge_renames_and_hides (env : Env) (f : Floor) (t : String) (first : Nat)
    (rest : List Nat)
    (hsel : selectedBeams f = first :: rest) (hrest : rest ≠ [])
    (hnodup : (selectedBeams f).Nodup)
    (hprompt : env.promptAnswer = some t) (ht : t ≠ "") :
    ∃ o, mergeBeams env f = some o ∧ o.error = none ∧
      (∀ u ∈ selectedBeams f, ∃ n', nodeOf o.floor.structureLayer u = some n' ∧ n'.id = t) ∧
      (∃ n n', nodeOf f.structureLayer first = some n ∧
        nodeOf o.floor.structureLayer first = some n' ∧ n'.beamType = n.beamType) ∧
      (∀ u ∈ rest, ∃ n', nodeOf o.floor.structureLayer u = some n' ∧
        n'.beamType = some "Hidden") ∧
      nonHidden o.floor.structureLayer (selectedBeams f) = nonHidden f.structureLayer [first] ∧
      (beamsOf o.floor.structureLayer).length = (beamsOf f.structureLayer).length ∧
      o.floor.structureLayer.length = f.structureLayer.length := by
  have hfirst : first ∉ rest := by
    rw [hsel] at hnodup
    exact (List.nodup_cons.mp hnodup).1
  have hmemrest : ∀ u ∈ rest, ∃ n, nodeOf f.structureLayer u = some n ∧ n.uid = u := by
    intro u hu
    obtain ⟨n, hn, -⟩ := mem_selectedBeams f u (by rw [hsel]; exact List.mem_cons_of_mem _ hu)
    exact ⟨n, hn, nodeOf_uid _ _ _ hn⟩
  obtain ⟨n0, hn0, -⟩ := mem_selectedBeams f first (by rw [hsel]; exact List.mem_cons_self _ _)
  have hu0 : n0.uid = first := nodeOf_uid _ _ _ hn0
  have hfirst' : nodeOf (mergedLayer t first rest f.structureLayer) first =
      some { n0 with id := t } := by
    rw [nodeOf_mergedLayer, hn0]
    simp [hu0, hfirst]
  have hrest' : ∀ u ∈ rest, ∃ n : Node, nodeOf (mergedLayer t first rest f.structureLayer) u =
      some { n with id := t, beamType := some "Hidden" } := by
    intro u hu
    obtain ⟨n, hn, hnu⟩ := hmemrest u hu
    refine ⟨n, ?_⟩
    rw [nodeOf_mergedLayer, hn]
    simp [hnu, hu]
  refine ⟨_, mergeBeams_eq env f t first rest hsel hrest hprompt ht, rfl, ?_, ?_, ?_, ?_, ?_, ?_⟩
  · intro u hu
    rw [hsel] at hu
    rcases List.mem_cons.mp hu with h | h
    · subst h
      exact ⟨_, hfirst', rfl⟩
    · obtain ⟨n, hn⟩ := hrest' u h
      exact ⟨_, hn, rfl⟩
  · exact ⟨n0, _, hn0, hfirst', rfl⟩
  · intro u hu
    obtain ⟨n, hn⟩ := hrest' u hu
    exact ⟨_, hn, rfl⟩
  · have hnil : nonHidden (mergedLayer t first rest f.structureLayer) rest = [] := by
      unfold nonHidden
      rw [List.filter_eq_nil_iff]
      intro u hu
      obtain ⟨n, hn⟩ := hrest' u hu
      simp [hn]
    have hcons : ∀ layer u us, nonHidden layer (u :: us) =
        nonHidden layer [u] ++ nonHidden layer us := by
      intro layer u us
      unfold nonHidden
      rw [← List.filter_append]
      rfl
    rw [hsel, hcons, hnil, List.append_nil]
    unfold nonHidden
    simp only [List.filter_cons, hfirst', hn0, List.filter_nil]
  · exact beamsOf_mergedLayer_length t first rest f.structureLayer
  · simp [mergedLayer]

/-- C8 (amended) at the input of the spec: beams `B1`, `B2`, `B3` merged into `B1`. -/
theorem beam_merge_renames_and_hides_witness :
    selectedBeams threeBeamFloor = 1 :: [2, 3] ∧ ([2, 3] : List Nat) ≠ [] ∧
    (selectedBeams threeBeamFloor).Nodup ∧
    ∃ o, mergeBeams { promptAnswer := some "B1" } threeBeamFloor = some o ∧ o.error = none ∧
      (∀ u ∈ selectedBeams threeBeamFloor,
        ∃ n', nodeOf o.floor.structureLayer u = some n' ∧ n'.id = "B1") ∧
      (∃ n n', nodeOf threeBeamFloor.structureLayer 1 = some n ∧
        nodeOf o.floor.structureLayer 1 = some n' ∧ n'.beamType = n.beamType) ∧
      (∀ u ∈ [2, 3], ∃ n', nodeOf o.floor.structureLayer u = some n' ∧
        n'.beamType = some "Hidden") ∧
      nonHidden o.floor.structureLayer (selectedBeams threeBeamFloor) =
        nonHidden threeBeamFloor.structureLayer [1] ∧
      (beamsOf o.floor.structureLayer).length = (beamsOf threeBeamFloor.structureLayer).length ∧
      o.floor.structureLayer.length = threeBeamFloor.structureLayer.length :=
  ⟨by decide, by decide, by decide,
    beam_merge_renames_and_hides { promptAnswer := some "B1" } threeBeamFloor "B1" 1 [2, 3]
      (by decide) (by decide) (by decide) rfl (by decide)⟩

/-- C8 as stated fails when the first selected beam is already `Hidden`: merging the
hidden `B1` and the primary `B2` into `B1` leaves both `Hidden`, so no selected beam has a
type other than `Hidden`. -/
theorem beam_merge_hidden_first_counterexample :
    2 ≤ (selectedBeams hiddenFirstFloor).length ∧
    (mergeBeams { promptAnswer := some "B1" } hiddenFirstFloor).map
        (fun o => nonHidden o.floor.structureLayer (selectedBeams hiddenFirstFloor)) =
      some [] ∧
    (mergeBeams { promptAnswer := some "B1" } hiddenFirstFloor).map
        (fun o => (nonHidden o.floor.structureLayer (selectedBeams hiddenFirstFloor)).length) ≠
      some 1 := by
  decide

/-! ### Tools before calibration -/

/-- C9: with the wall tool active and the scale factor unset, a click leaves the wall
list (and the stairs), the history stack, the history cursor and the pending anchor as
they were and ends without an exception; a click that the handler processes raises the
alert `<id>: Set Scale First!`. -/
theorem wall_click_rejected_without_scale (env : Env) (f : Floor) (e : MouseEvent)
    (hscale : f.scaleFactor = none) :
    (onStageMouseDownWall env f e).floor.data = f.data ∧
    (onStageMouseDownWall env f e).floor.historyStack = f.historyStack ∧
    (onStageMouseDownWall env f e).floor.historyStep = f.historyStep ∧
    (onStageMouseDownWall env f e).floor.temp.lastPoint = f.temp.lastPoint ∧
    (onStageMouseDownWall env f e).error = none ∧
    (IsClick e → (onStageMouseDownWall env f e).alerts = [f.id ++ ": Set Scale First!"]) := by
  unfold onStageMouseDownWall
  by_cases hb : e.button = 2
  · simp [hb, IsClick]
  · cases hp : e.pointer with
    | none => simp [hb, IsClick, hp]
    | some pos => simp [hb, hp, isFalsy, hscale]

/-- C9 at the input of the spec: anchor at `(0, 0)`, scale unset, a second click at
`(100, 0)`. -/
theorem wall_click_rejected_without_scale_witness :
    uncalibratedFloor.scaleFactor = none ∧
    ((onStageMouseDownWall (clickAt 100 0).1 uncalibratedFloor (clickAt 100 0).2).floor.data
        = uncalibratedFloor.data ∧
     (onStageMouseDownWall (clickAt 100 0).1 uncalibratedFloor (clickAt 100 0).2).floor.historyStack
        = uncalibratedFloor.historyStack ∧
     (onStageMouseDownWall (clickAt 100 0).1 uncalibratedFloor (clickAt 100 0).2).floor.historyStep
        = uncalibratedFloor.historyStep ∧
     (onStageMouseDownWall (clickAt 100 0).1 uncalibratedFloor
        (clickAt 100 0).2).floor.temp.lastPoint = uncalibratedFloor.temp.lastPoint ∧
     (onStageMouseDownWall (clickAt 100 0).1 uncalibratedFloor (clickAt 100 0).2).error = none ∧
     (IsClick (clickAt 100 0).2 →
        (onStageMouseDownWall (clickAt 100 0).1 uncalibratedFloor (clickAt 100 0).2).alerts
          = [uncalibratedFloor.id ++ ": Set Scale First!"])) ∧
    IsClick (clickAt 100 0).2 ∧
    (onStageMouseDownWall (clickAt 100 0).1 uncalibratedFloor (clickAt 100 0).2).alerts
      = ["GF: Set Scale First!"] :=
  ⟨rfl, wall_click_rejected_without_scale (clickAt 100 0).1 uncalibratedFloor
    (clickAt 100 0).2 rfl, isClick_clickAt _ _,
    (wall_click_rejected_without_scale (clickAt 100 0).1 uncalibratedFloor
      (clickAt 100 0).2 rfl).2.2.2.2.2 (isClick_clickAt _ _)⟩

/-- C10, the code at the failing input: on a fresh floor, whose scale factor is unset,
a click at `(10, 20)` with the add-beam tool raises no alert, sets the pending anchor to
`(10, 20)` and creates the preview line. -/
theorem add_beam_click_without_scale_sets_anchor :
    (initFloorInstance "GF").scaleFactor = none ∧
    (initFloorInstance "GF").temp.lastPoint = none ∧
    (initFloorInstance "GF").temp.ghostLine = none ∧
    (onStageMouseDownAddBeam (clickAt 10 20).1 (initFloorInstance "GF")
        (clickAt 10 20).2).alerts = [] ∧
    (onStageMouseDownAddBeam (clickAt 10 20).1 (initFloorInstance "GF")
        (clickAt 10 20).2).floor.temp.lastPoint = some ⟨10, 20⟩ ∧
    (onStageMouseDownAddBeam (clickAt 10 20).1 (initFloorInstance "GF")
        (clickAt 10 20).2).floor.temp.ghostLine =
      some { points := ⟨10, 20, 10, 20⟩, stroke := COLORS_beam } := by
  refine ⟨rfl, rfl, rfl, ?_, ?_, ?_⟩ <;>
    simp [onStageMouseDownAddBeam, clickAt, applySnapping, createGhostLine, initFloorInstance]

/-! ### The add-beam, scale and add-slab tools -/

@[simp] theorem applySnapping_slabStart (env : Env) (f : Floor) (x y : ℚ) :
    (applySnapping env f x y).1.temp.slabStart = f.temp.slabStart := by
  obtain ⟨i, c, h⟩ := applySnapping_floor env f x y; rw [h]

@[simp] theorem applySnapping_ghostSlab (env : Env) (f : Floor) (x y : ℚ) :
    (applySnapping env f x y).1.temp.ghostSlab = f.temp.ghostSlab := by
  obtain ⟨i, c, h⟩ := applySnapping_floor env f x y; rw [h]

/-- C11, the code at the failing input: on a floor calibrated to 50 px/m the first click
of the add-beam tool at `(0, 0)` sets the anchor; the second click at `(100, 0)` ends with
a `ReferenceError`, adds no beam to the structure layer and leaves the anchor set. -/
theorem add_beam_second_click_throws :
    (onStageMouseDownAddBeam (clickAt 0 0).1 calibratedFloor
        (clickAt 0 0).2).floor.temp.lastPoint = some ⟨0, 0⟩ ∧
    (onStageMouseDownAddBeam (clickAt 100 0).1
        (onStageMouseDownAddBeam (clickAt 0 0).1 calibratedFloor (clickAt 0 0).2).floor
        (clickAt 100 0).2).error = some "ReferenceError: snapped is not defined" ∧
    (onStageMouseDownAddBeam (clickAt 100 0).1
        (onStageMouseDownAddBeam (clickAt 0 0).1 calibratedFloor (clickAt 0 0).2).floor
        (clickAt 100 0).2).floor.structureLayer = calibratedFloor.structureLayer ∧
    (onStageMouseDownAddBeam (clickAt 100 0).1
        (onStageMouseDownAddBeam (clickAt 0 0).1 calibratedFloor (clickAt 0 0).2).floor
        (clickAt 100 0).2).floor.temp.lastPoint = some ⟨0, 0⟩ := by
  refine ⟨?_, ?_, ?_, ?_⟩ <;>
    simp [onStageMouseDownAddBeam, clickAt, applySnapping, createGhostLine, calibratedFloor,
      initFloorInstance]

/-- The second click of the scale tool on the entries for which the test of the entry and
the conversion of the entry agree, with anchor `a` and `d` the value of `Math.hypot` for
the displacement from `a` to the snapped click point: when the entered text is non-empty,
is a number for `isNaN` and `parseFloat` gives the non-zero number `m`, the scale factor
becomes `d / m` and the pending anchor is cleared; when the prompt is cancelled, or the
text is empty or not a number for `isNaN`, the scale factor stays as it was (and the
pending anchor is cleared). -/
theorem scale_tool_sets_scale (mathHypot : ℚ → ℚ → ℚ) (env : Env) (f : Floor)
    (e : MouseEvent) (pos a : Point)
    (hbutton : e.button ≠ 2) (hpos : e.pointer = some pos)
    (ha : f.temp.lastPoint = some a) :
    (∀ real m, env.promptAnswer = some real → real ≠ "" → env.promptNumber ≠ .nan →
      env.promptFloat = .fin m → m ≠ 0 →
      ∃ o, onStageMouseDownScale mathHypot env f e = some o ∧
        o.floor.scaleFactor =
          some (mathHypot ((applySnapping env f pos.x pos.y).2.x - a.x)
            ((applySnapping env f pos.x pos.y).2.y - a.y) / m) ∧
        o.floor.temp.lastPoint = none ∧ o.error = none) ∧
    ((env.promptAnswer = none ∨ env.promptAnswer = some "" ∨ env.promptNumber = .nan) →
      ∃ o, onStageMouseDownScale mathHypot env f e = some o ∧
        o.floor.scaleFactor = f.scaleFactor ∧
        o.floor.temp.lastPoint = none ∧ o.error = none) := by
  constructor
  · intro real m hreal hne hnum hfloat hm
    have hacc : promptAccepted env = true := by
      simp [promptAccepted, hreal, hne, hnum]
    simp [onStageMouseDownScale, hbutton, hpos, ha, hacc, scaleToolValue, jsDivide, hfloat, hm,
      cancelDrawing]
  · intro h
    have hacc : promptAccepted env = false := by
      rcases h with h | h | h <;> simp [promptAccepted, h]
      cases env.promptAnswer <;> simp
    simp [onStageMouseDownScale, hbutton, hpos, ha, hacc, cancelDrawing]

/-- The scale tool at the input of the spec: anchor `(0, 0)`, second click at
`(100, 0)`, pixel distance 100, entry `2`: the scale factor becomes 50. -/
theorem scale_tool_sets_scale_witness :
    (clickAt 100 0).2.button ≠ 2 ∧
    uncalibratedFloor.temp.lastPoint = some ⟨0, 0⟩ ∧
    ∃ o, onStageMouseDownScale axisHypot promptTwo uncalibratedFloor (clickAt 100 0).2 = some o ∧
      o.floor.scaleFactor = some 50 ∧ o.floor.temp.lastPoint = none ∧ o.error = none := by
  have hbutton : (clickAt 100 0).2.button ≠ 2 := by simp [clickAt]
  obtain ⟨o, h1, h2, h3, h4⟩ :=
    (scale_tool_sets_scale axisHypot promptTwo uncalibratedFloor (clickAt 100 0).2
      ⟨100, 0⟩ ⟨0, 0⟩ hbutton rfl rfl).1 "2" 2 rfl (by decide) (by simp [promptTwo]) rfl
      (by norm_num)
  refine ⟨hbutton, rfl, o, h1, ?_, h3, h4⟩
  rw [h2]
  norm_num [applySnapping, promptTwo, axisHypot]

/-- C13 as stated fails at the boundary: with the slab anchor at `(10, 10)` a second click
at `(20, 20)` gives a rectangle of exactly 10 x 10 px, which is not below the minimum, and
no slab is created: the structure layer is unchanged. -/
theorem add_slab_ten_by_ten_counterexample :
    slabAnchoredFloor.temp.slabStart = some ⟨10, 10⟩ ∧
    (|(20 : ℚ) - 10| ≥ 10 ∧ |(20 : ℚ) - 10| ≥ 10) ∧
    (onStageMouseDownAddSlab (clickAt 20 20).1 slabAnchoredFloor
        (clickAt 20 20).2).floor.structureLayer = slabAnchoredFloor.structureLayer := by
  refine ⟨rfl, by norm_num, ?_⟩
  norm_num [onStageMouseDownAddSlab, clickAt, applySnapping, slabAnchoredFloor,
    calibratedFloor, initFloorInstance]

/-- C13 (amended): on the second click of the add-slab tool, with anchor `s` and snapped
click point `p`, a slab is created if and only if `|p.x - s.x| > 10` and
`|p.y - s.y| > 10`: then the slab rectangle `(min x, min y, |dx|, |dy|)` and its label are
put at the bottom of the structure layer, otherwise the layer is unchanged; in both cases
the ghost rectangle and the pending slab anchor are cleared. -/
theorem add_slab_second_click (env : Env) (f : Floor) (e : MouseEvent) (pos s : Point)
    (hbutton : e.button ≠ 2) (hpos : e.pointer = some pos)
    (hs : f.temp.slabStart = some s) :
    (10 < |(applySnapping env f pos.x pos.y).2.x - s.x| ∧
      10 < |(applySnapping env f pos.x pos.y).2.y - s.y| →
      (onStageMouseDownAddSlab env f e).floor.structureLayer =
        userSlabLabel env f s (applySnapping env f pos.x pos.y).2 ::
        userSlabRect env f s (applySnapping env f pos.x pos.y).2 :: f.structureLayer) ∧
    (¬ (10 < |(applySnapping env f pos.x pos.y).2.x - s.x| ∧
      10 < |(applySnapping env f pos.x pos.y).2.y - s.y|) →
      (onStageMouseDownAddSlab env f e).floor.structureLayer = f.structureLayer) ∧
    (onStageMouseDownAddSlab env f e).floor.temp.ghostSlab = none ∧
    (onStageMouseDownAddSlab env f e).floor.temp.slabStart = none ∧
    (onStageMouseDownAddSlab env f e).error = none := by
  refine ⟨?_, ?_, ?_, ?_, ?_⟩
  · intro h
    simp [onStageMouseDownAddSlab, hbutton, hpos, hs, h, userSlabLabel, userSlabRect]
  · intro h
    simp only [onStageMouseDownAddSlab, hbutton, hpos, if_false, applySnapping_slabStart, hs,
      gt_iff_lt, h]
    simp
  · simp only [onStageMouseDownAddSlab, hbutton, hpos, if_false, applySnapping_slabStart, hs]
  · simp only [onStageMouseDownAddSlab, hbutton, hpos, if_false, applySnapping_slabStart, hs]
  · simp only [onStageMouseDownAddSlab, hbutton, hpos, if_false, applySnapping_slabStart, hs]

/-- C13 (amended) at the inputs of the spec: from `(10, 10)` to `(30, 30)` the slab
`(10, 10, 20, 20)` is created; from `(10, 10)` to `(15, 12)` nothing is created. -/
theorem add_slab_second_click_witness :
    (clickAt 30 30).2.button ≠ 2 ∧ slabAnchoredFloor.temp.slabStart = some ⟨10, 10⟩ ∧
    (onStageMouseDownAddSlab (clickAt 30 30).1 slabAnchoredFloor
        (clickAt 30 30).2).floor.structureLayer =
      userSlabLabel (clickAt 30 30).1 slabAnchoredFloor ⟨10, 10⟩ ⟨30, 30⟩ ::
      userSlabRect (clickAt 30 30).1 slabAnchoredFloor ⟨10, 10⟩ ⟨30, 30⟩ ::
      slabAnchoredFloor.structureLayer ∧
    (userSlabRect (clickAt 30 30).1 slabAnchoredFloor ⟨10, 10⟩ ⟨30, 30⟩).x = 10 ∧
    (userSlabRect (clickAt 30 30).1 slabAnchoredFloor ⟨10, 10⟩ ⟨30, 30⟩).width = 20 ∧
    (onStageMouseDownAddSlab (clickAt 15 12).1 slabAnchoredFloor
        (clickAt 15 12).2).floor.structureLayer = slabAnchoredFloor.structureLayer ∧
    (onStageMouseDownAddSlab (clickAt 15 12).1 slabAnchoredFloor
        (clickAt 15 12).2).floor.temp.slabStart = none := by
  have hb : ∀ x y : ℚ, (clickAt x y).2.button ≠ 2 := fun x y => by simp [clickAt]
  have hsnap : ∀ x y : ℚ,
      (applySnapping (clickAt x y).1 slabAnchoredFloor x y).2 = ⟨x, y⟩ := fun x y => by
    simp [applySnapping, clickAt]
  have h1 := (add_slab_second_click (clickAt 30 30).1 slabAnchoredFloor (clickAt 30 30).2
    ⟨30, 30⟩ ⟨10, 10⟩ (hb _ _) rfl rfl).1
  have h2 := add_slab_second_click (clickAt 15 12).1 slabAnchoredFloor (clickAt 15 12).2
    ⟨15, 12⟩ ⟨10, 10⟩ (hb _ _) rfl rfl
  rw [hsnap] at h1 h2
  refine ⟨hb _ _, rfl, h1 (by norm_num), by norm_num [userSlabRect],
    by norm_num [userSlabRect], h2.2.1 (by norm_num), h2.2.2.2.1⟩

/-! ### The door tool -/

/-- C14: for a horizontal wall `(x1, y) -> (x2, y)` with `x1 < x2`, whose length
`Math.hypot` gives as `x2 - x1`, a scale factor `s` and the cut point `(c, y)`, `cutWall`
replaces the walls carrying the id of the wall by the two walls
`(x1, y) -> (c - 0.45 s, y)` and `(c + 0.45 s, y) -> (x2, y)`, appended to the wall list. -/
theorem cutWall_horizontal (mathHypot : ℚ → ℚ → ℚ) (env : Env) (f : Floor) (w : Wall)
    (y c s : ℚ)
    (hy1 : w.y1 = y) (hy2 : w.y2 = y) (hx : w.x1 < w.x2)
    (hscale : f.scaleFactor = some s)
    (hlen : mathHypot (w.x2 - w.x1) (w.y2 - w.y1) = w.x2 - w.x1) :
    (cutWall mathHypot env f w c y).data.walls =
      (f.data.walls.filter fun v => v.id != w.id) ++
        [{ id := "w_" ++ toString env.now, x1 := w.x1, y1 := y,
           x2 := c - 45 / 100 * s, y2 := y, thickness := env.wallThickness / 1000 },
         { id := "w_" ++ toString env.nowSecond, x1 := c + 45 / 100 * s, y1 := y,
           x2 := w.x2, y2 := y, thickness := env.wallThickness / 1000 }] := by
  have hdx : w.x2 - w.x1 ≠ 0 := sub_ne_zero.mpr (ne_of_gt hx)
  have hlen0 : mathHypot (w.x2 - w.x1) 0 = w.x2 - w.x1 := by
    rw [hy1, hy2, sub_self] at hlen
    exact hlen
  have hs1 : w.x1 + (c - w.x1) * (w.x2 - w.x1) / ((w.x2 - w.x1) * (w.x2 - w.x1)) *
      (w.x2 - w.x1) - (w.x2 - w.x1) / (w.x2 - w.x1) * (9 / 10 * s / 2) = c - 45 / 100 * s := by
    field_simp
    ring
  have hs2 : w.x1 + (c - w.x1) * (w.x2 - w.x1) / ((w.x2 - w.x1) * (w.x2 - w.x1)) *
      (w.x2 - w.x1) + (w.x2 - w.x1) / (w.x2 - w.x1) * (9 / 10 * s / 2) = c + 45 / 100 * s := by
    field_simp
    ring
  simp only [cutWall, addWall, hscale, toNumber, Option.getD_some, hy1, hy2, sub_self, hlen0,
    mul_zero, add_zero, zero_div, zero_mul, sub_zero, hs1, hs2, List.append_assoc,
    List.singleton_append]

/-- C14 at the input of the spec: wall `(0, 0) -> (10, 0)`, cut at `(5, 0)`, scale factor
10 px/m: the two walls are `(0, 0) -> (0.5, 0)` and `(9.5, 0) -> (10, 0)`. -/
theorem cutWall_horizontal_witness :
    ((0 : ℚ) < 10) ∧ oneWallFloor.scaleFactor = some 10 ∧
    axisHypot (10 - 0) (0 - 0) = 10 - 0 ∧
    (cutWall axisHypot (clickAt 5 0).1 oneWallFloor ⟨"w_1", 0, 0, 10, 0, 9 / 40⟩ 5 0).data.walls =
      [{ id := "w_0", x1 := 0, y1 := 0, x2 := 1 / 2, y2 := 0, thickness := 9 / 40 },
       { id := "w_0", x1 := 19 / 2, y1 := 0, x2 := 10, y2 := 0, thickness := 9 / 40 }] := by
  have hlen : axisHypot (10 - 0) (0 - 0) = 10 - 0 := by norm_num [axisHypot]
  have h := cutWall_horizontal axisHypot (clickAt 5 0).1 oneWallFloor
    ⟨"w_1", 0, 0, 10, 0, 9 / 40⟩ 0 5 10 rfl rfl (by norm_num) rfl hlen
  refine ⟨by norm_num, rfl, hlen, ?_⟩
  rw [h]
  norm_num [oneWallFloor, initFloorInstance, clickAt]
  decide

theorem applySnapping_off (env : Env) (f : Floor) (x y : ℚ) (h : env.snap = false) :
    applySnapping env f x y = (f, ⟨x, y⟩) := by
  simp [applySnapping, h]

theorem door_hit (mathHypot : ℚ → ℚ → ℚ) (env : Env) (f : Floor) (e : MouseEvent)
    (pos : Point) (wall : Wall) (hbutton : e.button ≠ 2) (hpos : e.pointer = some pos)
    (hsnap : env.snap = false) (hfind : findWallAt f pos.x pos.y = some wall) :
    (onStageMouseDownDoor mathHypot env f e).floor =
      saveHistory (cutWall mathHypot env f wall pos.x pos.y) := by
  simp [onStageMouseDownDoor, hbutton, hpos, applySnapping_off env f pos.x pos.y hsnap, hfind]

/-- C16, the code at the failing input: on the wall `(0, 0) -> (10, 0)` with scale factor
10 px/m, a door click at `(1, 0)`, which is on the wall, produces the walls
`(0, 0) -> (-3.5, 0)` and `(5.5, 0) -> (10, 0)`: the first one ends at `x = -3.5`, outside
the segment of the wall that was cut. -/
theorem door_near_wall_end_leaves_segment :
    findWallAt oneWallFloor 1 0 = some ⟨"w_1", 0, 0, 10, 0, 9 / 40⟩ ∧
    (onStageMouseDownDoor axisHypot (clickAt 1 0).1 oneWallFloor
        (clickAt 1 0).2).floor.data.walls =
      [{ id := "w_0", x1 := 0, y1 := 0, x2 := -7 / 2, y2 := 0, thickness := 9 / 40 },
       { id := "w_0", x1 := 11 / 2, y1 := 0, x2 := 10, y2 := 0, thickness := 9 / 40 }] ∧
    (-7 / 2 : ℚ) < min 0 10 := by
  have hfind : findWallAt oneWallFloor 1 0 = some ⟨"w_1", 0, 0, 10, 0, 9 / 40⟩ := by
    norm_num [findWallAt, pointToSeg, Dist.lt, oneWallFloor, initFloorInstance]
  refine ⟨hfind, ?_, by norm_num⟩
  rw [door_hit axisHypot (clickAt 1 0).1 oneWallFloor (clickAt 1 0).2 ⟨1, 0⟩ _
    (by simp [clickAt]) rfl rfl hfind]
  norm_num [cutWall, addWall, saveHistory, axisHypot, toNumber, oneWallFloor,
    initFloorInstance, clickAt]
  decide

/-- C15, the code at the failing input: on the wall `(0, 0) -> (100, 0)` (scale factor
10 px/m) a first door click at `(50, 0)` leaves the two halves `(0, 0) -> (45.5, 0)` and
`(54.5, 0) -> (100, 0)`, which carry the same id because both were created at the same
`Date.now()`. A second door click at `(20, 0)` hits the left half; the filter by id
removes both halves, so the right half is lost and the wall list still has two walls. -/
theorem door_cut_removes_walls_sharing_id :
    (onStageMouseDownDoor axisHypot ({ now := 7 } : Env) longWallFloor
        { pointer := some ⟨50, 0⟩ }).floor.data.walls =
      [{ id := "w_7", x1 := 0, y1 := 0, x2 := 91 / 2, y2 := 0, thickness := 0 },
       { id := "w_7", x1 := 109 / 2, y1 := 0, x2 := 100, y2 := 0, thickness := 0 }] ∧
    findWallAt (onStageMouseDownDoor axisHypot ({ now := 7 } : Env) longWallFloor
        { pointer := some ⟨50, 0⟩ }).floor 20 0 =
      some { id := "w_7", x1 := 0, y1 := 0, x2 := 91 / 2, y2 := 0, thickness := 0 } ∧
    (onStageMouseDownDoor axisHypot ({ now := 9 } : Env)
        (onStageMouseDownDoor axisHypot ({ now := 7 } : Env) longWallFloor
          { pointer := some ⟨50, 0⟩ }).floor
        { pointer := some ⟨20, 0⟩ }).floor.data.walls =
      [{ id := "w_9", x1 := 0, y1 := 0, x2 := 31 / 2, y2 := 0, thickness := 0 },
       { id := "w_9", x1 := 49 / 2, y1 := 0, x2 := 91 / 2, y2 := 0, thickness := 0 }] := by
  have hfind1 : findWallAt longWallFloor 50 0 = some ⟨"w_1", 0, 0, 100, 0, 9 / 40⟩ := by
    norm_num [findWallAt, pointToSeg, Dist.lt, longWallFloor, initFloorInstance]
  have h1 := door_hit axisHypot ({ now := 7 } : Env) longWallFloor
    { pointer := some ⟨50, 0⟩ } ⟨50, 0⟩ _ (by decide) rfl rfl hfind1
  have hw1 : (saveHistory (cutWall axisHypot ({ now := 7 } : Env) longWallFloor
      ⟨"w_1", 0, 0, 100, 0, 9 / 40⟩ 50 0)).data.walls =
      [{ id := "w_7", x1 := 0, y1 := 0, x2 := 91 / 2, y2 := 0, thickness := 0 },
       { id := "w_7", x1 := 109 / 2, y1 := 0, x2 := 100, y2 := 0, thickness := 0 }] := by
    norm_num [cutWall, addWall, saveHistory, axisHypot, toNumber, longWallFloor,
      initFloorInstance]
    decide
  have hzoom : (saveHistory (cutWall axisHypot ({ now := 7 } : Env) longWallFloor
      ⟨"w_1", 0, 0, 100, 0, 9 / 40⟩ 50 0)).zoom = 1 := rfl
  have hscale : (saveHistory (cutWall axisHypot ({ now := 7 } : Env) longWallFloor
      ⟨"w_1", 0, 0, 100, 0, 9 / 40⟩ 50 0)).scaleFactor = some 10 := rfl
  have hfind2 : findWallAt (saveHistory (cutWall axisHypot ({ now := 7 } : Env) longWallFloor
      ⟨"w_1", 0, 0, 100, 0, 9 / 40⟩ 50 0)) 20 0 =
      some { id := "w_7", x1 := 0, y1 := 0, x2 := 91 / 2, y2 := 0, thickness := 0 } := by
    simp only [findWallAt, hw1, hzoom]
    norm_num [pointToSeg, Dist.lt]
  rw [h1]
  refine ⟨hw1, hfind2, ?_⟩
  rw [door_hit axisHypot ({ now := 9 } : Env) _ { pointer := some ⟨20, 0⟩ } ⟨20, 0⟩ _
    (by decide) rfl rfl hfind2]
  generalize saveHistory (cutWall axisHypot ({ now := 7 } : Env) longWallFloor
      ⟨"w_1", 0, 0, 100, 0, 9 / 40⟩ 50 0) = g at hw1 hscale
  have hfilter : (List.filter (fun w : Wall => w.id != "w_7")
      [{ id := "w_7", x1 := 0, y1 := 0, x2 := 91 / 2, y2 := 0, thickness := 0 },
       { id := "w_7", x1 := 109 / 2, y1 := 0, x2 := 100, y2 := 0, thickness := 0 }]) = [] := by
    decide
  simp only [cutWall, addWall, saveHistory, hw1, hscale, hfilter]
  norm_num [axisHypot, toNumber, abs_of_pos]
  decide

/-! ### A column placed next to a beam -/

theorem addCol_splits (env : Env) (f : Floor) (e : MouseEvent) (pos c : Point)
    (pre post : List Node) (b : Node)
    (hbutton : e.button ≠ 2) (hpos : e.pointer = some pos)
    (hlayer : f.structureLayer = pre ++ b :: post)
    (hc : columnCentre (applySnapping env f pos.x pos.y).1 (applySnapping env f pos.x pos.y).2
      = c)
    (hb : isSplitBy c.x c.y (3 / 10 * toNumber f.scaleFactor / 2) b = true) :
    (onStageMouseDownAddCol env f e).floor.structureLayer =
      pre.map (shortenIfSplit c.x c.y (3 / 10 * toNumber f.scaleFactor / 2)) ++
      shortenBeam c.x c.y b ::
      post.map (shortenIfSplit c.x c.y (3 / 10 * toNumber f.scaleFactor / 2)) ++
      columnRect env f c ::
      splitOffBeams c.x c.y (3 / 10 * toNumber f.scaleFactor / 2) (f.nextUid + 1) pre ++
      splitOffBeam c.x c.y
        (f.nextUid + 1 + splitCount c.x c.y (3 / 10 * toNumber f.scaleFactor / 2) pre) b ::
      splitOffBeams c.x c.y (3 / 10 * toNumber f.scaleFactor / 2)
        (f.nextUid + 1 + splitCount c.x c.y (3 / 10 * toNumber f.scaleFactor / 2) pre + 1)
        post := by
  have hrect : isSplitBy c.x c.y (3 / 10 * toNumber f.scaleFactor / 2) (columnRect env f c)
      = false := by
    simp [isSplitBy, columnRect]
  rw [addCol_structureLayer env f e pos c hbutton hpos hc, splitBeams_eq, hlayer]
  simp only [List.map_append, List.map_cons, List.map_nil, shortenIfSplit, hb, hrect, if_true,
    splitOffBeams_append, splitOffBeams, List.append_assoc, List.cons_append, List.nil_append,
    List.append_nil, splitCount, Bool.false_eq_true, if_false]

/-- C17 as stated fails: on `beamFloor` (beam `B1` from `(0, 0)` to `(100, 0)`, split
tolerance 7.5, no wall) a click at `(50, 5)` is within the tolerance of the beam and its
orthogonal projection onto the beam is `(50, 0)`, but the column is centred at `(50, 5)`
and the beam is split into `(0, 0) -> (50, 5)` and `(50, 5) -> (100, 0)`, which are not
collinear with the original beam. -/
theorem column_not_projected_onto_beam_counterexample :
    findWallAt beamFloor 50 5 = none ∧
    isPointOnSeg 50 5 0 0 100 0 (3 / 10 * 50 / 2) = true ∧
    projectPointOnLine 50 5 0 0 100 0 = ⟨50, 0⟩ ∧
    (onStageMouseDownAddCol (clickAt 50 5).1 beamFloor (clickAt 50 5).2).floor.structureLayer =
      [{ uid := 0, className := "Transformer" },
       { uid := 1, className := "Line", name := "structure_beam", id := "B1",
         points := ⟨0, 0, 50, 5⟩, stroke := COLORS_beam, strokeWidth := 10,
         beamType := some "Primary" },
       columnRect (clickAt 50 5).1 beamFloor ⟨50, 5⟩,
       { uid := 3, className := "Line", name := "structure_beam", id := "B1_split",
         points := ⟨50, 5, 100, 0⟩, stroke := COLORS_beam, strokeWidth := 10,
         beamType := some "Primary" }] ∧
    ((100 : ℚ) - 0) * (5 - 0) - (0 - 0) * (50 - 0) ≠ 0 := by
  have hwall : findWallAt beamFloor 50 5 = none := by
    simp [findWallAt, beamFloor, initFloorInstance]
  have hon : isPointOnSeg 50 5 0 0 100 0 (3 / 10 * 50 / 2) = true := by
    norm_num [isPointOnSeg, pointToSeg, Dist.lt]
  have hne : ¬ (("" : String) = "structure_beam") := by decide
  have h := addCol_splits (clickAt 50 5).1 beamFloor (clickAt 50 5).2 ⟨50, 5⟩ ⟨50, 5⟩
    [{ uid := 0, className := "Transformer" }] []
    { uid := 1, className := "Line", name := "structure_beam", id := "B1",
      points := ⟨0, 0, 100, 0⟩, stroke := COLORS_beam, strokeWidth := 10,
      beamType := some "Primary" }
    (by simp [clickAt]) rfl rfl
    (by simp [columnCentre, findWallAt, applySnapping, clickAt, beamFloor, initFloorInstance])
    (by simpa [isSplitBy, beamFloor, toNumber] using hon)
  refine ⟨hwall, hon, by norm_num [projectPointOnLine], ?_, by norm_num⟩
  rw [h]
  simp [shortenIfSplit, isSplitBy, splitOffBeams, splitCount, beamFloor, initFloorInstance, hne,
    shortenBeam, splitOffBeam]

/-- C17 (amended): with the add-col tool, for a click whose snapped point `p` is near no
wall and within the split tolerance of a beam `b` of the structure layer, the column is
placed with its centre at `p` itself (it is not projected onto the beam), and `b` is split
into two beams that meet at `p`: `b` is shortened to run from its start to `p`, and one
beam from `p` to the end of `b` is added after the column. -/
theorem column_at_click_point_splits_beam (env : Env) (f : Floor) (e : MouseEvent)
    (pos p : Point) (pre post : List Node) (b : Node)
    (hbutton : e.button ≠ 2) (hpos : e.pointer = some pos)
    (hp : (applySnapping env f pos.x pos.y).2 = p)
    (hwall : findWallAt (applySnapping env f pos.x pos.y).1 p.x p.y = none)
    (hlayer : f.structureLayer = pre ++ b :: post)
    (hbeam : b.name = "structure_beam")
    (hnear : isPointOnSeg p.x p.y b.points.x1 b.points.y1 b.points.x2 b.points.y2
      (3 / 10 * toNumber f.scaleFactor / 2) = true) :
    columnCentre (applySnapping env f pos.x pos.y).1 p = p ∧
    (columnRect env f p).x + (columnRect env f p).width / 2 = p.x ∧
    (columnRect env f p).y + (columnRect env f p).height / 2 = p.y ∧
    (onStageMouseDownAddCol env f e).floor.structureLayer =
      pre.map (shortenIfSplit p.x p.y (3 / 10 * toNumber f.scaleFactor / 2)) ++
      { b with points := ⟨b.points.x1, b.points.y1, p.x, p.y⟩ } ::
      post.map (shortenIfSplit p.x p.y (3 / 10 * toNumber f.scaleFactor / 2)) ++
      columnRect env f p ::
      splitOffBeams p.x p.y (3 / 10 * toNumber f.scaleFactor / 2) (f.nextUid + 1) pre ++
      { uid := f.nextUid + 1 + splitCount p.x p.y (3 / 10 * toNumber f.scaleFactor / 2) pre
        className := "Line"
        name := "structure_beam"
        id := b.id ++ "_split"
        points := ⟨p.x, p.y, b.points.x2, b.points.y2⟩
        stroke := COLORS_beam
        strokeWidth := b.strokeWidth
        beamType := b.beamType } ::
      splitOffBeams p.x p.y (3 / 10 * toNumber f.scaleFactor / 2)
        (f.nextUid + 1 + splitCount p.x p.y (3 / 10 * toNumber f.scaleFactor / 2) pre + 1)
        post := by
  have hc : columnCentre (applySnapping env f pos.x pos.y).1 p = p := by
    simp [columnCentre, hwall]
  have hb : isSplitBy p.x p.y (3 / 10 * toNumber f.scaleFactor / 2) b = true := by
    simp [isSplitBy, hbeam, hnear]
  refine ⟨hc, ?_, ?_, ?_⟩
  · simp only [columnRect]
    ring
  · simp only [columnRect]
    ring
  · rw [← hp] at hc hb ⊢
    exact addCol_splits env f e pos _ pre post b hbutton hpos hlayer hc hb

/-- C17 (amended) at a concrete input: on `beamFloor` a click at `(50, 5)` places the
column centred at `(50, 5)` and splits `B1` into `(0, 0) -> (50, 5)` and
`(50, 5) -> (100, 0)`. -/
theorem column_at_click_point_splits_beam_witness :
    (clickAt 50 5).2.button ≠ 2 ∧
    (applySnapping (clickAt 50 5).1 beamFloor 50 5).2 = ⟨50, 5⟩ ∧
    findWallAt (applySnapping (clickAt 50 5).1 beamFloor 50 5).1 50 5 = none ∧
    isPointOnSeg 50 5 0 0 100 0 (3 / 10 * toNumber beamFloor.scaleFactor / 2) = true ∧
    (columnRect (clickAt 50 5).1 beamFloor ⟨50, 5⟩).x +
      (columnRect (clickAt 50 5).1 beamFloor ⟨50, 5⟩).width / 2 = 50 ∧
    (onStageMouseDownAddCol (clickAt 50 5).1 beamFloor (clickAt 50 5).2).floor.structureLayer =
      [{ uid := 0, className := "Transformer" },
       { uid := 1, className := "Line", name := "structure_beam", id := "B1",
         points := ⟨0, 0, 50, 5⟩, stroke := COLORS_beam, strokeWidth := 10,
         beamType := some "Primary" },
       columnRect (clickAt 50 5).1 beamFloor ⟨50, 5⟩,
       { uid := 3, className := "Line", name := "structure_beam", id := "B1_split",
         points := ⟨50, 5, 100, 0⟩, stroke := COLORS_beam, strokeWidth := 10,
         beamType := some "Primary" }] := by
  have hbutton : (clickAt 50 5).2.button ≠ 2 := by simp [clickAt]
  have hsnap : (applySnapping (clickAt 50 5).1 beamFloor 50 5).2 = ⟨50, 5⟩ := by
    simp [applySnapping, clickAt]
  have hwall : findWallAt (applySnapping (clickAt 50 5).1 beamFloor 50 5).1 50 5 = none := by
    simp [findWallAt, applySnapping, clickAt, beamFloor, initFloorInstance]
  have hon : isPointOnSeg 50 5 0 0 100 0 (3 / 10 * toNumber beamFloor.scaleFactor / 2)
      = true := by
    norm_num [isPointOnSeg, pointToSeg, Dist.lt, beamFloor, toNumber]
  have hne : ¬ (("" : String) = "structure_beam") := by decide
  have h := column_at_click_point_splits_beam (clickAt 50 5).1 beamFloor (clickAt 50 5).2
    ⟨50, 5⟩ ⟨50, 5⟩ [{ uid := 0, className := "Transformer" }] []
    { uid := 1, className := "Line", name := "structure_beam", id := "B1",
      points := ⟨0, 0, 100, 0⟩, stroke := COLORS_beam, strokeWidth := 10,
      beamType := some "Primary" }
    hbutton rfl hsnap hwall rfl rfl hon
  refine ⟨hbutton, hsnap, hwall, hon, h.2.1, ?_⟩
  rw [h.2.2.2]
  simp [shortenIfSplit, isSplitBy, splitOffBeams, splitCount, beamFloor, initFloorInstance, hne]

/-! ### Tool switching and the slab merge -/

/-- C18, the code at the failing input: after the first click of the add-slab tool at
`(10, 10)` on the ground floor, `selectTool('select')` leaves the pending slab anchor and
the ghost rectangle of that floor in place. -/
theorem select_tool_keeps_slab_draw :
    (onStageMouseDownAddSlab (clickAt 10 10).1 calibratedFloor
        (clickAt 10 10).2).floor.temp.slabStart = some ⟨10, 10⟩ ∧
    (selectTool
        { GF := (onStageMouseDownAddSlab (clickAt 10 10).1 calibratedFloor
            (clickAt 10 10).2).floor }
        "select").GF.temp.slabStart = some ⟨10, 10⟩ ∧
    (selectTool
        { GF := (onStageMouseDownAddSlab (clickAt 10 10).1 calibratedFloor
            (clickAt 10 10).2).floor }
        "select").GF.temp.ghostSlab = some { x := 10, y := 10, width := 0, height := 0 } := by
  refine ⟨?_, ?_, ?_⟩ <;>
    simp [selectTool, cancelDrawing, onStageMouseDownAddSlab, clickAt, applySnapping,
      calibratedFloor, initFloorInstance]

theorem hiddenByMerge_hideBeam (gcr : Node → Box) (pairs : List (Node × Node)) (n : Node) :
    hiddenByMerge gcr pairs (hideBeam n) = hideBeam n := by
  simp [hiddenByMerge, hideBeam]

theorem foldl_pairStep (gcr : Node → Box) (pairs : List (Node × Node)) :
    ∀ (layer : List Node) (k : Nat),
      (pairs.foldl (pairStep gcr) (layer, k)).1 = layer.map (hiddenByMerge gcr pairs) := by
  induction pairs with
  | nil =>
    intro layer k
    have hid : hiddenByMerge gcr [] = id := by
      funext n
      simp [hiddenByMerge]
    simp [hid]
  | cons pr rest ih =>
    intro layer k
    rw [List.foldl_cons]
    simp only [pairStep]
    rw [ih, List.map_map]
    apply List.map_congr_left
    intro n _
    simp only [Function.comp]
    by_cases h : hidesBeam gcr (unionBox (gcr pr.1) (gcr pr.2)) n = true
    · rw [if_pos h, hiddenByMerge_hideBeam]
      simp only [hidesBeam, Bool.and_eq_true] at h
      simp [hiddenByMerge, h.1.1, h.1.2, h.2]
    · rw [if_neg h]
      simp only [hidesBeam, Bool.and_eq_true, not_and] at h
      by_cases h1 : (n.name == "structure_beam") = true
      · by_cases h2 : (n.beamType != some "Hidden") = true
        · have h3 : centreInside (unionBox (gcr pr.1) (gcr pr.2)) (gcr n) = false := by
            cases hc : centreInside (unionBox (gcr pr.1) (gcr pr.2)) (gcr n) with
            | false => rfl
            | true => exact absurd h2 (h ⟨h1, hc⟩)
          simp only [hiddenByMerge, List.any_cons, h3, Bool.false_or]
        · simp [hiddenByMerge, h1, h2]
      · simp [hiddenByMerge, h1]

theorem slabMergeEffect_hiddenByMerge (gcr : Node → Box) (pairs : List (Node × Node))
    (n : Node) : SlabMergeEffect gcr pairs n (hiddenByMerge gcr pairs n) := by
  by_cases hcond : (n.name == "structure_beam" && n.beamType != some "Hidden" &&
      pairs.any (fun pr => centreInside (unionBox (gcr pr.1) (gcr pr.2)) (gcr n))) = true
  · have hval : hiddenByMerge gcr pairs n = hideBeam n := by
      simp only [hiddenByMerge, hcond, if_true]
    simp only [Bool.and_eq_true, beq_iff_eq, List.any_eq_true] at hcond
    obtain ⟨⟨hname, -⟩, pr, hpr, hin⟩ := hcond
    rw [hval]
    refine ⟨rfl, fun h => absurd hname h, fun _ => ?_⟩
    constructor
    · intro _
      exact Or.inr ⟨pr, hpr, hin⟩
    · intro _
      rfl
  · have hval : hiddenByMerge gcr pairs n = n := by
      simp only [hiddenByMerge, hcond, if_false, Bool.false_eq_true]
    rw [hval]
    refine ⟨rfl, fun _ => rfl, fun hname => ?_⟩
    constructor
    · intro h
      exact Or.inl h
    · rintro (h | ⟨pr, hpr, hin⟩)
      · exact h
      · by_contra hne
        apply hcond
        simp only [Bool.and_eq_true, beq_iff_eq, List.any_eq_true, bne_iff_ne, ne_eq]
        exact ⟨⟨hname, hne⟩, pr, hpr, hin⟩

theorem btnMergeClick_slab_layer (gcr : Node → Box) (env : Env) (f : Floor)
    (hbeams : (selectedBeams f).length < 2) (hslabs : 2 ≤ (selectedSlabs f).length) :
    (btnMergeClick gcr env f).floor.structureLayer =
      f.structureLayer.map (hiddenByMerge gcr (slabPairs (selectedSlabs f))) ∧
    (btnMergeClick gcr env f).error = none := by
  have hnone : mergeBeams env f = none := by
    have : ¬ (2 ≤ (selectedBeams f).length) := by omega
    simp [mergeBeams, this]
  simp only [btnMergeClick, hnone, hslabs, ge_iff_le, if_true]
  constructor
  · split_ifs <;> exact foldl_pairStep gcr _ _ _
  · split_ifs <;> rfl

/-- C19: when at least two slabs and fewer than two beams are selected, the slab merge
changes the children of the structure layer one by one as follows: nothing but the type,
the stroke colour and the dash pattern of a child can change, a child that is not a beam
(so every slab) is unchanged, and a beam has type `Hidden` afterwards if and only if it was
`Hidden` before or, for some pair of selected slabs, the centre of its client rectangle
lies inside the union box of the pair, more than 2 away from its border. -/
theorem slab_merge_hides_inner_beams (getClientRect : Node → Box) (env : Env) (f : Floor)
    (hbeams : (selectedBeams f).length < 2) (hslabs : 2 ≤ (selectedSlabs f).length) :
    List.Forall₂ (SlabMergeEffect getClientRect (slabPairs (selectedSlabs f)))
      f.structureLayer (btnMergeClick getClientRect env f).floor.structureLayer ∧
    (btnMergeClick getClientRect env f).error = none := by
  obtain ⟨h1, h2⟩ := btnMergeClick_slab_layer getClientRect env f hbeams hslabs
  refine ⟨?_, h2⟩
  rw [h1, List.forall₂_map_right_iff, List.forall₂_same]
  intro n _
  exact slabMergeEffect_hiddenByMerge getClientRect _ n

/-- C19 at a concrete input: on `twoSlabFloor` the merge of `S1` and `S2` hides the beam
`B1` on their common edge, whose centre `(100, 50)` is inside the union box
`(0, 0, 200, 100)`, and leaves the beam `B2` on the border as it was. -/
theorem slab_merge_hides_inner_beams_witness :
    (selectedBeams twoSlabFloor).length < 2 ∧ 2 ≤ (selectedSlabs twoSlabFloor).length ∧
    List.Forall₂ (SlabMergeEffect plainClientRect (slabPairs (selectedSlabs twoSlabFloor)))
      twoSlabFloor.structureLayer
      (btnMergeClick plainClientRect {} twoSlabFloor).floor.structureLayer ∧
    (btnMergeClick plainClientRect {} twoSlabFloor).floor.structureLayer.map Node.beamType =
      [none, none, none, some "Hidden", some "Primary"] := by
  have hb : (selectedBeams twoSlabFloor).length < 2 := by decide
  have hs : 2 ≤ (selectedSlabs twoSlabFloor).length := by decide
  have hsel : selectedSlabs twoSlabFloor =
      [{ uid := 1, className := "Rect", name := "structure_slab", id := "S1",
         x := 0, y := 0, width := 100, height := 100 },
       { uid := 2, className := "Rect", name := "structure_slab", id := "S2",
         x := 100, y := 0, width := 100, height := 100 }] := by
    rfl
  have h := slab_merge_hides_inner_beams plainClientRect {} twoSlabFloor hb hs
  refine ⟨hb, hs, h.1, ?_⟩
  rw [(btnMergeClick_slab_layer plainClientRect {} twoSlabFloor hb hs).1, hsel]
  have e1 : ¬ (("Rect" : String) = "Line") := by decide
  have e2 : ¬ (("structure_slab" : String) = "structure_beam") := by decide
  have e3 : ¬ (("" : String) = "structure_beam") := by decide
  have e4 : ¬ (("Primary" : String) = "Hidden") := by decide
  norm_num [slabPairs, hiddenByMerge, twoSlabFloor, initFloorInstance, plainClientRect,
    unionBox, centreInside, hideBeam, e1, e2, e3, e4]

/-! ### The point returned by snapping -/

/-- The state of the scan of `applySnapping` after the endpoints `seen`, for the
tolerance `T`: either no endpoint seen is within the tolerance and the state is the
initial one, or the state holds the first nearest endpoint seen. -/
theorem snapStep_invariant (x y T : ℚ) (hT : 0 < T) (l seen : List Point)
    (acc : Dist × Point)
    (h : (acc = (Dist.lin T, ⟨x, y⟩) ∧ ∀ e ∈ seen, ¬ sqDist e ⟨x, y⟩ < T * T) ∨
      (acc.1 = Dist.root (sqDist acc.2 ⟨x, y⟩) ∧ acc.2 ∈ seen ∧
        sqDist acc.2 ⟨x, y⟩ < T * T ∧ ∀ e ∈ seen, sqDist acc.2 ⟨x, y⟩ ≤ sqDist e ⟨x, y⟩)) :
    (l.foldl (snapStep x y) acc = (Dist.lin T, ⟨x, y⟩) ∧
        ∀ e ∈ seen ++ l, ¬ sqDist e ⟨x, y⟩ < T * T) ∨
      ((l.foldl (snapStep x y) acc).1 =
          Dist.root (sqDist (l.foldl (snapStep x y) acc).2 ⟨x, y⟩) ∧
        (l.foldl (snapStep x y) acc).2 ∈ seen ++ l ∧
        sqDist (l.foldl (snapStep x y) acc).2 ⟨x, y⟩ < T * T ∧
        ∀ e ∈ seen ++ l,
          sqDist (l.foldl (snapStep x y) acc).2 ⟨x, y⟩ ≤ sqDist e ⟨x, y⟩) := by
  induction l generalizing acc seen with
  | nil => simpa using h
  | cons p ps ih =>
    have hstep : (snapStep x y acc p = (Dist.lin T, ⟨x, y⟩) ∧
          ∀ e ∈ seen ++ [p], ¬ sqDist e ⟨x, y⟩ < T * T) ∨
        ((snapStep x y acc p).1 = Dist.root (sqDist (snapStep x y acc p).2 ⟨x, y⟩) ∧
          (snapStep x y acc p).2 ∈ seen ++ [p] ∧
          sqDist (snapStep x y acc p).2 ⟨x, y⟩ < T * T ∧
          ∀ e ∈ seen ++ [p], sqDist (snapStep x y acc p).2 ⟨x, y⟩ ≤ sqDist e ⟨x, y⟩) := by
      rcases h with ⟨hacc, hnone⟩ | ⟨hd, hmem, hlt, hmin⟩
      · subst hacc
        by_cases hp : sqDist p ⟨x, y⟩ < T * T
        · right
          have hs : snapStep x y (Dist.lin T, ⟨x, y⟩) p = (Dist.root (sqDist p ⟨x, y⟩), p) := by
            simp only [snapStep, hypot, Dist.lt, sqDist] at hp ⊢
            simp [hT, hp]
          rw [hs]
          refine ⟨rfl, by simp, hp, ?_⟩
          intro e he
          rcases List.mem_append.mp he with he | he
          · exact le_of_lt (lt_of_lt_of_le hp (not_lt.mp (hnone e he)))
          · simp only [List.mem_singleton] at he
            rw [he]
        · left
          have hs : snapStep x y (Dist.lin T, ⟨x, y⟩) p = (Dist.lin T, ⟨x, y⟩) := by
            simp only [snapStep, hypot, Dist.lt, sqDist] at hp ⊢
            simp [hp]
          refine ⟨hs, ?_⟩
          intro e he
          rcases List.mem_append.mp he with he | he
          · exact hnone e he
          · simp only [List.mem_singleton] at he
            rw [he]; exact hp
      · right
        rcases acc with ⟨d, q⟩
        simp only at hd hmem hlt hmin
        subst hd
        by_cases hp : sqDist p ⟨x, y⟩ < sqDist q ⟨x, y⟩
        · have hs : snapStep x y (Dist.root (sqDist q ⟨x, y⟩), q) p =
              (Dist.root (sqDist p ⟨x, y⟩), p) := by
            simp only [snapStep, hypot, Dist.lt, sqDist] at hp ⊢
            simp [hp]
          rw [hs]
          refine ⟨rfl, by simp, lt_trans hp hlt, ?_⟩
          intro e he
          rcases List.mem_append.mp he with he | he
          · exact le_of_lt (lt_of_lt_of_le hp (hmin e he))
          · simp only [List.mem_singleton] at he
            rw [he]
        · have hs : snapStep x y (Dist.root (sqDist q ⟨x, y⟩), q) p =
              (Dist.root (sqDist q ⟨x, y⟩), q) := by
            simp only [snapStep, hypot, Dist.lt, sqDist] at hp ⊢
            simp [hp]
          rw [hs]
          refine ⟨rfl, by simp [hmem], hlt, ?_⟩
          intro e he
          rcases List.mem_append.mp he with he | he
          · exact hmin e he
          · simp only [List.mem_singleton] at he
            rw [he]; exact not_lt.mp hp
    have := ih (seen ++ [p]) (snapStep x y acc p) hstep
    simpa [List.append_assoc] using this

theorem applySnapping_point_on (env : Env) (f : Floor) (x y : ℚ) (h : env.snap = true) :
    (applySnapping env f x y).2 =
      ((wallEndpoints f.data.walls).foldl (snapStep x y)
        (Dist.lin (SNAP_DIST / f.zoom), ⟨x, y⟩)).2 := by
  unfold applySnapping
  simp only [h, Bool.not_true, Bool.false_eq_true, if_false]
  split_ifs <;> rfl

/-- C23: on a stage with positive zoom, with snapping enabled, `applySnapping` returns
a wall endpoint if and only if some wall endpoint lies strictly within the tolerance
`SNAP_DIST / zoom` of the point `p = (x, y)`; in that case the endpoint returned is within
the tolerance and no wall endpoint is strictly closer to `p`; otherwise `p` is returned
unchanged. With snapping disabled `p` is returned unchanged. Distances are compared by
their squares. -/
theorem snapping_returns_nearest_endpoint (env : Env) (f : Floor) (x y : ℚ)
    (hz : 0 < f.zoom) :
    (env.snap = true →
      ((applySnapping env f x y).2 ∈ wallEndpoints f.data.walls ↔
        ∃ e ∈ wallEndpoints f.data.walls,
          sqDist e ⟨x, y⟩ < (SNAP_DIST / f.zoom) * (SNAP_DIST / f.zoom)) ∧
      ((∃ e ∈ wallEndpoints f.data.walls,
          sqDist e ⟨x, y⟩ < (SNAP_DIST / f.zoom) * (SNAP_DIST / f.zoom)) →
        sqDist (applySnapping env f x y).2 ⟨x, y⟩ <
          (SNAP_DIST / f.zoom) * (SNAP_DIST / f.zoom) ∧
        ∀ e ∈ wallEndpoints f.data.walls,
          ¬ sqDist e ⟨x, y⟩ < sqDist (applySnapping env f x y).2 ⟨x, y⟩) ∧
      ((¬ ∃ e ∈ wallEndpoints f.data.walls,
          sqDist e ⟨x, y⟩ < (SNAP_DIST / f.zoom) * (SNAP_DIST / f.zoom)) →
        (applySnapping env f x y).2 = ⟨x, y⟩)) ∧
    (env.snap = false → (applySnapping env f x y).2 = ⟨x, y⟩) := by
  constructor
  · intro hs
    have hT : 0 < SNAP_DIST / f.zoom := div_pos (by norm_num [SNAP_DIST]) hz
    have hinv := snapStep_invariant x y (SNAP_DIST / f.zoom) hT
      (wallEndpoints f.data.walls) [] (Dist.lin (SNAP_DIST / f.zoom), ⟨x, y⟩)
      (Or.inl ⟨rfl, by simp⟩)
    rw [← applySnapping_point_on env f x y hs] at hinv
    simp only [List.nil_append] at hinv
    rcases hinv with ⟨hbest, hnone⟩ | ⟨-, hmem, hlt, hmin⟩
    · have hp : (applySnapping env f x y).2 = ⟨x, y⟩ := by
        rw [applySnapping_point_on env f x y hs, hbest]
      have hno : ¬ ∃ e ∈ wallEndpoints f.data.walls,
          sqDist e ⟨x, y⟩ < (SNAP_DIST / f.zoom) * (SNAP_DIST / f.zoom) := by
        rintro ⟨e, he, hlt⟩
        exact hnone e he hlt
      refine ⟨⟨?_, fun h => absurd h hno⟩, fun h => absurd h hno, fun _ => hp⟩
      intro hin
      rw [hp] at hin
      exfalso
      apply hnone _ hin
      have h0 : sqDist (⟨x, y⟩ : Point) ⟨x, y⟩ = 0 := by simp [sqDist]
      rw [h0]
      exact mul_pos hT hT
    · have hex : ∃ e ∈ wallEndpoints f.data.walls,
          sqDist e ⟨x, y⟩ < (SNAP_DIST / f.zoom) * (SNAP_DIST / f.zoom) := ⟨_, hmem, hlt⟩
      exact ⟨⟨fun _ => hex, fun _ => hmem⟩,
        fun _ => ⟨hlt, fun e he => not_lt.mpr (hmin e he)⟩, fun h => absurd hex h⟩
  · intro hs
    simp [applySnapping, hs]

/-- C23 at a concrete input: snapping enabled, the wall `(0, 0) -> (10, 0)`, zoom 1 and
the point `(3, 4)`, at distance 5 from the endpoint `(0, 0)`. -/
theorem snapping_returns_nearest_endpoint_witness :
    0 < oneWallFloor.zoom ∧
    ((applySnapping { snap := true } oneWallFloor 3 4).2 ∈
        wallEndpoints oneWallFloor.data.walls ↔
      ∃ e ∈ wallEndpoints oneWallFloor.data.walls,
        sqDist e ⟨3, 4⟩ < (SNAP_DIST / oneWallFloor.zoom) * (SNAP_DIST / oneWallFloor.zoom)) ∧
    ((∃ e ∈ wallEndpoints oneWallFloor.data.walls,
        sqDist e ⟨3, 4⟩ < (SNAP_DIST / oneWallFloor.zoom) * (SNAP_DIST / oneWallFloor.zoom)) →
      sqDist (applySnapping { snap := true } oneWallFloor 3 4).2 ⟨3, 4⟩ <
        (SNAP_DIST / oneWallFloor.zoom) * (SNAP_DIST / oneWallFloor.zoom) ∧
      ∀ e ∈ wallEndpoints oneWallFloor.data.walls,
        ¬ sqDist e ⟨3, 4⟩ < sqDist (applySnapping { snap := true } oneWallFloor 3 4).2 ⟨3, 4⟩) :=
  ⟨by norm_num [oneWallFloor, initFloorInstance],
   ((snapping_returns_nearest_endpoint { snap := true } oneWallFloor 3 4
      (by norm_num [oneWallFloor, initFloorInstance])).1 rfl).1,
   ((snapping_returns_nearest_endpoint { snap := true } oneWallFloor 3 4
      (by norm_num [oneWallFloor, initFloorInstance])).1 rfl).2.1⟩

/-! ### Snapping a column onto a wall -/

/-- The point returned by `projectPointOnLine` lies on the segment. -/
theorem projectPointOnLine_on_segment (px py x1 y1 x2 y2 : ℚ) :
    ∃ t : ℚ, 0 ≤ t ∧ t ≤ 1 ∧
      projectPointOnLine px py x1 y1 x2 y2 = ⟨x1 + t * (x2 - x1), y1 + t * (y2 - y1)⟩ := by
  unfold projectPointOnLine
  simp only
  split_ifs with h1 h2 h3 h4 h5
  · exact ⟨0, le_refl _, by norm_num, by simp⟩
  · exact ⟨1, by norm_num, le_refl _, by simp⟩
  · exact ⟨_, not_lt.mp h2, not_lt.mp h3, rfl⟩
  · exact ⟨0, le_refl _, by norm_num, by simp⟩
  · exact absurd h5 (by norm_num)
  · exact absurd h4 (by norm_num)


theorem sqDist_on_line (px py x1 y1 x2 y2 s t : ℚ) :
    sqDist ⟨x1 + s * (x2 - x1), y1 + s * (y2 - y1)⟩ ⟨px, py⟩ -
      sqDist ⟨x1 + t * (x2 - x1), y1 + t * (y2 - y1)⟩ ⟨px, py⟩ =
    (s - t) * ((s + t) * ((x2 - x1) * (x2 - x1) + (y2 - y1) * (y2 - y1)) -
      2 * ((px - x1) * (x2 - x1) + (py - y1) * (y2 - y1))) := by
  simp only [sqDist]
  ring

/-- The point returned by `projectPointOnLine` is a closest point of the segment to
`(px, py)`: no point of the segment is nearer. -/
theorem projectPointOnLine_closest (px py x1 y1 x2 y2 s : ℚ) (hs0 : 0 ≤ s) (hs1 : s ≤ 1) :
    sqDist (projectPointOnLine px py x1 y1 x2 y2) ⟨px, py⟩ ≤
      sqDist ⟨x1 + s * (x2 - x1), y1 + s * (y2 - y1)⟩ ⟨px, py⟩ := by
  by_cases hlen : (x2 - x1) * (x2 - x1) + (y2 - y1) * (y2 - y1) = 0
  · obtain ⟨hC, hD⟩ := mul_self_add_mul_self_eq_zero.mp hlen
    simp [projectPointOnLine, hC, hD, sqDist]
  · have hpos : 0 < (x2 - x1) * (x2 - x1) + (y2 - y1) * (y2 - y1) :=
      lt_of_le_of_ne (add_nonneg (mul_self_nonneg _) (mul_self_nonneg _)) (Ne.symm hlen)
    obtain ⟨u, hu⟩ : ∃ u : ℚ, u = ((px - x1) * (x2 - x1) + (py - y1) * (y2 - y1)) /
        ((x2 - x1) * (x2 - x1) + (y2 - y1) * (y2 - y1)) := ⟨_, rfl⟩
    have hdot : (px - x1) * (x2 - x1) + (py - y1) * (y2 - y1) =
        u * ((x2 - x1) * (x2 - x1) + (y2 - y1) * (y2 - y1)) := by
      rw [hu]; field_simp
    have hid := fun t => sqDist_on_line px py x1 y1 x2 y2 s t
    simp only [hdot] at hid
    unfold projectPointOnLine
    simp only [hlen, ne_eq, not_false_eq_true, if_true, ← hu]
    have hlen0 := hpos.le
    split_ifs with h1 h2
    · have h := hid 0
      rw [show (Point.mk (x1 + 0 * (x2 - x1)) (y1 + 0 * (y2 - y1))) = ⟨x1, y1⟩ from by
        congr 1 <;> ring] at h
      have : 0 ≤ (s - 0) * ((s + 0) * ((x2 - x1) * (x2 - x1) + (y2 - y1) * (y2 - y1)) -
          2 * (u * ((x2 - x1) * (x2 - x1) + (y2 - y1) * (y2 - y1)))) := by
        apply mul_nonneg (by linarith)
        have h3 := mul_nonneg hs0 hlen0
        have h4 := mul_neg_of_neg_of_pos h1 hpos
        linarith
      linarith
    · have h := hid 1
      rw [show (Point.mk (x1 + 1 * (x2 - x1)) (y1 + 1 * (y2 - y1))) = ⟨x2, y2⟩ from by
        congr 1 <;> ring] at h
      have : 0 ≤ (1 - s) * (2 * (u * ((x2 - x1) * (x2 - x1) + (y2 - y1) * (y2 - y1))) -
          (s + 1) * ((x2 - x1) * (x2 - x1) + (y2 - y1) * (y2 - y1))) := by
        apply mul_nonneg (sub_nonneg.mpr hs1)
        have h3 := mul_nonneg (sub_nonneg.mpr hs1) hlen0
        have h4 := mul_pos (sub_pos.mpr h2) hpos
        linarith
      linarith
    · have h := hid u
      have : 0 ≤ (s - u) * (s - u) * ((x2 - x1) * (x2 - x1) + (y2 - y1) * (y2 - y1)) :=
        mul_nonneg (mul_self_nonneg _) hlen0
      linarith

theorem applySnapping_zoom (env : Env) (f : Floor) (x y : ℚ) :
    (applySnapping env f x y).1.zoom = f.zoom := by
  obtain ⟨i, c, h⟩ := applySnapping_floor env f x y; rw [h]

theorem findWallAt_applySnapping (env : Env) (f : Floor) (x y px py : ℚ) :
    findWallAt (applySnapping env f x y).1 px py = findWallAt f px py := by
  simp only [findWallAt, applySnapping_zoom, applySnapping_data]

/-- C24 fails as stated: on `twoWallFloor` the walls `w_1` (along `y = 0`) and `w_2`
(along `y = 6`) are both within the hit threshold 10 of the click point `(50, 5)`; `w_2`
is the nearest (distance 1 against 5, compared by squares), but `findWallAt` returns
`w_1`, the first in the wall list, and the column is centred at `(50, 0)` on `w_1`, not
at `(50, 6)` on `w_2`. -/
theorem column_snaps_to_first_wall_counterexample :
    pointToSeg 50 5 0 0 100 0 = .root 25 ∧ pointToSeg 50 5 0 6 100 6 = .root 1 ∧
    findWallAt twoWallFloor 50 5 = some ⟨"w_1", 0, 0, 100, 0, 9 / 40⟩ ∧
    columnCentre (applySnapping (clickAt 50 5).1 twoWallFloor 50 5).1
      (applySnapping (clickAt 50 5).1 twoWallFloor 50 5).2 = ⟨50, 0⟩ ∧
    projectPointOnLine 50 5 0 6 100 6 = ⟨50, 6⟩ ∧
    (onStageMouseDownAddCol (clickAt 50 5).1 twoWallFloor (clickAt 50 5).2).floor.structureLayer
      = [{ uid := 0, className := "Transformer" },
         columnRect (clickAt 50 5).1 twoWallFloor ⟨50, 0⟩] := by
  have h1 : pointToSeg 50 5 0 0 100 0 = .root 25 := by norm_num [pointToSeg]
  have h2 : pointToSeg 50 5 0 6 100 6 = .root 1 := by norm_num [pointToSeg]
  have h3 : findWallAt twoWallFloor 50 5 = some ⟨"w_1", 0, 0, 100, 0, 9 / 40⟩ := by
    simp only [findWallAt, twoWallFloor, initFloorInstance, List.find?_cons, h1]
    norm_num [Dist.lt]
  have h4 : columnCentre (applySnapping (clickAt 50 5).1 twoWallFloor 50 5).1
      (applySnapping (clickAt 50 5).1 twoWallFloor 50 5).2 = ⟨50, 0⟩ := by
    rw [applySnapping_off _ _ _ _ (by simp [clickAt])]
    simp only [columnCentre, h3]
    norm_num [projectPointOnLine]
  refine ⟨h1, h2, h3, h4, by norm_num [projectPointOnLine], ?_⟩
  rw [addCol_structureLayer (clickAt 50 5).1 twoWallFloor (clickAt 50 5).2 ⟨50, 5⟩ ⟨50, 0⟩
    (by simp [clickAt]) rfl h4]
  have hne : ¬ (("" : String) = "structure_beam") := by decide
  simp [splitBeams_eq, shortenIfSplit, isSplitBy, splitOffBeams, twoWallFloor,
    initFloorInstance, columnRect, hne]

/-- C24 (amended): with the add-col tool, when the snapped click point `p` is within the
wall hit threshold `10 / zoom` of at least one wall, the column is centred on the first
wall of the wall list that is within the threshold of `p` (which need not be the nearest
one), at the closest point of that wall's segment to `p`: the centre is the point
`projectPointOnLine` returns for that wall, it lies on the segment, and no point of the
segment is nearer to `p`. -/
theorem column_projected_onto_first_wall_hit (env : Env) (f : Floor) (e : MouseEvent)
    (pos p : Point) (hbutton : e.button ≠ 2) (hpos : e.pointer = some pos)
    (hp : (applySnapping env f pos.x pos.y).2 = p)
    (hnear : ∃ w ∈ f.data.walls,
      (pointToSeg p.x p.y w.x1 w.y1 w.x2 w.y2).lt (.lin (10 / f.zoom)) = true) :
    ∃ (w : Wall) (before after : List Wall) (c : Point),
      f.data.walls = before ++ w :: after ∧
      (∀ v ∈ before, (pointToSeg p.x p.y v.x1 v.y1 v.x2 v.y2).lt (.lin (10 / f.zoom)) = false) ∧
      (pointToSeg p.x p.y w.x1 w.y1 w.x2 w.y2).lt (.lin (10 / f.zoom)) = true ∧
      columnCentre (applySnapping env f pos.x pos.y).1 p = c ∧
      c = projectPointOnLine p.x p.y w.x1 w.y1 w.x2 w.y2 ∧
      (∃ t : ℚ, 0 ≤ t ∧ t ≤ 1 ∧ c = ⟨w.x1 + t * (w.x2 - w.x1), w.y1 + t * (w.y2 - w.y1)⟩) ∧
      (∀ s : ℚ, 0 ≤ s → s ≤ 1 →
        sqDist c p ≤ sqDist ⟨w.x1 + s * (w.x2 - w.x1), w.y1 + s * (w.y2 - w.y1)⟩ p) ∧
      (columnRect env f c).x + (columnRect env f c).width / 2 = c.x ∧
      (columnRect env f c).y + (columnRect env f c).height / 2 = c.y ∧
      (onStageMouseDownAddCol env f e).floor.structureLayer =
        (splitBeams c.x c.y ((3 / 10 : ℚ) * toNumber f.scaleFactor / 2)
          (f.structureLayer ++ [columnRect env f c]) (f.nextUid + 1)).1 := by
  have hsome : (findWallAt f p.x p.y).isSome = true := by
    simp only [findWallAt]
    exact List.find?_isSome.mpr hnear
  obtain ⟨w, hw⟩ := Option.isSome_iff_exists.mp hsome
  have hw' := hw
  simp only [findWallAt] at hw'
  obtain ⟨hwlt, before, after, hsplit, hbefore⟩ := List.find?_eq_some.mp hw'
  have hc : columnCentre (applySnapping env f pos.x pos.y).1 p =
      projectPointOnLine p.x p.y w.x1 w.y1 w.x2 w.y2 := by
    simp only [columnCentre, findWallAt_applySnapping, hw]
  refine ⟨w, before, after, _, hsplit, ?_, hwlt, hc, rfl,
    projectPointOnLine_on_segment _ _ _ _ _ _, ?_, ?_, ?_, ?_⟩
  · intro v hv
    simpa using hbefore v hv
  · intro s hs0 hs1
    exact projectPointOnLine_closest p.x p.y w.x1 w.y1 w.x2 w.y2 s hs0 hs1
  · simp only [columnRect]; ring
  · simp only [columnRect]; ring
  · exact addCol_structureLayer env f e pos _ hbutton hpos (by rw [hp, hc])

/-- C24 (amended) at a concrete input: the click at `(50, 5)` on `twoWallFloor`. -/
theorem column_projected_onto_first_wall_hit_witness :
    (clickAt 50 5).2.button ≠ 2 ∧
    (∃ w ∈ twoWallFloor.data.walls,
      (pointToSeg 50 5 w.x1 w.y1 w.x2 w.y2).lt (.lin (10 / twoWallFloor.zoom)) = true) ∧
    ∃ (w : Wall) (before after : List Wall) (c : Point),
      twoWallFloor.data.walls = before ++ w :: after ∧
      (∀ v ∈ before,
        (pointToSeg 50 5 v.x1 v.y1 v.x2 v.y2).lt (.lin (10 / twoWallFloor.zoom)) = false) ∧
      (pointToSeg 50 5 w.x1 w.y1 w.x2 w.y2).lt (.lin (10 / twoWallFloor.zoom)) = true ∧
      columnCentre (applySnapping (clickAt 50 5).1 twoWallFloor 50 5).1 ⟨50, 5⟩ = c ∧
      c = projectPointOnLine 50 5 w.x1 w.y1 w.x2 w.y2 := by
  have hbutton : (clickAt 50 5).2.button ≠ 2 := by simp [clickAt]
  have hnear : ∃ w ∈ twoWallFloor.data.walls,
      (pointToSeg 50 5 w.x1 w.y1 w.x2 w.y2).lt (.lin (10 / twoWallFloor.zoom)) = true :=
    ⟨⟨"w_2", 0, 6, 100, 6, 9 / 40⟩, by simp [twoWallFloor],
      by norm_num [pointToSeg, Dist.lt, twoWallFloor, initFloorInstance]⟩
  obtain ⟨w, before, after, c, h1, h2, h3, h4, h5, -⟩ :=
    column_projected_onto_first_wall_hit (clickAt 50 5).1 twoWallFloor (clickAt 50 5).2
      ⟨50, 5⟩ ⟨50, 5⟩ hbutton rfl (by rw [applySnapping_off _ _ _ _ (by simp [clickAt])])
      hnear
  exact ⟨hbutton, hnear, w, before, after, c, h1, h2, h3, h4, h5⟩

/-! ### Deleting a slab -/

/-- C25, the code at a failing input: the add-slab tool, at the clock value 1234, creates
the slab `S_user_1234` with the label `P1234` between `(10, 10)` and `(30, 30)`. A click
on that slab with the delete-slab tool looks for labels with the text `P_user_1234` (the
id with its first `S` replaced by `P`), finds none, and destroys the slab only: the label
`P1234` stays on the structure layer. -/
theorem delete_slab_keeps_label_of_user_slab :
    (onStageMouseDownAddSlab { now := 1234 } slabAnchoredFloor
        { pointer := some ⟨30, 30⟩ }).floor.structureLayer =
      [{ uid := 2, className := "Text", x := 20, y := 20, text := "P1234",
         fill := "rgba(255, 255, 255, 0.4)", offsetX := 10, offsetY := 10 },
       { uid := 1, className := "Rect", name := "structure_slab", id := "S_user_1234",
         x := 10, y := 10, width := 20, height := 20,
         fill := "rgba(200, 200, 200, 0.25)", stroke := "#555", strokeWidth := 1 },
       { uid := 0, className := "Transformer" }] ∧
    replaceFirst "S_user_1234" "S" "P" = "P_user_1234" ∧
    (onStageMouseDownDeleteSlab
        (onStageMouseDownAddSlab { now := 1234 } slabAnchoredFloor
          { pointer := some ⟨30, 30⟩ }).floor
        { pointer := some ⟨20, 20⟩, target := some 1 }).floor.structureLayer =
      [{ uid := 2, className := "Text", x := 20, y := 20, text := "P1234",
         fill := "rgba(255, 255, 255, 0.4)", offsetX := 10, offsetY := 10 },
       { uid := 0, className := "Transformer" }] := by
  have hid : "S_user_" ++ (toString 1234).takeRight 4 = "S_user_1234" := by decide
  have hlabel : "P" ++ (toString 1234).takeRight 4 = "P1234" := by decide
  have h1 : (onStageMouseDownAddSlab { now := 1234 } slabAnchoredFloor
        { pointer := some ⟨30, 30⟩ }).floor.structureLayer =
      [{ uid := 2, className := "Text", x := 20, y := 20, text := "P1234",
         fill := "rgba(255, 255, 255, 0.4)", offsetX := 10, offsetY := 10 },
       { uid := 1, className := "Rect", name := "structure_slab", id := "S_user_1234",
         x := 10, y := 10, width := 20, height := 20,
         fill := "rgba(200, 200, 200, 0.25)", stroke := "#555", strokeWidth := 1 },
       { uid := 0, className := "Transformer" }] := by
    norm_num [onStageMouseDownAddSlab, applySnapping, slabAnchoredFloor, calibratedFloor,
      initFloorInstance, hid, hlabel, abs_of_pos]
  refine ⟨h1, by decide, ?_⟩
  generalize (onStageMouseDownAddSlab { now := 1234 } slabAnchoredFloor
        { pointer := some ⟨30, 30⟩ }).floor = g at h1
  simp only [onStageMouseDownDeleteSlab, h1]
  rfl

/-! ### The history cursor after an undo -/

theorem stair_first_click (env : Env) (f : Floor) (x y : ℚ) (hsnap : env.snap = false)
    (hlast : f.temp.lastPoint = none) :
    (onStageMouseDownStair env f { pointer := some ⟨x, y⟩ }).floor =
      { f with temp := { f.temp with lastPoint := some ⟨x, y⟩ } } := by
  simp [onStageMouseDownStair, applySnapping_off env f x y hsnap, hlast]

theorem stair_second_click (env : Env) (f : Floor) (x y : ℚ) (last : Point)
    (hsnap : env.snap = false) (hlast : f.temp.lastPoint = some last) :
    (onStageMouseDownStair env f { pointer := some ⟨x, y⟩ }).floor =
      saveHistory (cancelDrawing (addStair f last ⟨x, y⟩)) := by
  simp [onStageMouseDownStair, applySnapping_off env f x y hsnap, hlast]

/-- C29, the code at a failing input: from the initial state of a floor, the stair tool
commits the stairs `(0, 0)-(10, 10)` and `(20, 20)-(30, 30)`, an undo follows, and the
stair tool commits `(40, 40)-(50, 50)`. The cursor is then 1 and the entry at the cursor
is the snapshot taken after the second commit, which holds the first two stairs, while
the floor holds the first and the third: `saveHistory` appends the new snapshot at the
end of the stack, at index 2, and only increments the cursor. -/
theorem history_cursor_stale_after_undo_and_commit :
    (applyEdits axisHypot (initFloorInstance "GF") undoThenCommit).historyStep = 1 ∧
    entryAtCursor (applyEdits axisHypot (initFloorInstance "GF") undoThenCommit) =
      some { walls := [], stairs := [⟨0, 0, 10, 10⟩, ⟨20, 20, 30, 30⟩] } ∧
    (applyEdits axisHypot (initFloorInstance "GF") undoThenCommit).data =
      { walls := [], stairs := [⟨0, 0, 10, 10⟩, ⟨40, 40, 50, 50⟩] } ∧
    entryAtCursor (applyEdits axisHypot (initFloorInstance "GF") undoThenCommit) ≠
      some (applyEdits axisHypot (initFloorInstance "GF") undoThenCommit).data := by
  have h : applyEdits axisHypot (initFloorInstance "GF") undoThenCommit =
      { initFloorInstance "GF" with
        data := { walls := [], stairs := [⟨0, 0, 10, 10⟩, ⟨40, 40, 50, 50⟩] }
        historyStack :=
          [{ walls := [], stairs := [⟨0, 0, 10, 10⟩] },
           { walls := [], stairs := [⟨0, 0, 10, 10⟩, ⟨20, 20, 30, 30⟩] },
           { walls := [], stairs := [⟨0, 0, 10, 10⟩, ⟨40, 40, 50, 50⟩] }]
        historyStep := 1 } := by
    simp only [applyEdits, undoThenCommit, List.foldl_cons, List.foldl_nil, applyEdit]
    rw [stair_first_click _ _ 0 0 rfl rfl]
    rw [stair_second_click _ _ 10 10 ⟨0, 0⟩ rfl rfl]
    rw [stair_first_click _ _ 20 20 rfl rfl]
    rw [stair_second_click _ _ 30 30 ⟨20, 20⟩ rfl rfl]
    have hu : undo (saveHistory (cancelDrawing (addStair
        { saveHistory (cancelDrawing (addStair
            { initFloorInstance "GF" with
              temp := { (initFloorInstance "GF").temp with lastPoint := some ⟨0, 0⟩ } }
            ⟨0, 0⟩ ⟨10, 10⟩)) with
          temp := { (saveHistory (cancelDrawing (addStair
            { initFloorInstance "GF" with
              temp := { (initFloorInstance "GF").temp with lastPoint := some ⟨0, 0⟩ } }
            ⟨0, 0⟩ ⟨10, 10⟩))).temp with lastPoint := some ⟨20, 20⟩ } }
        ⟨20, 20⟩ ⟨30, 30⟩))) =
        { initFloorInstance "GF" with
          data := { walls := [], stairs := [⟨0, 0, 10, 10⟩] }
          historyStack :=
            [{ walls := [], stairs := [⟨0, 0, 10, 10⟩] },
             { walls := [], stairs := [⟨0, 0, 10, 10⟩, ⟨20, 20, 30, 30⟩] }]
          historyStep := 0 } := by
      norm_num [saveHistory, cancelDrawing, addStair, initFloorInstance, undo]
    rw [hu]
    rw [stair_first_click _ _ 40 40 rfl rfl]
    rw [stair_second_click _ _ 50 50 ⟨40, 40⟩ rfl rfl]
    norm_num [saveHistory, cancelDrawing, addStair, initFloorInstance]
  rw [h]
  have he : entryAtCursor
      { initFloorInstance "GF" with
        data := { walls := [], stairs := [⟨0, 0, 10, 10⟩, ⟨40, 40, 50, 50⟩] }
        historyStack :=
          [{ walls := [], stairs := [⟨0, 0, 10, 10⟩] },
           { walls := [], stairs := [⟨0, 0, 10, 10⟩, ⟨20, 20, 30, 30⟩] },
           { walls := [], stairs := [⟨0, 0, 10, 10⟩, ⟨40, 40, 50, 50⟩] }]
        historyStep := 1 } =
      some { walls := [], stairs := [⟨0, 0, 10, 10⟩, ⟨20, 20, 30, 30⟩] } := by
    simp [entryAtCursor]
  refine ⟨rfl, he, rfl, ?_⟩
  rw [he]
  norm_num

/-! ### The value set by the scale tool -/

/-- C30, the code at failing inputs: with the anchor at `(0, 0)` and the second click at
`(100, 0)`, the entry `-2` is accepted (it is non-empty and a number for `isNaN`) and the
scale tool sets the scale factor to `-50`, which is not positive; the entry `0` is
accepted as well and the value assigned, `100 / 0`, is `Infinity`, which is not finite;
and with the second click on the anchor itself and the entry `2` the scale factor is set
to 0. -/
theorem scale_tool_sets_nonpositive_scale :
    promptAccepted promptMinusTwo = true ∧
    (∃ o, onStageMouseDownScale axisHypot promptMinusTwo uncalibratedFloor (clickAt 100 0).2 =
        some o ∧ o.floor.scaleFactor = some (-50) ∧ o.alerts = ["GF Scale Set."]) ∧
    promptAccepted promptZero = true ∧
    scaleToolValue axisHypot promptZero ⟨0, 0⟩ ⟨100, 0⟩ = .posInf ∧
    (∃ o, onStageMouseDownScale axisHypot promptTwo uncalibratedFloor (clickAt 0 0).2 =
        some o ∧ o.floor.scaleFactor = some 0 ∧ o.alerts = ["GF Scale Set."]) := by
  refine ⟨by decide, ?_, by decide, ?_, ?_⟩
  · simp [onStageMouseDownScale, clickAt, applySnapping, promptMinusTwo, uncalibratedFloor,
      initFloorInstance, promptAccepted, scaleToolValue, jsDivide, axisHypot, cancelDrawing]
    norm_num
  · norm_num [scaleToolValue, jsDivide, promptZero, axisHypot]
  · simp [onStageMouseDownScale, clickAt, applySnapping, promptTwo, uncalibratedFloor,
      initFloorInstance, promptAccepted, scaleToolValue, jsDivide, axisHypot, cancelDrawing]

/-! ### Failure of a submission -/

/-- C22 fails as stated: for `halfGoodResponse`, whose ground-floor result is well formed
and whose first-floor result has no `columns`, `submitAll` ends in its failure branch
(the `TypeError` of `renderResults` is caught and `Failed` is alerted), but the ground
floor has already been replaced (its stored results are set and its layer holds the new
transformer and the column `C1`), and the first floor has its stored results replaced
and its layer emptied down to a new transformer. -/
theorem submit_failure_after_partial_ingestion_counterexample :
    (submitAll {} (.response halfGoodResponse)).alerts = ["Failed"] ∧
    (submitAll {} (.response halfGoodResponse)).caught =
      some "TypeError: Cannot read properties of undefined (reading 'forEach')" ∧
    (submitAll {} (.response halfGoodResponse)).app.GF.results =
      some { scale := 50, columns := some [{ id := "C1", x := 1, y := 1 }], beams := some [] } ∧
    (submitAll {} (.response halfGoodResponse)).app.GF.structureLayer =
      [{ uid := 1, className := "Transformer" },
       columnResultRect 50 2 { id := "C1", x := 1, y := 1 }] ∧
    (submitAll {} (.response halfGoodResponse)).app.FF.results = some { scale := 50 } ∧
    (submitAll {} (.response halfGoodResponse)).app.FF.structureLayer =
      [{ uid := 1, className := "Transformer" }] ∧
    ({} : App).GF.results = none ∧ ({} : App).FF.results = none ∧
    ({} : App).GF.structureLayer = [{ uid := 0, className := "Transformer" }] ∧
    ({} : App).FF.structureLayer = [{ uid := 0, className := "Transformer" }] := by
  refine ⟨rfl, rfl, rfl, rfl, rfl, rfl, rfl, rfl, rfl, rfl⟩

/-- C22 (amended): when `submitAll` ends in its failure branch because the request
fails, the body of the response is not JSON, or the response has no member `results`,
the two floors (their structure layers and stored results included), and the rest of the
module state, are exactly what they were before the submission, and `Failed` is alerted.
(When the failure comes from the ingestion of a floor result, that floor, and the ground
floor before it, are already replaced.) -/
theorem submit_failure_before_ingestion_keeps_floors (app : App) (fetched : FetchResult)
    (hguard : (isFalsy app.GF.scaleFactor && decide (app.GF.data.walls.length > 0)) = false)
    (hfetch : fetched = .networkError ∨ fetched = .parseError ∨
      ∃ res, fetched = .response res ∧ res.results = none) :
    (submitAll app fetched).app = app ∧
    (submitAll app fetched).app.GF.structureLayer = app.GF.structureLayer ∧
    (submitAll app fetched).app.GF.results = app.GF.results ∧
    (submitAll app fetched).app.FF.structureLayer = app.FF.structureLayer ∧
    (submitAll app fetched).app.FF.results = app.FF.results ∧
    (submitAll app fetched).alerts = ["Failed"] ∧
    (submitAll app fetched).caught ≠ none := by
  have h : (submitAll app fetched).app = app ∧ (submitAll app fetched).alerts = ["Failed"] ∧
      (submitAll app fetched).caught ≠ none := by
    rcases hfetch with h | h | ⟨res, h, hres⟩
    · subst h; simp [submitAll, hguard]
    · subst h; simp [submitAll, hguard]
    · subst h; simp [submitAll, hguard, hres]
  obtain ⟨h1, h2, h3⟩ := h
  refine ⟨h1, ?_, ?_, ?_, ?_, h2, h3⟩ <;> rw [h1]

/-- C22 (amended) at a concrete input: the request fails on the initial state. -/
theorem submit_failure_before_ingestion_keeps_floors_witness :
    (submitAll {} .networkError).app = {} ∧
    (submitAll {} .networkError).alerts = ["Failed"] :=
  ⟨(submit_failure_before_ingestion_keeps_floors {} .networkError (by decide)
      (Or.inl rfl)).1,
   (submit_failure_before_ingestion_keeps_floors {} .networkError (by decide)
      (Or.inl rfl)).2.2.2.2.2.1⟩

/-! ### Entries that the scale tool accepts although they are not numbers -/

/-- C12, the code at failing inputs: on `anchoredFloor` (scale factor 50, anchor
`(0, 0)`) with the second click at `(100, 0)`, a cancelled prompt leaves the scale factor
at 50. The entry of a single blank is not a number, but it passes the test
`real && !isNaN(real)` (it is not empty, and the conversion that `isNaN` applies gives 0),
while `parseFloat` gives `NaN`: the value assigned to the scale factor is
`100 / NaN = NaN`, so the scale factor does not stay as it was (the result of the handler
is `none`, the value being one that a floor of the model cannot hold). The entry `0x10`
is accepted in the same way as the number 16, but `parseFloat` gives 0 and the value
assigned is `100 / 0 = Infinity`, not `100 / 16`. -/
theorem scale_tool_accepts_blank_entry :
    anchoredFloor.scaleFactor = some 50 ∧
    (∃ o, onStageMouseDownScale axisHypot {} anchoredFloor (clickAt 100 0).2 = some o ∧
      o.floor.scaleFactor = some 50) ∧
    promptAccepted promptBlank = true ∧
    scaleToolValue axisHypot promptBlank ⟨0, 0⟩ ⟨100, 0⟩ = .nan ∧
    onStageMouseDownScale axisHypot promptBlank anchoredFloor (clickAt 100 0).2 = none ∧
    promptAccepted promptHex = true ∧
    scaleToolValue axisHypot promptHex ⟨0, 0⟩ ⟨100, 0⟩ = .posInf ∧
    onStageMouseDownScale axisHypot promptHex anchoredFloor (clickAt 100 0).2 = none := by
  refine ⟨rfl, ?_, by decide, ?_, ?_, by decide, ?_, ?_⟩
  · simp [onStageMouseDownScale, clickAt, applySnapping, anchoredFloor, initFloorInstance,
      promptAccepted, cancelDrawing]
  · simp [scaleToolValue, jsDivide, promptBlank]
  · simp [onStageMouseDownScale, clickAt, applySnapping, anchoredFloor, initFloorInstance,
      promptAccepted, promptBlank, scaleToolValue, jsDivide]
  · norm_num [scaleToolValue, jsDivide, promptHex, axisHypot]
  · simp [onStageMouseDownScale, clickAt, applySnapping, anchoredFloor, initFloorInstance,
      promptAccepted, promptHex, scaleToolValue, jsDivide, axisHypot]

end Drafting

/-! ## Properties of the analysis tables -/

namespace Analysis

theorem slabType_oneWay_iff (width height : ℚ) (hw : 0 < width) (hh : 0 < height) :
    slabType width height = "One-way" ↔
      401 / 200 ≤ max width height / min width height := by
  have hmin : 0 < min width height := lt_min hw hh
  have hmax : 0 < max width height := lt_of_lt_of_le hw (le_max_left _ _)
  have hr : 0 ≤ max width height / min width height := le_of_lt (div_pos hmax hmin)
  have hne : ("Two-way" : String) ≠ "One-way" := by decide
  unfold slabType slabRatio toFixed2
  rw [if_pos hr]
  constructor
  · intro h
    by_contra hlt
    have hfl : ⌊max width height / min width height * 100 + 1 / 2⌋ ≤ 200 := by
      have : ⌊max width height / min width height * 100 + 1 / 2⌋ < 201 := by
        rw [Int.floor_lt]
        push_cast
        linarith [not_le.mp hlt]
      omega
    have hq : ((⌊max width height / min width height * 100 + 1 / 2⌋ : ℤ) : ℚ) ≤ 200 := by
      exact_mod_cast hfl
    have hnot : ¬ ((⌊max width height / min width height * 100 + 1 / 2⌋ : ℚ) / 100 > 2) := by
      rw [gt_iff_lt, not_lt, div_le_iff₀ (by norm_num)]
      linarith
    rw [if_neg hnot] at h
    exact hne h
  · intro h
    have hfl : (201 : ℤ) ≤ ⌊max width height / min width height * 100 + 1 / 2⌋ := by
      rw [Int.le_floor]
      push_cast
      linarith
    have hq : (201 : ℚ) ≤ ((⌊max width height / min width height * 100 + 1 / 2⌋ : ℤ) : ℚ) := by
      exact_mod_cast hfl
    have hgt : (⌊max width height / min width height * 100 + 1 / 2⌋ : ℚ) / 100 > 2 := by
      rw [gt_iff_lt, lt_div_iff₀ (by norm_num)]
      linarith
    rw [if_pos hgt]

/-- C20, the code at the failing input: a slab of width 2.004 and height 1 has
`max / min = 2.004 > 2`, but its ratio is rounded to `2.00` before the comparison, so the
type shown is `Two-way`; `drawSlabDetail`, which compares the unrounded ratio, draws the
same panel as one-way. -/
theorem slab_type_compares_rounded_ratio :
    max (501 / 250 : ℚ) 1 / min (501 / 250) 1 > 2 ∧
    slabRatio (501 / 250) 1 = 2 ∧
    slabType (501 / 250) 1 = "Two-way" ∧
    SvgGenerator.drawsOneWay 1 (501 / 250) = true := by
  have hmax : max (501 / 250 : ℚ) 1 = 501 / 250 := max_eq_left (by norm_num)
  have hmin : min (501 / 250 : ℚ) 1 = 1 := min_eq_right (by norm_num)
  have hfl : ⌊(501 / 250 : ℚ) / 1 * 100 + 1 / 2⌋ = 200 := by
    rw [Int.floor_eq_iff]
    constructor <;> norm_num
  have hratio : slabRatio (501 / 250) 1 = 2 := by
    unfold slabRatio toFixed2
    rw [hmax, hmin, if_pos (by norm_num), hfl]
    norm_num
  refine ⟨by rw [hmax, hmin]; norm_num, hratio, ?_, ?_⟩
  · unfold slabType
    rw [hratio]
    simp
  · simp only [SvgGenerator.drawsOneWay]
    norm_num

end Analysis

